import Mathlib

/-!
# A verification development for the mpad command parser

This file gives a shallow embedding, in Lean 4, of the core input parser of
the mpad APRS daemon (`src/input_parser.py` together with the weekday-offset
helper from `src/utility_modules.py`), and proves properties of it.

Strings are modelled as `List Char`.  The handful of regular expressions used
by the Python source (`re.search` / `re.findall` / `re.sub` with
`re.IGNORECASE`) are modelled by executable matchers built from a small set of
combinators; each matcher is a direct transcription of one regex of the
source, including the greedy/backtracking behaviour of the quantifiers and
Python's `\b` word-boundary semantics.  External collaborator modules that are
not part of the parser core (aprs.fi position lookup, geopy forward/reverse
geocoding, airport data, maidenhead conversion, configuration) are modelled as
an explicit environment of functions, mirroring the interfaces the parser
calls.
-/

/-- Strings as lists of characters. -/
abbrev Str := List Char

/-- Conversion from a Lean string literal to our string model. -/
def S (s : String) : Str := s.toList

/-- Python `\w` (restricted to ASCII, which covers APRS traffic):
letters, digits and underscore. -/
def isWordChar (c : Char) : Bool := c.isAlpha || c.isDigit || c == '_'

/-- Python `\s`: space, tab, newline, carriage return, form feed,
vertical tab. -/
def isSpaceChar (c : Char) : Bool :=
  c == ' ' || c == '\t' || c == '\n' || c == '\r' || c == '\x0b' || c == '\x0c'

/-- Python `\d`. -/
def isDigitChar (c : Char) : Bool := c.isDigit

/-- Python `[a-zA-Z]`. -/
def isAlphaChar (c : Char) : Bool := c.isAlpha

/-- Python `[a-zA-Z0-9]`. -/
def isAlnumChar (c : Char) : Bool := c.isAlpha || c.isDigit

/-- Python `\D` (complement of `\d`). -/
def isNonDigitChar (c : Char) : Bool := !c.isDigit

/-- Python `\S` (complement of `\s`). -/
def isNonSpaceChar (c : Char) : Bool := !isSpaceChar c

/-- Python `.` (matches anything but a newline). -/
def isDotChar (c : Char) : Bool := c != '\n'

/-- Character range test, e.g. `[0-7]`. -/
def inRange (lo hi c : Char) : Bool := lo ≤ c && c ≤ hi

/-- Python `str.upper()` (ASCII). -/
def pyUpper (s : Str) : Str := s.map Char.toUpper

/-- Python `str.lower()` (ASCII). -/
def pyLower (s : Str) : Str := s.map Char.toLower

/-- Python `str.strip()`: remove leading and trailing whitespace. -/
def pyStrip (s : Str) : Str :=
  ((s.dropWhile isSpaceChar).reverse.dropWhile isSpaceChar).reverse

/-- Python truthiness of an optional string (`if x:`): `None` and the empty
string are falsy. -/
def truthy : Option Str → Bool
  | none => false
  | some s => !s.isEmpty

/-- Python f-string rendering of an optional string (`None` renders as the
four characters `None`). -/
def fmtOpt : Option Str → Str
  | none => S ("None")
  | some s => s

/-- Case-insensitive comparison of two characters (ASCII case folding, as in
`re.IGNORECASE`). -/
def charIEq (a b : Char) : Bool := a.toLower == b.toLower

/-- Case-insensitive literal match of `w` against a prefix of `s`; returns the
actually matched text and the rest of the input. -/
def litIMatch : Str → Str → Option (Str × Str)
  | [], s => some ([], s)
  | _ :: _, [] => none
  | w :: ws, c :: cs =>
    if charIEq w c then
      (litIMatch ws cs).map (fun p => (c :: p.1, p.2))
    else
      none

/-- Length of the maximal prefix of `s` whose characters satisfy `p`. -/
def munchCount (p : Char → Bool) : Str → Nat
  | [] => 0
  | c :: cs => if p c then munchCount p cs + 1 else 0

/-- `[n, n-1, ..., 0]`: the candidate lengths of a greedy quantifier, longest
first (regex backtracking order). -/
def countdown : Nat → List Nat
  | 0 => [0]
  | n + 1 => (n + 1) :: countdown n

/-- `[0, 1, ..., n]`: candidate lengths of a lazy quantifier, shortest
first. -/
def countup (n : Nat) : List Nat := List.range (n + 1)

/-- A matcher: given the character immediately before the current position
(`none` at the start of the string) and the rest of the input, try to match at
this very position, returning the number of characters consumed and the
captured data. -/
abbrev M (α : Type) := Option Char → Str → Option (Nat × α)

/-- Whether an optional character is a word character (used by `\b`;
beyond either end of the string counts as a non-word character). -/
def wordAt : Option Char → Bool
  | none => false
  | some c => isWordChar c

/-- The empty matcher producing capture `a`. -/
def ret (a : α) : M α := fun _ _ => some (0, a)

/-- Map over the capture of a matcher. -/
def capMap (f : α → β) (m : M α) : M β := fun prev s =>
  (m prev s).map (fun p => (p.1, f p.2))

/-- `\b`: zero-width word-boundary assertion, then continue with `k`. -/
def wbM (k : M α) : M α := fun prev s =>
  if wordAt prev != wordAt s.head? then k prev s else none

/-- `$`: zero-width end-of-string assertion (Python also accepts a position
just before a final newline), then continue with `k`. -/
def endM (k : M α) : M α := fun prev s =>
  if s.isEmpty || s == [('\n')] then k prev s else none

/-- The previous-character value after consuming `xs` (falling back to the
old previous character when `xs` is empty). -/
def lastOr (prev : Option Char) (xs : Str) : Option Char :=
  match xs.getLast? with
  | some c => some c
  | none => prev

/-- Case-insensitive literal, then continue; the continuation receives the
actually matched text. -/
def litM (w : Str) (k : Str → M α) : M α := fun prev s =>
  match litIMatch w s with
  | none => none
  | some (act, rest) =>
    (k act (lastOr prev act) rest).map (fun p => (act.length + p.1, p.2))

/-- Alternation of literals `(w₁|w₂|…)`, then continue: each alternative is
tried in order with the full continuation, as regex backtracking does. -/
def altM (ws : List Str) (k : Str → M α) : M α := fun prev s =>
  ws.findSome? (fun w => litM w k prev s)

/-- Bounded repetition `p{lo,hi}` of a character class with greedy
backtracking (longest candidate first), then continue; the continuation
receives the consumed text. -/
def repM (p : Char → Bool) (lo hi : Nat) (k : Str → M α) : M α := fun prev s =>
  ((countdown (min hi (munchCount p s))).filter (fun i => lo ≤ i)).findSome?
    (fun i => ((k (s.take i)) (lastOr prev (s.take i)) (s.drop i)).map
      (fun q => (i + q.1, q.2)))

/-- Greedy `p*`, then continue. -/
def starM (p : Char → Bool) (k : Str → M α) : M α := fun prev s =>
  repM p 0 (s.length) k prev s

/-- Greedy `p+`, then continue. -/
def plusM (p : Char → Bool) (k : Str → M α) : M α := fun prev s =>
  repM p 1 (s.length) k prev s

/-- Lazy `p*?`, then continue (shortest candidate first). -/
def lazyStarM (p : Char → Bool) (k : Str → M α) : M α := fun prev s =>
  ((countup (munchCount p s))).findSome?
    (fun i => ((k (s.take i)) (lastOr prev (s.take i)) (s.drop i)).map
      (fun q => (i + q.1, q.2)))

/-- Ordered alternation of arbitrary matchers. -/
def orElseM (a b : M α) : M α := fun prev s =>
  match a prev s with
  | some r => some r
  | none => b prev s

/-- `re.search`: try the matcher at every position, left to right, and return
the captures of the first (leftmost) match. -/
def searchAux (m : M α) : Option Char → Str → Option α
  | prev, [] => (m prev []).map (fun p => p.2)
  | prev, c :: rest =>
    match m prev (c :: rest) with
    | some (_, a) => some a
    | none => searchAux m (some c) rest

/-- `re.search(pattern, s)` from position 0. -/
def reSearch (m : M α) (s : Str) : Option α := searchAux m none s

/-- Auxiliary scan for `re.sub(pattern, "", s)`: walk the string left to
right, deleting every (non-overlapping, leftmost) match; a zero-width match
keeps the current character and advances, as Python does with an empty
replacement. -/
def subAux (m : M α) : Option Char → Str → Nat → Str
  | _, s, 0 => s
  | prev, s, fuel + 1 =>
    match m prev s with
    | some (n + 1, _) => subAux m (lastOr prev (s.take (n + 1))) (s.drop (n + 1)) fuel
    | _ =>
      match s with
      | [] => []
      | c :: rest => c :: subAux m (some c) rest fuel

/-- `re.sub(pattern, "", s)`. -/
def reSub (m : M α) (s : Str) : Str := subAux m none s s.length

/-- `re.sub(pattern, "", s).strip()` — the idiom every handler of the source
uses to consume a claimed span. -/
def removeAll (m : M α) (s : Str) : Str := pyStrip (reSub m s)

-- ### Generic facts about the matching primitives

theorem dropWhile_length_le (p : Char → Bool) (s : Str) :
    (s.dropWhile p).length ≤ s.length := by
  induction s with
  | nil => simp [List.dropWhile]
  | cons c cs ih =>
    by_cases h : p c = true <;> simp [List.dropWhile, h] <;> omega

theorem pyStrip_length_le (s : Str) : (pyStrip s).length ≤ s.length := by
  unfold pyStrip
  calc ((s.dropWhile isSpaceChar).reverse.dropWhile isSpaceChar).reverse.length
      = ((s.dropWhile isSpaceChar).reverse.dropWhile isSpaceChar).length := by
        simp
    _ ≤ (s.dropWhile isSpaceChar).reverse.length := dropWhile_length_le _ _
    _ = (s.dropWhile isSpaceChar).length := by simp
    _ ≤ s.length := dropWhile_length_le _ _

theorem subAux_length_le (m : M α) :
    ∀ (fuel : Nat) (prev : Option Char) (s : Str),
      (subAux m prev s fuel).length ≤ s.length := by
  intro fuel
  induction fuel with
  | zero => intro prev s; simp [subAux]
  | succ n ih =>
    intro prev s
    unfold subAux
    cases hm : m prev s with
    | some r =>
      rcases r with ⟨nn, a⟩
      cases nn with
      | zero =>
        simp only
        cases s with
        | nil => simp
        | cons c rest =>
          simpa [List.length_cons] using ih (some c) rest
      | succ k =>
        simp only
        calc (subAux m (lastOr prev (s.take (k+1))) (s.drop (k+1)) n).length
            ≤ (s.drop (k+1)).length := ih _ _
          _ ≤ s.length := by simp
    | none =>
      simp only
      cases s with
      | nil => simp
      | cons c rest =>
        simpa [List.length_cons] using ih (some c) rest

theorem reSub_length_le (m : M α) (s : Str) : (reSub m s).length ≤ s.length :=
  subAux_length_le m s.length none s

theorem removeAll_length_le (m : M α) (s : Str) :
    (removeAll m s).length ≤ s.length :=
  le_trans (pyStrip_length_le _) (reSub_length_le m s)

theorem findSome?_isSome_of_mem {l : List α} {f : α → Option β} {x : α}
    (hx : x ∈ l) (hf : (f x).isSome) : (l.findSome? f).isSome := by
  induction l with
  | nil => cases hx
  | cons a t ih =>
    rw [List.findSome?_cons]
    cases hfa : f a with
    | some b => simp
    | none =>
      rcases List.mem_cons.mp hx with h | h
      · subst h; rw [hfa] at hf; simp at hf
      · exact ih h

/-- Capture-erasing maps do not change whether a matcher succeeds. -/
theorem capMap_isSome (f : α → β) (m : M α) (prev : Option Char) (s : Str) :
    (capMap f m prev s).isSome = (m prev s).isSome := by
  unfold capMap
  cases m prev s <;> simp

/-- If a matcher succeeds everywhere a second one does, the same holds for
searching. -/
theorem searchAux_mono {m₁ : M α} {m₂ : M β}
    (h : ∀ prev s, (m₁ prev s).isSome → (m₂ prev s).isSome) :
    ∀ prev s, (searchAux m₁ prev s).isSome → (searchAux m₂ prev s).isSome := by
  intro prev s
  induction s generalizing prev with
  | nil =>
    simp only [searchAux]
    intro h1
    have : (m₁ prev []).isSome := by
      cases hm : m₁ prev [] <;> simp [hm] at h1 ⊢
    have h2 := h prev [] this
    cases hm2 : m₂ prev [] <;> simp [hm2] at h2 ⊢
  | cons c rest ih =>
    simp only [searchAux]
    intro h1
    cases hm2 : m₂ prev (c :: rest) with
    | some r => simp
    | none =>
      simp only
      cases hm1 : m₁ prev (c :: rest) with
      | some r =>
        have := h prev (c :: rest) (by simp [hm1])
        rw [hm2] at this; simp at this
      | none =>
        rw [hm1] at h1
        simp only at h1
        exact ih (some c) h1

theorem reSearch_mono {m₁ : M α} {m₂ : M β}
    (h : ∀ prev s, (m₁ prev s).isSome → (m₂ prev s).isSome)
    {s : Str} (hs : (reSearch m₁ s).isSome) : (reSearch m₂ s).isSome :=
  searchAux_mono h none s hs

-- ### The regular expressions of the source, as matchers
--
-- Each definition below transcribes exactly one regex literal of
-- `src/input_parser.py`; the Python regex is quoted in the doc comment.

/-- `[AKNW]` with `re.IGNORECASE` (US callsign prefix letter). -/
def isUsLetter (c : Char) : Bool :=
  let l := c.toLower
  l == 'a' || l == 'k' || l == 'n' || l == 'w'

/-- `[A-Z0-9]` without `re.IGNORECASE` (used by the SSID-strip regex). -/
def isUpperAlnum (c : Char) : Bool := (c.isUpper || c.isDigit)

/-- `[a-zA-Z0-9_.+-]` (local part of an email address). -/
def isEmailLocalChar (c : Char) : Bool :=
  c.isAlpha || c.isDigit || c == '_' || c == '.' || c == '+' || c == '-'

/-- `[a-zA-Z0-9-]` (domain part of an email address). -/
def isEmailDomainChar (c : Char) : Bool := c.isAlpha || c.isDigit || c == '-'

/-- `[a-zA-Z0-9-.]` (tail part of an email address). -/
def isEmailTailChar (c : Char) : Bool :=
  c.isAlpha || c.isDigit || c == '-' || c == '.'

/-- `[a-zA-Z0-9-( )]` (international zip codes). -/
def isZipChar (c : Char) : Bool :=
  c.isAlpha || c.isDigit || c == '-' || c == '(' || c == ' ' || c == ')'

/-- `[\d\.,\-]` (lat/lon tokens). -/
def isNumTokChar (c : Char) : Bool :=
  c.isDigit || c == '.' || c == ',' || c == '-'

/-- `\b(w₁|w₂|…)\b` — a whole-word alternation, capturing the matched word
(used by the `when`/`when_daytime`/modifier keyword regexes). -/
def wordAltPat (ws : List Str) : M Str :=
  wbM (altM ws (fun a => wbM (ret a)))

/-- `\b([1-7])d\b` (relative-day count). -/
def daysPat : M Str :=
  wbM (repM (inRange '1' '7') 1 1 (fun d =>
    litM (S ("d")) (fun _ => wbM (ret d))))

/-- The number alternation `(4[0-7]|3[0-9]|2[0-9]|1[0-9]|[1-9])` of the
hour-offset regex. -/
def hourNumAlt (k : Str → M α) : M α :=
  orElseM (litM (S ("4")) (fun a => repM (inRange '0' '7') 1 1 (fun b => k (a ++ b))))
  (orElseM (litM (S ("3")) (fun a => repM (inRange '0' '9') 1 1 (fun b => k (a ++ b))))
  (orElseM (litM (S ("2")) (fun a => repM (inRange '0' '9') 1 1 (fun b => k (a ++ b))))
  (orElseM (litM (S ("1")) (fun a => repM (inRange '0' '9') 1 1 (fun b => k (a ++ b))))
  (repM (inRange '1' '9') 1 1 k))))

/-- `\b(4[0-7]|3[0-9]|2[0-9]|1[0-9]|[1-9])h\b` (hour offset). -/
def hoursPat : M Str :=
  wbM (hourNumAlt (fun num => litM (S ("h")) (fun _ => wbM (ret num))))

/-- `\b(lang|lng)\s*([a-zA-Z]{2})\b`. -/
def langPat : M Str :=
  wbM (altM [S ("lang"), S ("lng")] (fun _ =>
    starM isSpaceChar (fun _ =>
      repM isAlphaChar 2 2 (fun code => wbM (ret code)))))

/-- `\btop(2|3|4|5)\b`. -/
def topPat : M Str :=
  wbM (litM (S ("top")) (fun _ =>
    altM [S ("2"), S ("3"), S ("4"), S ("5")] (fun d => wbM (ret d))))

/-- `\bunicode\b`. -/
def unicodePat : M Unit :=
  wbM (litM (S ("unicode")) (fun _ => wbM (ret ())))

/-- `^[AKNW][a-zA-Z]{0,2}[0-9][A-Z]{1,3}` with `re.IGNORECASE` (US amateur
callsign prefix); the anchored regex is applied at position 0 only. -/
def usCallsignPat : M Unit :=
  repM isUsLetter 1 1 (fun _ =>
    repM isAlphaChar 0 2 (fun _ =>
      repM isDigitChar 1 1 (fun _ =>
        repM isAlphaChar 1 3 (fun _ => ret ()))))

/-- `^(A8|D5|EL|5L|5M|6Z|XY|XZ)` with `re.IGNORECASE` (Liberia/Myanmar
prefixes); applied at position 0 only. -/
def liberiaMyanmarPat : M Unit :=
  altM [S ("A8"), S ("D5"), S ("EL"), S ("5L"),
        S ("5M"), S ("6Z"), S ("XY"), S ("XZ")] (fun _ => ret ())

/-- `^(info|help)$` with `re.IGNORECASE`; applied at position 0 only. -/
def helpPat : M Str :=
  altM [S ("info"), S ("help")] (fun a => endM (ret a))

/-- The keyword alternation of the call-sign multi-command rule:
`(wx|forecast|whereis|riseset|cwop|metar|taf|sonde)`. -/
def kwCsm : List Str :=
  [S ("wx"), S ("forecast"), S ("whereis"), S ("riseset"),
   S ("cwop"), S ("metar"), S ("taf"), S ("sonde")]

/-- `[a-zA-Z0-9]{1,3}[0-9][a-zA-Z0-9]{0,3}` — the base-callsign chunk shared
by several regexes; the continuation receives the matched text. -/
def csChunk (k : Str → M α) : M α :=
  repM isAlnumChar 1 3 (fun a =>
    repM isDigitChar 1 1 (fun d =>
      repM isAlnumChar 0 3 (fun b => k (a ++ d ++ b))))

/-- `\b(wx|…|sonde)\s*([a-zA-Z0-9]{1,3}[0-9][a-zA-Z0-9]{0,3}-[a-zA-Z0-9]{1,2})\b`
— keyword plus callsign with SSID. -/
def csmPat1 : M (Str × Str) :=
  wbM (altM kwCsm (fun kw =>
    starM isSpaceChar (fun _ =>
      csChunk (fun c1 =>
        litM (S ("-")) (fun dash =>
          repM isAlnumChar 1 2 (fun ss =>
            wbM (ret (kw, c1 ++ dash ++ ss))))))))

/-- `\b(wx|…|sonde)\s*([a-zA-Z0-9]{1,3}[0-9][a-zA-Z0-9]{0,3})\b` — keyword
plus callsign without SSID. -/
def csmPat2 : M (Str × Str) :=
  wbM (altM kwCsm (fun kw =>
    starM isSpaceChar (fun _ =>
      csChunk (fun c1 => wbM (ret (kw, c1))))))

/-- `\b(k₁|k₂|…)\s*(\w+)\b` — keyword plus generic word token. -/
def kwTokPat (kws : List Str) : M (Str × Str) :=
  wbM (altM kws (fun kw =>
    starM isSpaceChar (fun _ =>
      plusM isWordChar (fun tok => wbM (ret (kw, tok))))))

/-- `\b(wx|…|sonde)\s*(\w+)\b` — third pattern of the call-sign multi rule. -/
def csmPat3 : M (Str × Str) := kwTokPat kwCsm

/-- `\b(wx|…|sonde)\b` — bare keyword, fourth pattern of the call-sign multi
rule. -/
def csmPat4 : M Str := wbM (altM kwCsm (fun kw => wbM (ret kw)))

/-- `\bcwop\s*(\w+)\b` — the pattern of the CWOP-by-id rule.  It is the
keyword-token shape with the single keyword `cwop` (which is not a capture
group in the source, hence the projection). -/
def cwopIdPat : M Str := capMap Prod.snd (kwTokPat [S ("cwop")])

/-- `\b(whereami)\b`. -/
def whereamiPat : M Str := wordAltPat [S ("whereami")]

/-- `\b(vispass|satpass|satfreq)\s*(\w*(\S*))\b`. -/
def satPat : M (Str × Str) :=
  wbM (altM [S ("vispass"), S ("satpass"), S ("satfreq")] (fun kw =>
    starM isSpaceChar (fun _ =>
      starM isWordChar (fun w =>
        starM isNonSpaceChar (fun sx => wbM (ret (kw, w ++ sx)))))))

/-- The repeater-mode alternation `(fm|dstar|d-star|dmr|c4fm|ysf|tetra|atv)`. -/
def repModes : List Str :=
  [S ("fm"), S ("dstar"), S ("d-star"), S ("dmr"),
   S ("c4fm"), S ("ysf"), S ("tetra"), S ("atv")]

/-- `(\d.?\d*(?:cm|m)\b)` — the repeater-band group, ending with the inner
word boundary of the source regex. -/
def bandCore (k : Str → M α) : M α :=
  repM isDigitChar 1 1 (fun d1 =>
    repM isDotChar 0 1 (fun dot =>
      starM isDigitChar (fun ds =>
        altM [S ("cm"), S ("m")] (fun u =>
          wbM (k (d1 ++ dot ++ ds ++ u))))))

/-- `\brepeater\s*(mode)\s*(band)\b`. -/
def repPat1 : M (Str × Str) :=
  wbM (litM (S ("repeater")) (fun _ =>
    starM isSpaceChar (fun _ =>
      altM repModes (fun md =>
        starM isSpaceChar (fun _ =>
          bandCore (fun bd => wbM (ret (md, bd))))))))

/-- `\brepeater\s*(band)\s*(mode)\b`. -/
def repPat2 : M (Str × Str) :=
  wbM (litM (S ("repeater")) (fun _ =>
    starM isSpaceChar (fun _ =>
      bandCore (fun bd =>
        starM isSpaceChar (fun _ =>
          altM repModes (fun md => wbM (ret (bd, md))))))))

/-- `\brepeater\s*(mode)\b`. -/
def repPat3 : M Str :=
  wbM (litM (S ("repeater")) (fun _ =>
    starM isSpaceChar (fun _ =>
      altM repModes (fun md => wbM (ret md)))))

/-- `\brepeater\s*(band)\b`. -/
def repPat4 : M Str :=
  wbM (litM (S ("repeater")) (fun _ =>
    starM isSpaceChar (fun _ =>
      bandCore (fun bd => wbM (ret bd)))))

/-- `\brepeater\b`. -/
def repPat5 : M Str :=
  wbM (litM (S ("repeater")) (fun a => wbM (ret a)))

/-- `\bosm\s*(category)\b` for a configured OSM category. -/
def osmPat1 (cat : Str) : M Str :=
  wbM (litM (S ("osm")) (fun _ =>
    starM isSpaceChar (fun _ =>
      litM cat (fun act => wbM (ret act)))))

/-- `\b(category)\b` for a configured OSM category. -/
def osmPat2 (cat : Str) : M Str :=
  wbM (litM cat (fun act => wbM (ret act)))

/-- `\b(dapnet|dapnethp)\s*([a-zA-Z0-9]{1,3}[0-9][a-zA-Z0-9]{0,3}-[a-zA-Z0-9]{1,2})\s*([\D\s]+)`. -/
def dapPat1 : M (Str × Str × Str) :=
  wbM (altM [S ("dapnet"), S ("dapnethp")] (fun kw =>
    starM isSpaceChar (fun _ =>
      csChunk (fun c1 =>
        litM (S ("-")) (fun dash =>
          repM isAlnumChar 1 2 (fun ss =>
            starM isSpaceChar (fun _ =>
              plusM isNonDigitChar (fun body =>
                ret (kw, c1 ++ dash ++ ss, body)))))))))

/-- `\b(dapnet|dapnethp)\s*([a-zA-Z0-9]{1,3}[0-9][a-zA-Z0-9]{0,3})\s*([\D\s]+)`. -/
def dapPat2 : M (Str × Str × Str) :=
  wbM (altM [S ("dapnet"), S ("dapnethp")] (fun kw =>
    starM isSpaceChar (fun _ =>
      csChunk (fun c1 =>
        starM isSpaceChar (fun _ =>
          plusM isNonDigitChar (fun body =>
            ret (kw, c1, body)))))))

/-- `\b(fortuneteller|magic8ball|magic8|m8b)\b`. -/
def fortunePat : M Str :=
  wordAltPat [S ("fortuneteller"), S ("magic8ball"), S ("magic8"), S ("m8b")]

/-- `\b(posmsg|posrpt)\s*([a-zA-Z0-9_.+-]+@[a-zA-Z0-9-]+\.[a-zA-Z0-9-.]+$)\b`. -/
def emailPat : M (Str × Str) :=
  wbM (altM [S ("posmsg"), S ("posrpt")] (fun kw =>
    starM isSpaceChar (fun _ =>
      plusM isEmailLocalChar (fun lo =>
        litM (S ("@")) (fun at' =>
          plusM isEmailDomainChar (fun dom =>
            litM (S (".")) (fun dot =>
              plusM isEmailTailChar (fun tl =>
                endM (wbM (ret (kw, lo ++ at' ++ dom ++ dot ++ tl)))))))))))

/-- `\b(icao)\s*([a-zA-Z0-9]{4})\b`. -/
def icaoKwPat : M Str :=
  wbM (litM (S ("icao")) (fun _ =>
    starM isSpaceChar (fun _ =>
      repM isAlnumChar 4 4 (fun code => wbM (ret code)))))

/-- `\b(iata)\s*([a-zA-Z0-9]{3})\b`. -/
def iataKwPat : M Str :=
  wbM (litM (S ("iata")) (fun _ =>
    starM isSpaceChar (fun _ =>
      repM isAlnumChar 3 3 (fun code => wbM (ret code)))))

/-- `\b([a-zA-Z0-9]{4})\b` — keyword-less ICAO candidate. -/
def icaoBarePat : M Str :=
  wbM (repM isAlnumChar 4 4 (fun code => wbM (ret code)))

/-- `\b([a-zA-Z0-9]{3})\b` — keyword-less IATA candidate. -/
def iataBarePat : M Str :=
  wbM (repM isAlnumChar 3 3 (fun code => wbM (ret code)))

/-- `\b(metar)\b`. -/
def metarKwPat : M Str := wordAltPat [S ("metar")]

/-- `\b(taf)\b`. -/
def tafKwPat : M Str := wordAltPat [S ("taf")]

/-- `\b([\D\s]+),\s*?(\w+);\s*([a-zA-Z]{2})\b` — city, state; country. -/
def wxAddr1Pat : M (Str × Str × Str) :=
  wbM (plusM isNonDigitChar (fun city =>
    litM (S (",")) (fun _ =>
      lazyStarM isSpaceChar (fun _ =>
        plusM isWordChar (fun st =>
          litM (S (";")) (fun _ =>
            starM isSpaceChar (fun _ =>
              repM isAlphaChar 2 2 (fun cc => wbM (ret (city, st, cc))))))))))

/-- `\b([\D\s]+),\s*?(\w+)\b` — city, state. -/
def wxAddr2Pat : M (Str × Str) :=
  wbM (plusM isNonDigitChar (fun city =>
    litM (S (",")) (fun _ =>
      lazyStarM isSpaceChar (fun _ =>
        plusM isWordChar (fun st => wbM (ret (city, st)))))))

/-- `\b([\D\s]+);\s*([a-zA-Z]{2})\b` — city; country. -/
def wxAddr3Pat : M (Str × Str) :=
  wbM (plusM isNonDigitChar (fun city =>
    litM (S (";")) (fun _ =>
      starM isSpaceChar (fun _ =>
        repM isAlphaChar 2 2 (fun cc => wbM (ret (city, cc)))))))

/-- `\b(zip)\s*([a-zA-Z0-9-( )]{3,10});\s*([a-zA-Z]{2})\b`. -/
def zipKwIntlPat : M (Str × Str) :=
  wbM (litM (S ("zip")) (fun _ =>
    starM isSpaceChar (fun _ =>
      repM isZipChar 3 10 (fun z =>
        litM (S (";")) (fun _ =>
          starM isSpaceChar (fun _ =>
            repM isAlphaChar 2 2 (fun cc => wbM (ret (z, cc)))))))))

/-- `\b(zip)\s*([0-9]{5})\b`. -/
def zipKwUsPat : M Str :=
  wbM (litM (S ("zip")) (fun _ =>
    starM isSpaceChar (fun _ =>
      repM isDigitChar 5 5 (fun z => wbM (ret z)))))

/-- `\b([a-zA-Z0-9-( )]{3,10});\s*([a-zA-Z]{2})\b`. -/
def zipIntlPat : M (Str × Str) :=
  wbM (repM isZipChar 3 10 (fun z =>
    litM (S (";")) (fun _ =>
      starM isSpaceChar (fun _ =>
        repM isAlphaChar 2 2 (fun cc => wbM (ret (z, cc)))))))

/-- `\b([0-9]{5})\b`. -/
def zipBarePat : M Str :=
  wbM (repM isDigitChar 5 5 (fun z => wbM (ret z)))

/-- `\b(grid|mh)\s*([a-zA-Z]{2}[0-9]{2}([a-zA-Z]{2})?)\b`. -/
def gridKwPat : M Str :=
  wbM (altM [S ("grid"), S ("mh")] (fun _ =>
    starM isSpaceChar (fun _ =>
      repM isAlphaChar 2 2 (fun a =>
        repM isDigitChar 2 2 (fun b =>
          orElseM
            (repM isAlphaChar 2 2 (fun c => wbM (ret (a ++ b ++ c))))
            (wbM (ret (a ++ b))))))))

/-- `\b[a-zA-Z]{2}[0-9]{2}([a-zA-Z]{2})?\b` — keyword-less grid locator. -/
def gridBarePat : M Str :=
  wbM (repM isAlphaChar 2 2 (fun a =>
    repM isDigitChar 2 2 (fun b =>
      orElseM
        (repM isAlphaChar 2 2 (fun c => wbM (ret (a ++ b ++ c))))
        (wbM (ret (a ++ b))))))

/-- `\b([\d\.,\-]+)\/([\d\.,\-]+)\b` — numeric lat/lon pair. -/
def latlonPat : M (Str × Str) :=
  wbM (plusM isNumTokChar (fun g1 =>
    litM (S ("/")) (fun _ =>
      plusM isNumTokChar (fun g2 => wbM (ret (g1, g2))))))

/-- `\b([a-zA-Z0-9]{1,3}[0-9][a-zA-Z0-9]{0,3}-[0-9]{1,2})\b` — bare callsign
with (numeric) SSID, used by the weather fallback rule. -/
def wxCsSsidPat : M Str :=
  wbM (csChunk (fun c1 =>
    litM (S ("-")) (fun dash =>
      repM isDigitChar 1 2 (fun ss => wbM (ret (c1 ++ dash ++ ss))))))

/-- `\b([a-zA-Z0-9]{1,3}[0-9][a-zA-Z0-9]{0,3})\b` — bare callsign without
SSID, used by the weather fallback rule. -/
def wxCsPat : M Str :=
  wbM (csChunk (fun c1 => wbM (ret c1)))

/-- `^(([A-Z0-9]{1,3}[0123456789][A-Z0-9]{0,3})-([A-Z0-9]{1,2}))$` — the
case-sensitive, fully anchored SSID-strip regex of the final fallback; the
capture is group 2 (the callsign without its SSID); applied at position 0
only. -/
def ssidStripPat : M Str :=
  repM isUpperAlnum 1 3 (fun a =>
    repM isDigitChar 1 1 (fun d =>
      repM isUpperAlnum 0 3 (fun b =>
        litM (S ("-")) (fun _ =>
          repM isUpperAlnum 1 2 (fun _ =>
            endM (ret (a ++ d ++ b)))))))

-- ### Data model and collaborator environment

/-- Result of `get_position_on_aprsfi` (aprs.fi collaborator): the 7-tuple
`(success, latitude, longitude, altitude, lasttime, comment, callsign)`. -/
structure PosRes where
  success : Bool
  latitude : Rat
  longitude : Rat
  altitude : Rat
  lasttime : Int
  comment : Option Str
  callsign : Str
deriving DecidableEq

/-- Result record of `get_reverse_geopy_data` (geopy collaborator); every
field may be `None`. -/
structure AddressRec where
  city : Option Str := none
  state : Option Str := none
  country : Option Str := none
  country_code : Option Str := none
  district : Option Str := none
  address : Option Str := none
  zipcode : Option Str := none
  county : Option Str := none
  street : Option Str := none
  street_number : Option Str := none
deriving DecidableEq

/-- Result of `validate_icao` / `validate_iata` (airport-data collaborator):
the 5-tuple `(success, latitude, longitude, metar_capable, icao)`. -/
structure IcaoRes where
  success : Bool
  latitude : Rat
  longitude : Rat
  metar_capable : Bool
  icao : Str
deriving DecidableEq

/-- Query record passed to `get_geocode_geopy_data`. -/
structure GeoQuery where
  city : Option Str := none
  state : Option Str := none
  country : Option Str := none
  postalcode : Option Str := none
deriving DecidableEq

/-- The external collaborators of the parser, plus the configuration it
reads (`mpad_config.osm_supported_keyword_categories`) and the system date
(only its weekday is ever consulted, through `getdaysuntil`).  These modules
are not part of the parser core; the spec defines only their interfaces. -/
structure Env where
  position : Str → PosRes
  reverse_geopy : Rat → Rat → Str → Bool → Bool × AddressRec
  geocode_geopy : GeoQuery → Str → Bool × Rat × Rat
  validate_country : Str → Bool
  validate_icao : Str → IcaoRes
  validate_iata : Str → IcaoRes
  get_nearest_icao : Rat → Rat → Option Str
  maidenhead_to_location : Str → Rat × Rat
  osm_categories : List Str
  today_weekday : Fin 7

-- ### Constants of the source

/-- `"Cannot find coordinates for requested address"`. -/
def errmsg_cannot_find_coords_for_address : Str :=
  S ("Cannot find coordinates for requested address")

/-- `"Cannot find coordinates for callsign"`. -/
def errmsg_cannot_find_coords_for_user : Str :=
  S ("Cannot find coordinates for callsign")

/-- `"Invalid country code (need ISO3166-a2)"`. -/
def errmsg_invalid_country : Str := S ("Invalid country code (need ISO3166-a2)")

/-- `"Unknown command. See https://github.com/joergschultzelutter/mpad"`. -/
def errmsg_invalid_command : Str :=
  S ("Unknown command. See https://github.com/joergschultzelutter/mpad")

/-- `"No satellite specified"`. -/
def errmsg_no_satellite_specified : Str := S ("No satellite specified")

/-- `"No cwop id specified"`. -/
def errmsg_no_cwop_specified : Str := S ("No cwop id specified")

/-- Modelled from the spec: `mpad_config.mpad_str_morning` (module
`mpad_config.py` is not part of the parser sources; §4.2 of the spec names
the five `when_daytime` values full / morning / day-noon / evening /
night). -/
def mpad_str_morning : Str := S ("morning")

/-- Modelled from the spec: `mpad_config.mpad_str_daytime`. -/
def mpad_str_daytime : Str := S ("daytime")

/-- Modelled from the spec: `mpad_config.mpad_str_evening`. -/
def mpad_str_evening : Str := S ("evening")

/-- Modelled from the spec: `mpad_config.mpad_str_night`. -/
def mpad_str_night : Str := S ("night")

/-- Placeholder for Python's `datetime.min` (`lasttime` initial value); the
parser only passes it around, so it is modelled as an opaque integer
constant. -/
def datetime_min : Int := 0

-- ### Pure utilities of the source

/-- `utility_modules.getdaysuntil`: days until the next occurrence of weekday
`theweekday` (`calendar.MONDAY = 0` … `calendar.SUNDAY = 6`), computed from
the current weekday.  The source computes
`target = today + timedelta((theweekday - today.weekday()) % 7)` and returns
`(target - today).days` unless `today == target`, in which case it returns
`7`. -/
def getdaysuntil (theweekday : Fin 7) (today_weekday : Fin 7) : Int :=
  let d : Int := ((theweekday : Int) - (today_weekday : Int)) % 7
  if d ≠ 0 then d else 7

/-- Digit-string to natural number. -/
def natOfDigits (s : Str) : Nat :=
  s.foldl (fun acc c => acc * 10 + (c.toNat - 48)) 0

/-- Digit-string to integer (`int(...)` on a regex-guaranteed digit
capture). -/
def pyInt (s : Str) : Int := (natOfDigits s : Int)

/-- Python `float(x)` on a token drawn from the character class `[\d\.,\-]`,
returning `none` exactly when Python raises `ValueError` (a comma anywhere,
a sign not in front, more than one dot, or no digit at all).  Values are
modelled as rationals. -/
def pyFloat (s : Str) : Option Rat :=
  let (neg, t) :=
    match s with
    | c :: r => if c == '-' then (true, r) else (false, s)
    | [] => (false, [])
  let ip := t.takeWhile isDigitChar
  let rest := t.dropWhile isDigitChar
  match rest with
  | [] =>
    if ip.isEmpty then none
    else some (if neg then -(natOfDigits ip : Rat) else (natOfDigits ip : Rat))
  | c :: r2 =>
    if c == '.' then
      let fp := r2.takeWhile isDigitChar
      let rest2 := r2.dropWhile isDigitChar
      if rest2.isEmpty && !(ip.isEmpty && fp.isEmpty) then
        let v : Rat := (natOfDigits ip : Rat) + (natOfDigits fp : Rat) / ((10 : Rat) ^ fp.length)
        some (if neg then -v else v)
      else none
    else none

/-- Python `string.capwords`: split on whitespace, capitalise each word
(first character upper, rest lower), join with single spaces. -/
def pyCapwords (s : Str) : Str :=
  let ws := (s.splitOnP (fun c => isSpaceChar c)).filter (fun w => !w.isEmpty)
  let cap : Str → Str := fun w =>
    match w with
    | [] => []
    | c :: r => c.toUpper :: r.map Char.toLower
  List.intercalate (S (" ")) (ws.map cap) -- join with single blanks

/-- `get_units_based_on_users_callsign`: imperial for US / Liberia / Myanmar
callsign prefixes, metric otherwise. -/
def get_units_based_on_users_callsign (users_callsign : Str) : Str :=
  let units := S ("metric")
  let units := if (usCallsignPat none users_callsign).isSome then S ("imperial") else units
  if (liberiaMyanmarPat none users_callsign).isSome then S ("imperial") else units

/-- `build_human_readable_address_message`: the pure address formatter.  City
name; `,STATE` when the country code is exactly `US` and a state is present;
`,ZIP` when a zip code is present; county as fallback when there is no city;
`;COUNTRY_CODE` appended whenever a country code is present. -/
def build_human_readable_address_message (response_data : AddressRec) : Str :=
  let hrm : Str := []
  let hrm :=
    if truthy response_data.city then
      let h1 := response_data.city.getD []
      let h2 :=
        if truthy response_data.country_code then
          if response_data.country_code = some (S ("US")) then
            if truthy response_data.state then
              h1 ++ S (",") ++ response_data.state.getD []
            else h1
          else h1
        else h1
      if truthy response_data.zipcode then
        h2 ++ S (",") ++ response_data.zipcode.getD []
      else h2
    else hrm
  let hrm :=
    if !truthy response_data.city then
      if truthy response_data.county then response_data.county.getD [] else hrm
    else hrm
  if truthy response_data.country_code then
    hrm ++ S (";") ++ response_data.country_code.getD []
  else hrm

/-- Approximate rendering of a numeric value in an f-string (exact float
formatting is irrelevant to every property proved here; the value is only
embedded in a human-readable message). -/
def pyNumStr (q : Rat) : Str := S (toString q)

/-- Rendering of an integer in an f-string. -/
def pyIntStr (i : Int) : Str := S (toString i)

-- ### Modifier extractors (`parse_keyword_*`)

/-- `\b(mtr|metric)\b`. -/
def metricPat : M Str := wordAltPat [S ("mtr"), S ("metric")]

/-- `\b(imp|imperial)\b`. -/
def imperialPat : M Str := wordAltPat [S ("imp"), S ("imperial")]

/-- `parse_keyword_units`: returns `(found, aprs_message, units)`.  Both
regexes are tried in sequence; the second may override the first. -/
def parse_keyword_units (aprs_message : Str) : Bool × Str × Str :=
  let found := false
  let units := S ("metric")
  let (found, units, aprs_message) :=
    if (reSearch metricPat aprs_message).isSome then
      (true, S ("metric"), removeAll metricPat aprs_message)
    else (found, units, aprs_message)
  let (found, units, aprs_message) :=
    if (reSearch imperialPat aprs_message).isSome then
      (true, S ("imperial"), removeAll imperialPat aprs_message)
    else (found, units, aprs_message)
  (found, aprs_message, units)

/-- `parse_keyword_unicode`: returns
`(found, aprs_message, force_outgoing_unicode_messages)`. -/
def parse_keyword_unicode (aprs_message : Str) : Bool × Str × Bool :=
  if (reSearch unicodePat aprs_message).isSome then
    (true, removeAll unicodePat aprs_message, true)
  else (false, aprs_message, false)

/-- `parse_keyword_language`: returns `(found, aprs_message, language)`. -/
def parse_keyword_language (aprs_message : Str) : Bool × Str × Str :=
  match reSearch langPat aprs_message with
  | some code => (true, removeAll langPat aprs_message, pyStrip (pyLower code))
  | none => (false, aprs_message, S ("en"))

/-- `parse_keyword_number_of_results`: returns
`(found, aprs_message, number_of_results)`.  The captured group is all
digits, so the `int()` conversion of the source cannot fail. -/
def parse_keyword_number_of_results (aprs_message : Str) : Bool × Str × Int :=
  match reSearch topPat aprs_message with
  | some d => (true, removeAll topPat aprs_message, pyInt d)
  | none => (false, aprs_message, 1)

-- ### Temporal extractors

/-- `\b(tonite|tonight)\b`. -/
def whenTonightPat : M Str := wordAltPat [S ("tonite"), S ("tonight")]

/-- `\b(today)\b`. -/
def whenTodayPat : M Str := wordAltPat [S ("today")]

/-- `\b(tomorrow)\b`. -/
def whenTomorrowPat : M Str := wordAltPat [S ("tomorrow")]

/-- The weekday word patterns `\b(monday|mon)\b` … `\b(sunday|sun)\b`,
indexed by the `calendar` weekday constants 0–6. -/
def weekdayPat : Fin 7 → M Str
  | 0 => wordAltPat [S ("monday"), S ("mon")]
  | 1 => wordAltPat [S ("tuesday"), S ("tue")]
  | 2 => wordAltPat [S ("wednesday"), S ("wed")]
  | 3 => wordAltPat [S ("thursday"), S ("thu")]
  | 4 => wordAltPat [S ("friday"), S ("fri")]
  | 5 => wordAltPat [S ("saturday"), S ("sat")]
  | 6 => wordAltPat [S ("sunday"), S ("sun")]

/-- The normalised `when` value for each weekday. -/
def weekdayName : Fin 7 → Str
  | 0 => S ("monday")
  | 1 => S ("tuesday")
  | 2 => S ("wednesday")
  | 3 => S ("thursday")
  | 4 => S ("friday")
  | 5 => S ("saturday")
  | 6 => S ("sunday")

/-- `\b(current|now)\b`. -/
def whenNowPat : M Str := wordAltPat [S ("current"), S ("now")]

/-- One weekday branch of `parse_when`: on a hit, remove the match and set
`when` to the weekday name and `date_offset` via `getdaysuntil`. -/
def parseWhenWeekday (env : Env) (w : Fin 7) (aprs_message : Str) :
    Option (Str × Bool × Option Str × Int × Int) :=
  if (reSearch (weekdayPat w) aprs_message).isSome then
    some (removeAll (weekdayPat w) aprs_message, true, some (weekdayName w),
          getdaysuntil w env.today_weekday, -1)
  else none

/-- `parse_when`: ordered keyword-less scan for the relative-day information.
Returns `(aprs_message, found_when, when, date_offset, hour_offset)`; on a
hit the matched span is removed (`re.sub` + `strip`), otherwise the message
is returned untouched. -/
def parse_when (env : Env) (aprs_message : Str) :
    Str × Bool × Option Str × Int × Int :=
  if (reSearch whenTonightPat aprs_message).isSome then
    (removeAll whenTonightPat aprs_message, true, some (S ("today")), 0, -1)
  else if (reSearch whenTodayPat aprs_message).isSome then
    (removeAll whenTodayPat aprs_message, true, some (S ("today")), 0, -1)
  else if (reSearch whenTomorrowPat aprs_message).isSome then
    (removeAll whenTomorrowPat aprs_message, true, some (S ("tomorrow")), 1, -1)
  else match (parseWhenWeekday env 0 aprs_message).orElse (fun _ =>
             (parseWhenWeekday env 1 aprs_message).orElse (fun _ =>
             (parseWhenWeekday env 2 aprs_message).orElse (fun _ =>
             (parseWhenWeekday env 3 aprs_message).orElse (fun _ =>
             (parseWhenWeekday env 4 aprs_message).orElse (fun _ =>
             (parseWhenWeekday env 5 aprs_message).orElse (fun _ =>
             (parseWhenWeekday env 6 aprs_message))))))) with
  | some r => r
  | none =>
    if (reSearch whenNowPat aprs_message).isSome then
      (removeAll whenNowPat aprs_message, true, some (S ("now")), 0, -1)
    else match reSearch daysPat aprs_message with
    | some d =>
      let date_offset := pyInt d
      (removeAll daysPat aprs_message, true,
       some (pyIntStr date_offset ++ S ("d")), date_offset, -1)
    | none =>
      match reSearch hoursPat aprs_message with
      | some h =>
        (removeAll hoursPat aprs_message, true, some (S ("hour")), -1, pyInt h)
      | none => (aprs_message, false, none, -1, -1)

/-- `\b(full)\b`. -/
def daytimeFullPat : M Str := wordAltPat [S ("full")]

/-- `\b(morn|morning)\b`. -/
def daytimeMornPat : M Str := wordAltPat [S ("morn"), S ("morning")]

/-- `\b(day|daytime|noon)\b`. -/
def daytimeDayPat : M Str := wordAltPat [S ("day"), S ("daytime"), S ("noon")]

/-- `\b(eve|evening)\b`. -/
def daytimeEvePat : M Str := wordAltPat [S ("eve"), S ("evening")]

/-- `\b(tonight|tonite|nite|night)\b`. -/
def daytimeNightPat : M Str :=
  wordAltPat [S ("tonight"), S ("tonite"), S ("nite"), S ("night")]

/-- `parse_when_daytime`: ordered keyword-less scan for the time-of-day
information.  Returns `(aprs_message, found_when_daytime, when_daytime)`. -/
def parse_when_daytime (aprs_message : Str) : Str × Bool × Option Str :=
  if (reSearch daytimeFullPat aprs_message).isSome then
    (removeAll daytimeFullPat aprs_message, true, some (S ("full")))
  else if (reSearch daytimeMornPat aprs_message).isSome then
    (removeAll daytimeMornPat aprs_message, true, some mpad_str_morning)
  else if (reSearch daytimeDayPat aprs_message).isSome then
    (removeAll daytimeDayPat aprs_message, true, some mpad_str_daytime)
  else if (reSearch daytimeEvePat aprs_message).isSome then
    (removeAll daytimeEvePat aprs_message, true, some mpad_str_evening)
  else if (reSearch daytimeNightPat aprs_message).isSome then
    (removeAll daytimeNightPat aprs_message, true, some mpad_str_night)
  else (aprs_message, false, none)

-- ### Keyword rule handlers
--
-- Each handler mirrors one `parse_what_keyword_*` function of the source:
-- it returns `(found_my_keyword, kw_err, rd)` where `rd` carries exactly the
-- fields of the response dictionary the Python function builds.

/-- Response dictionary of `parse_what_keyword_fortuneteller`. -/
structure FortuneRD where
  aprs_message : Str
  what : Option Str
deriving DecidableEq

/-- `parse_what_keyword_fortuneteller`. -/
def parse_what_keyword_fortuneteller (aprs_message : Str) :
    Bool × Bool × FortuneRD :=
  if (reSearch fortunePat aprs_message).isSome then
    (true, false,
     { aprs_message := removeAll fortunePat aprs_message,
       what := some (S ("fortuneteller")) })
  else
    (false, false, { aprs_message := aprs_message, what := none })

/-- Response dictionary of `parse_what_keyword_dapnet`. -/
structure DapnetRD where
  what : Option Str
  message_callsign : Option Str
  human_readable_message : Option Str
  aprs_message : Str
  dapnet_message : Option Str
deriving DecidableEq

/-- `parse_what_keyword_dapnet`: `dapnet|dapnethp` plus target callsign
(with-SSID pattern first) plus free-text body. -/
def parse_what_keyword_dapnet (aprs_message : Str) (users_callsign : Str) :
    Bool × Bool × DapnetRD :=
  match reSearch dapPat1 aprs_message with
  | some (kw, cs, body) =>
    (true, false,
     { what := some (pyLower kw),
       message_callsign := some (pyStrip (pyUpper cs)),
       human_readable_message := none,
       aprs_message := removeAll dapPat1 aprs_message,
       dapnet_message := some (pyStrip body) })
  | none =>
    match reSearch dapPat2 aprs_message with
    | some (kw, cs, body) =>
      (true, false,
       { what := some (pyLower kw),
         message_callsign := some (pyStrip (pyUpper cs)),
         human_readable_message := none,
         aprs_message := removeAll dapPat2 aprs_message,
         dapnet_message := some (pyStrip body) })
    | none =>
      (false, false,
       { what := none, message_callsign := none,
         human_readable_message := none, aprs_message := aprs_message,
         dapnet_message := none })

/-- Response dictionary of `parse_what_keyword_cwop_id`. -/
structure CwopRD where
  what : Option Str
  message_callsign : Option Str
  human_readable_message : Option Str
  aprs_message : Str
  cwop_id : Option Str
deriving DecidableEq

/-- `parse_what_keyword_cwop_id`: `cwop <token>`; an empty token would be the
`MissingParameter` hard error (the regex `\bcwop\s*(\w+)\b` in fact forces at
least one word character into the token). -/
def parse_what_keyword_cwop_id (aprs_message : Str) (users_callsign : Str) :
    Bool × Bool × CwopRD :=
  match reSearch cwopIdPat aprs_message with
  | some tok =>
    let cwop_id := pyStrip (pyUpper tok)
    if cwop_id.length = 0 then
      (false, true,
       { what := none, message_callsign := some users_callsign,
         human_readable_message := some errmsg_no_cwop_specified,
         aprs_message := aprs_message, cwop_id := some cwop_id })
    else
      (true, false,
       { what := some (S ("cwop_by_cwop_id")),
         message_callsign := some users_callsign,
         human_readable_message := some (S ("CWOP for ") ++ cwop_id),
         aprs_message := removeAll cwopIdPat aprs_message,
         cwop_id := some cwop_id })
  | none =>
    (false, false,
     { what := none, message_callsign := some users_callsign,
       human_readable_message := none, aprs_message := aprs_message,
       cwop_id := none })

/-- Response dictionary of `parse_what_keyword_satpass`. -/
structure SatpassRD where
  what : Option Str
  latitude : Rat
  longitude : Rat
  altitude : Rat
  lasttime : Int
  comment : Option Str
  message_callsign : Option Str
  satellite : Option Str
  human_readable_message : Option Str
  aprs_message : Str
deriving DecidableEq

/-- `parse_what_keyword_satpass`: `vispass|satpass|satfreq <name>`; an empty
name is the `MissingParameter` hard error; on success the sender position is
resolved before the keyword claims. -/
def parse_what_keyword_satpass (env : Env) (aprs_message : Str)
    (users_callsign : Str) : Bool × Bool × SatpassRD :=
  match reSearch satPat aprs_message with
  | some (kw, sat0) =>
    let what_tmp := pyLower kw
    let satellite := pyUpper (pyStrip sat0)
    if satellite.length = 0 then
      (false, true,
       { what := none, latitude := 0, longitude := 0, altitude := 0,
         lasttime := datetime_min, comment := none, message_callsign := none,
         satellite := some satellite,
         human_readable_message := some errmsg_no_satellite_specified,
         aprs_message := aprs_message })
    else
      let p := env.position users_callsign
      if p.success then
        (true, false,
         { what := some what_tmp,
           latitude := p.latitude, longitude := p.longitude,
           altitude := p.altitude, lasttime := p.lasttime,
           comment := p.comment, message_callsign := some p.callsign,
           satellite := some satellite,
           human_readable_message :=
             some ((if what_tmp = S ("satfreq") then S ("SatFreq for ")
                    else S ("SatPass for ")) ++ satellite),
           aprs_message := removeAll satPat aprs_message })
      else
        (false, true,
         { what := none,
           latitude := p.latitude, longitude := p.longitude,
           altitude := p.altitude, lasttime := p.lasttime,
           comment := p.comment, message_callsign := some p.callsign,
           satellite := some satellite,
           human_readable_message :=
             some (errmsg_cannot_find_coords_for_user ++ S (" ") ++ users_callsign),
           aprs_message := aprs_message })
  | none =>
    (false, false,
     { what := none, latitude := 0, longitude := 0, altitude := 0,
       lasttime := datetime_min, comment := none, message_callsign := none,
       satellite := none, human_readable_message := none,
       aprs_message := aprs_message })

/-- Response dictionary of `parse_what_keyword_repeater`. -/
structure RepeaterRD where
  what : Option Str
  latitude : Rat
  longitude : Rat
  altitude : Rat
  lasttime : Int
  comment : Option Str
  message_callsign : Option Str
  repeater_band : Option Str
  repeater_mode : Option Str
  human_readable_message : Option Str
  aprs_message : Str
deriving DecidableEq

/-- `parse_what_keyword_repeater`: five descending-specificity pattern tiers
(mode+band, band+mode, mode, band, bare keyword); the first tier to match
wins, and the sender position is always resolved on a match. -/
def parse_what_keyword_repeater (env : Env) (aprs_message : Str)
    (users_callsign : Str) : Bool × Bool × RepeaterRD :=
  let (found, repeater_mode, repeater_band, msg) :=
    match reSearch repPat1 aprs_message with
    | some (md, bd) =>
      (true, some (pyStrip (pyUpper md)), some (pyStrip (pyLower bd)),
       removeAll repPat1 aprs_message)
    | none =>
      match reSearch repPat2 aprs_message with
      | some (bd, md) =>
        (true, some (pyUpper md), some (pyLower bd), removeAll repPat2 aprs_message)
      | none =>
        match reSearch repPat3 aprs_message with
        | some md =>
          (true, some (pyUpper md), none, removeAll repPat3 aprs_message)
        | none =>
          match reSearch repPat4 aprs_message with
          | some bd =>
            (true, none, some (pyLower bd), removeAll repPat4 aprs_message)
          | none =>
            if (reSearch repPat5 aprs_message).isSome then
              (true, none, none, removeAll repPat5 aprs_message)
            else (false, none, none, aprs_message)
  if found then
    let hrm := S ("Repeater")
    let hrm := if truthy repeater_band then hrm ++ S (" ") ++ repeater_band.getD [] else hrm
    let hrm := if truthy repeater_mode then hrm ++ S (" ") ++ repeater_mode.getD [] else hrm
    let p := env.position users_callsign
    if p.success then
      (true, false,
       { what := some (S ("repeater")),
         latitude := p.latitude, longitude := p.longitude,
         altitude := p.altitude, lasttime := p.lasttime, comment := p.comment,
         message_callsign := some p.callsign,
         repeater_band := repeater_band, repeater_mode := repeater_mode,
         human_readable_message := some hrm, aprs_message := msg })
    else
      (true, true,
       { what := some (S ("repeater")),
         latitude := p.latitude, longitude := p.longitude,
         altitude := p.altitude, lasttime := p.lasttime, comment := p.comment,
         message_callsign := some p.callsign,
         repeater_band := repeater_band, repeater_mode := repeater_mode,
         human_readable_message :=
           some (errmsg_cannot_find_coords_for_user ++ S (" ") ++ p.callsign),
         aprs_message := msg })
  else
    (false, false,
     { what := none, latitude := 0, longitude := 0, altitude := 0,
       lasttime := datetime_min, comment := none,
       message_callsign := some users_callsign,
       repeater_band := none, repeater_mode := none,
       human_readable_message := none, aprs_message := aprs_message })

/-- Response dictionary of `parse_what_keyword_osm_category`. -/
structure OsmRD where
  latitude : Rat
  longitude : Rat
  lasttime : Int
  comment : Option Str
  altitude : Rat
  what : Option Str
  human_readable_message : Option Str
  aprs_message : Str
  message_callsign : Option Str
  osm_special_phrase : Option Str
deriving DecidableEq

/-- The category loop of `parse_what_keyword_osm_category`: for each
configured category try `osm <category>` then the bare category; the first
hit resolves the sender position and stops the iteration. -/
def osmLoop (env : Env) (cats : List Str) (aprs_message : Str)
    (users_callsign : Str) : Bool × Bool × OsmRD :=
  match cats with
  | [] =>
    (false, false,
     { latitude := 0, longitude := 0, lasttime := datetime_min,
       comment := none, altitude := 0, what := none,
       human_readable_message := none, aprs_message := aprs_message,
       message_callsign := none, osm_special_phrase := none })
  | cat :: rest =>
    let (found, msg) :=
      if (reSearch (osmPat1 cat) aprs_message).isSome then
        (true, removeAll (osmPat1 cat) aprs_message)
      else if (reSearch (osmPat2 cat) aprs_message).isSome then
        (true, removeAll (osmPat2 cat) aprs_message)
      else (false, aprs_message)
    if found then
      let p := env.position users_callsign
      (true, !p.success,
       { latitude := p.latitude, longitude := p.longitude,
         lasttime := p.lasttime, comment := p.comment, altitude := p.altitude,
         what := some (S ("osm_special_phrase")),
         human_readable_message :=
           if p.success then none
           else some (errmsg_cannot_find_coords_for_user ++ S (" ") ++ p.callsign),
         aprs_message := msg, message_callsign := some p.callsign,
         osm_special_phrase := some cat })
    else osmLoop env rest aprs_message users_callsign

/-- `parse_what_keyword_osm_category`. -/
def parse_what_keyword_osm_category (env : Env) (aprs_message : Str)
    (users_callsign : Str) : Bool × Bool × OsmRD :=
  osmLoop env env.osm_categories aprs_message users_callsign

/-- Response dictionary of `parse_what_keyword_whereami` (same shape as the
email position report dictionary minus the mail recipient). -/
structure WhereamiRD where
  latitude : Rat
  longitude : Rat
  users_latitude : Rat
  users_longitude : Rat
  lasttime : Int
  comment : Option Str
  altitude : Rat
  what : Option Str
  human_readable_message : Option Str
  aprs_message : Str
  message_callsign : Option Str
  city : Option Str
  state : Option Str
  county : Option Str
  country : Option Str
  country_code : Option Str
  district : Option Str
  address : Option Str
  zipcode : Option Str
  street : Option Str
  street_number : Option Str
deriving DecidableEq

/-- `parse_what_keyword_whereami`: on the `whereami` keyword, resolve the
sender's own position, reverse-geocode it (the address fields are read from
the response record regardless of its success flag, as the source does), and
set the user's coordinates equal to the target coordinates. -/
def parse_what_keyword_whereami (env : Env) (aprs_message : Str)
    (users_callsign : Str) (language : Str) : Bool × Bool × WhereamiRD :=
  if (reSearch whereamiPat aprs_message).isSome then
    let msg := removeAll whereamiPat aprs_message
    let p := env.position users_callsign
    if !p.success then
      (true, true,
       { latitude := p.latitude, longitude := p.longitude,
         users_latitude := 0, users_longitude := 0,
         lasttime := p.lasttime, comment := p.comment, altitude := p.altitude,
         what := some (S ("whereis")),
         human_readable_message :=
           some (errmsg_cannot_find_coords_for_user ++ S (" ") ++ p.callsign),
         aprs_message := msg, message_callsign := some p.callsign,
         city := none, state := none, county := none, country := none,
         country_code := none, district := none, address := none,
         zipcode := none, street := none, street_number := none })
    else
      let (_, ad) := env.reverse_geopy p.latitude p.longitude language false
      (true, false,
       { latitude := p.latitude, longitude := p.longitude,
         users_latitude := p.latitude, users_longitude := p.longitude,
         lasttime := p.lasttime, comment := p.comment, altitude := p.altitude,
         what := some (S ("whereis")),
         human_readable_message := some (S ("Pos for ") ++ users_callsign),
         aprs_message := msg, message_callsign := some p.callsign,
         city := ad.city, state := ad.state, county := ad.county,
         country := ad.country, country_code := ad.country_code,
         district := ad.district, address := ad.address,
         zipcode := ad.zipcode, street := ad.street,
         street_number := ad.street_number })
  else
    (false, false,
     { latitude := 0, longitude := 0, users_latitude := 0,
       users_longitude := 0, lasttime := datetime_min, comment := none,
       altitude := 0, what := none, human_readable_message := none,
       aprs_message := aprs_message, message_callsign := none,
       city := none, state := none, county := none, country := none,
       country_code := none, district := none, address := none,
       zipcode := none, street := none, street_number := none })

/-- Response dictionary of `parse_what_keyword_email_position_report`. -/
structure EmailRD where
  what : Option Str
  human_readable_message : Option Str
  aprs_message : Str
  mail_recipient : Option Str
  latitude : Rat
  longitude : Rat
  users_latitude : Rat
  users_longitude : Rat
  lasttime : Int
  comment : Option Str
  altitude : Rat
  message_callsign : Option Str
  city : Option Str
  state : Option Str
  county : Option Str
  country : Option Str
  country_code : Option Str
  district : Option Str
  address : Option Str
  zipcode : Option Str
  street : Option Str
  street_number : Option Str
deriving DecidableEq

/-- `parse_what_keyword_email_position_report`: `posmsg|posrpt <email>`;
resolves and reverse-geocodes the sender position with state abbreviation
disabled. -/
def parse_what_keyword_email_position_report (env : Env) (aprs_message : Str)
    (users_callsign : Str) (language : Str) : Bool × Bool × EmailRD :=
  match reSearch emailPat aprs_message with
  | some (_, mail) =>
    let msg := removeAll emailPat aprs_message
    let mail_recipient := pyStrip mail
    let p := env.position users_callsign
    if !p.success then
      (true, true,
       { what := some (S ("email_position_report")),
         human_readable_message :=
           some (errmsg_cannot_find_coords_for_user ++ S (" ") ++ p.callsign),
         aprs_message := msg, mail_recipient := some mail_recipient,
         latitude := p.latitude, longitude := p.longitude,
         users_latitude := 0, users_longitude := 0,
         lasttime := p.lasttime, comment := p.comment, altitude := p.altitude,
         message_callsign := some p.callsign,
         city := none, state := none, county := none, country := none,
         country_code := none, district := none, address := none,
         zipcode := none, street := none, street_number := none })
    else
      let (_, ad) := env.reverse_geopy p.latitude p.longitude language true
      (true, false,
       { what := some (S ("email_position_report")),
         human_readable_message :=
           some (S ("Email position for ") ++ users_callsign),
         aprs_message := msg, mail_recipient := some mail_recipient,
         latitude := p.latitude, longitude := p.longitude,
         users_latitude := p.latitude, users_longitude := p.longitude,
         lasttime := p.lasttime, comment := p.comment, altitude := p.altitude,
         message_callsign := some p.callsign,
         city := ad.city, state := ad.state, county := ad.county,
         country := ad.country, country_code := ad.country_code,
         district := ad.district, address := ad.address,
         zipcode := ad.zipcode, street := ad.street,
         street_number := ad.street_number })
  | none =>
    (false, false,
     { what := none, human_readable_message := none,
       aprs_message := aprs_message, mail_recipient := none,
       latitude := 0, longitude := 0, users_latitude := 0,
       users_longitude := 0, lasttime := datetime_min, comment := none,
       altitude := 0, message_callsign := none,
       city := none, state := none, county := none, country := none,
       country_code := none, district := none, address := none,
       zipcode := none, street := none, street_number := none })

/-- Response dictionary of `parse_what_keyword_callsign_multi`. -/
structure CsmRD where
  latitude : Rat
  longitude : Rat
  users_latitude : Rat
  users_longitude : Rat
  lasttime : Int
  comment : Option Str
  altitude : Rat
  what : Option Str
  human_readable_message : Option Str
  aprs_message : Str
  message_callsign : Option Str
  city : Option Str
  state : Option Str
  county : Option Str
  country : Option Str
  country_code : Option Str
  district : Option Str
  address : Option Str
  zipcode : Option Str
  street : Option Str
  street_number : Option Str
  icao : Option Str
deriving DecidableEq

/-- The `CsmRD` all of whose intent fields are still at their initial
values. -/
def csmInit (aprs_message : Str) : CsmRD :=
  { latitude := 0, longitude := 0, users_latitude := 0, users_longitude := 0,
    lasttime := datetime_min, comment := none, altitude := 0, what := none,
    human_readable_message := none, aprs_message := aprs_message,
    message_callsign := none, city := none, state := none, county := none,
    country := none, country_code := none, district := none, address := none,
    zipcode := none, street := none, street_number := none, icao := none }

/-- `parse_what_keyword_callsign_multi`: leading keyword
`wx|forecast|whereis|riseset|cwop|metar|taf|sonde`, followed by a target
callsign (with-SSID pattern first, then without-SSID, then generic word
token, then none, in which case the sender's own callsign is used).  On a
match, the target position is resolved; a lookup failure is a hard error.
On success the keyword branches: `forecast` renames to `wx`; `sonde` and
`whereis` additionally resolve the sender position (`whereis` also
reverse-geocodes the target, reading the fields regardless of the geocoder's
success flag); `cwop` renames to `cwop_by_latlon`; `metar`/`taf` resolve the
nearest airport and downgrade to `wx` when it is not METAR-capable. -/
def parse_what_keyword_callsign_multi (env : Env) (aprs_message : Str)
    (users_callsign : Str) (language : Str) : Bool × Bool × CsmRD :=
  let hit : Option (Str × Str × Str) :=
    match reSearch csmPat1 aprs_message with
    | some (kw, c) =>
      some (pyLower kw, pyUpper c, removeAll csmPat1 aprs_message)
    | none =>
      match reSearch csmPat2 aprs_message with
      | some (kw, c) =>
        some (pyLower kw, pyUpper c, removeAll csmPat2 aprs_message)
      | none =>
        match reSearch csmPat3 aprs_message with
        | some (kw, tok) =>
          some (pyLower kw, pyStrip (pyUpper tok), removeAll csmPat3 aprs_message)
        | none =>
          match reSearch csmPat4 aprs_message with
          | some kw =>
            some (pyLower kw, users_callsign, removeAll csmPat4 aprs_message)
          | none => none
  match hit with
  | none => (false, false, csmInit aprs_message)
  | some (what0, mc0, msg) =>
    let p := env.position mc0
    if !p.success then
      (true, true,
       { csmInit msg with
         latitude := p.latitude, longitude := p.longitude,
         altitude := p.altitude, lasttime := p.lasttime, comment := p.comment,
         message_callsign := some p.callsign, what := some what0,
         human_readable_message :=
           some (errmsg_cannot_find_coords_for_user ++ S (" ") ++ p.callsign) })
    else
      let base : CsmRD :=
        { csmInit msg with
          latitude := p.latitude, longitude := p.longitude,
          altitude := p.altitude, lasttime := p.lasttime, comment := p.comment,
          message_callsign := some p.callsign, what := some what0 }
      if what0 = S ("wx") || what0 = S ("forecast") then
        (true, false,
         { base with
           what := some (S ("wx")),
           human_readable_message := some (S ("Wx ") ++ p.callsign) })
      else if what0 = S ("riseset") then
        (true, false,
         { base with
           human_readable_message := some (S ("RiseSet ") ++ p.callsign) })
      else if what0 = S ("sonde") then
        let p2 := env.position users_callsign
        (true, false,
         { base with
           human_readable_message :=
             some (S ("Landing Pred. '") ++ p.callsign ++ S ("'")),
           users_latitude := p2.latitude, users_longitude := p2.longitude })
      else if what0 = S ("whereis") then
        let (_, ad) := env.reverse_geopy p.latitude p.longitude language false
        let p2 := env.position users_callsign
        (true, false,
         { base with
           human_readable_message := some (S ("Pos ") ++ p.callsign),
           city := ad.city, state := ad.state, county := ad.county,
           country := ad.country, country_code := ad.country_code,
           district := ad.district, address := ad.address,
           zipcode := ad.zipcode, street := ad.street,
           street_number := ad.street_number,
           users_latitude := p2.latitude, users_longitude := p2.longitude })
      else if what0 = S ("cwop") then
        (true, false,
         { base with
           what := some (S ("cwop_by_latlon")),
           human_readable_message :=
             some (S ("CWOP for ") ++ p.callsign) })
      else if what0 = S ("metar") || what0 = S ("taf") then
        let nio := env.get_nearest_icao p.latitude p.longitude
        if truthy nio then
          let v := env.validate_icao (nio.getD [])
          if v.success then
            if v.metar_capable then
              (true, false,
               { base with
                 latitude := v.latitude, longitude := v.longitude,
                 icao := some v.icao,
                 human_readable_message :=
                   some (pyUpper what0 ++ S (" for '") ++ v.icao ++ S ("'")) })
            else
              (true, false,
               { base with
                 what := some (S ("wx")),
                 latitude := v.latitude, longitude := v.longitude,
                 icao := none,
                 human_readable_message :=
                   some (S ("Wx for '") ++ fmtOpt none ++ S ("'")) })
          else
            (true, false,
             { base with
               latitude := v.latitude, longitude := v.longitude,
               icao := none })
        else (true, false, base)
      else (true, false, base)

/-- Response dictionary of `parse_what_keyword_metar`. -/
structure MetarRD where
  what : Option Str
  message_callsign : Option Str
  human_readable_message : Option Str
  aprs_message : Str
  icao : Option Str
deriving DecidableEq

/-- Local variables threaded through the stages of
`parse_what_keyword_metar`. -/
structure MetarSt where
  found : Bool
  kwerr : Bool
  what : Option Str
  icao : Option Str
  hrm : Option Str
  msg : Str
deriving DecidableEq

/-- Stage 1 of `parse_what_keyword_metar` (lines 1180–1205): explicit ICAO
code; an invalid explicit code is a hard error. -/
def metarIcaoKwStage (env : Env) (st : MetarSt) : MetarSt :=
  match reSearch icaoKwPat st.msg with
  | none => st
  | some code =>
    let msg1 := removeAll icaoKwPat st.msg
    let v := env.validate_icao code
    if v.success then
      if v.metar_capable then
        { st with
          found := true, what := some (S ("metar")),
          icao := some v.icao,
          hrm := some (S ("METAR for '") ++ v.icao ++ S ("'")), msg := msg1 }
      else
        { st with
          found := true, what := some (S ("wx")),
          icao := some v.icao,
          hrm := some (S ("Wx for '") ++ v.icao ++ S ("'")), msg := msg1 }
    else
      { st with
        kwerr := true, icao := none,
        hrm := some (S ("Cannot locate airport ICAO code ") ++ v.icao),
        msg := msg1 }

/-- Stage 2 of `parse_what_keyword_metar` (lines 1212–1240): explicit IATA
code; an invalid explicit code is a hard error. -/
def metarIataKwStage (env : Env) (st : MetarSt) : MetarSt :=
  if !st.found && !st.kwerr then
    match reSearch iataKwPat st.msg with
    | none => st
    | some code =>
      let msg1 := removeAll iataKwPat st.msg
      let v := env.validate_iata code
      if v.success then
        if v.metar_capable then
          { st with
            found := true, what := some (S ("metar")),
            icao := some v.icao,
            hrm := some (S ("METAR for '") ++ v.icao ++ S ("'")), msg := msg1 }
        else
          { st with
            found := true, what := some (S ("wx")),
            icao := some v.icao,
            hrm := some (S ("Wx for '") ++ v.icao ++ S ("'")), msg := msg1 }
      else
        { st with
          kwerr := true, icao := none,
          hrm := some (S ("Cannot locate airport IATA code ") ++ code),
          msg := msg1 }
  else st

/-- Stage 3 of `parse_what_keyword_metar` (lines 1243–1278): keyword-less
ICAO candidate, suppressed when the text contains `,` or `;`; an invalid
candidate is silently ignored (only the rebinding of the `icao` local by the
tuple unpacking survives). -/
def metarIcaoBareStage (env : Env) (st : MetarSt) : MetarSt :=
  if !st.found && !st.kwerr && !st.msg.contains ',' && !st.msg.contains ';' then
    match reSearch icaoBarePat st.msg with
    | none => st
    | some code =>
      let v := env.validate_icao (pyStrip code)
      if v.success then
        if v.metar_capable then
          { st with
            found := true, what := some (S ("metar")),
            icao := some v.icao,
            hrm := some (S ("METAR for '") ++ v.icao ++ S ("'")),
            msg := removeAll icaoBarePat st.msg }
        else
          { st with
            found := true, what := some (S ("wx")),
            icao := some v.icao,
            hrm := some (S ("Wx for '") ++ v.icao ++ S ("'")),
            msg := removeAll icaoBarePat st.msg }
      else
        { st with icao := some v.icao }
  else st

/-- Stage 4 of `parse_what_keyword_metar` (lines 1281–1317): keyword-less
IATA candidate. -/
def metarIataBareStage (env : Env) (st : MetarSt) : MetarSt :=
  if !st.found && !st.kwerr && !st.msg.contains ',' && !st.msg.contains ';' then
    match reSearch iataBarePat st.msg with
    | none => st
    | some code =>
      let v := env.validate_iata (pyStrip code)
      if v.success then
        if v.metar_capable then
          { st with
            found := true, what := some (S ("metar")),
            icao := some v.icao,
            hrm := some (S ("METAR for '") ++ v.icao ++ S ("'")),
            msg := removeAll iataBarePat st.msg }
        else
          { st with
            found := true, what := some (S ("wx")),
            icao := some v.icao,
            hrm := some (S ("Wx for '") ++ v.icao ++ S ("'")),
            msg := removeAll iataBarePat st.msg }
      else
        { st with icao := some v.icao }
  else st

/-- Stages 5 and 6 of `parse_what_keyword_metar` (lines 1322–1364 for the
bare `metar` keyword, lines 1369–1411 for the bare `taf` keyword, which are
verbatim copies of each other up to the keyword): resolve the airport
nearest to the sender and downgrade to `wx` when it cannot report METAR
data. -/
def metarNearestStage (env : Env) (users_callsign : Str) (kwPat : M Str)
    (whatKw : Str) (hrmKw : Str) (st : MetarSt) : MetarSt :=
  if !st.found && !st.kwerr then
    if (reSearch kwPat st.msg).isSome then
      let p := env.position users_callsign
      if p.success then
        let nio := env.get_nearest_icao p.latitude p.longitude
        if truthy nio then
          let v := env.validate_icao (nio.getD [])
          if v.success then
            if v.metar_capable then
              { st with
                found := true, what := some whatKw,
                icao := some v.icao,
                hrm := some (hrmKw ++ S (" for '") ++ v.icao ++ S ("'")),
                msg := removeAll kwPat st.msg }
            else
              { st with
                found := true, what := some (S ("wx")),
                icao := none,
                hrm := some (S ("Wx for '") ++ fmtOpt none ++ S ("'")),
                msg := removeAll kwPat st.msg }
          else { st with icao := some v.icao }
        else { st with icao := nio }
      else st
    else st
  else st

/-- `parse_what_keyword_metar`: ICAO/IATA codes with qualifier keyword (an
invalid explicit code is a hard error), keyword-less ICAO/IATA candidates
(suppressed when the text contains `,` or `;`; an invalid candidate is
silently ignored), and the bare `metar` / `taf` keywords, which resolve the
airport nearest to the sender and downgrade to `wx` when it cannot report
METAR data. -/
def parse_what_keyword_metar (env : Env) (aprs_message : Str)
    (users_callsign : Str) : Bool × Bool × MetarRD :=
  let st :=
    metarNearestStage env users_callsign tafKwPat (S ("taf")) (S ("TAF"))
      (metarNearestStage env users_callsign metarKwPat (S ("metar")) (S ("METAR"))
        (metarIataBareStage env
          (metarIcaoBareStage env
            (metarIataKwStage env
              (metarIcaoKwStage env
                { found := false, kwerr := false, what := none, icao := none,
                  hrm := none, msg := aprs_message })))))
  (st.found, st.kwerr,
   { what := st.what, message_callsign := some users_callsign,
     human_readable_message := st.hrm, aprs_message := st.msg,
     icao := st.icao })

/-- Response dictionary of `parse_what_keyword_wx`. -/
structure WxRD where
  latitude : Rat
  longitude : Rat
  what : Option Str
  message_callsign : Option Str
  human_readable_message : Option Str
  aprs_message : Str
  city : Option Str
  state : Option Str
  country : Option Str
  country_code : Option Str
  district : Option Str
  address : Option Str
  zipcode : Option Str
  county : Option Str
  street : Option Str
  street_number : Option Str
deriving DecidableEq

/-- Local variables threaded through the branches of
`parse_what_keyword_wx`. -/
structure WxSt where
  found : Bool
  kwerr : Bool
  what : Option Str
  city : Option Str
  state : Option Str
  country : Option Str
  country_code : Option Str
  district : Option Str
  address : Option Str
  zipcode : Option Str
  county : Option Str
  street : Option Str
  street_number : Option Str
  hrm : Option Str
  latitude : Rat
  longitude : Rat
  message_callsign : Option Str
  msg : Str
deriving DecidableEq

/-- Copy the ten address fields of a reverse-geocode record into the working
state (the field pattern used by the bare-zip, lat/lon and callsign branches
of the source). -/
def wxCopyAddr (st : WxSt) (ad : AddressRec) : WxSt :=
  { st with
    city := ad.city, state := ad.state, country_code := ad.country_code,
    country := ad.country, district := ad.district, address := ad.address,
    zipcode := ad.zipcode, county := ad.county, street := ad.street,
    street_number := ad.street_number,
    hrm := some (build_human_readable_address_message ad) }

/-- The initial working state of `parse_what_keyword_wx`. -/
def wxInit (aprs_message : Str) (users_callsign : Str) : WxSt :=
  { found := false, kwerr := false, what := none, city := none,
    state := none, country := none, country_code := none, district := none,
    address := none, zipcode := none, county := none, street := none,
    street_number := none, hrm := none, latitude := 0, longitude := 0,
    message_callsign := some users_callsign, msg := aprs_message }

/-- Structured-address stage of `parse_what_keyword_wx` (lines 1480–1547):
`city, state; country` / `city, state` / `city; country`, first pattern to
match wins; then country-code validation and forward geocoding. -/
def wxAddrStage (env : Env) (language : Str) (st : WxSt) : WxSt :=
  let addrHit : WxSt × Option GeoQuery :=
    match reSearch wxAddr1Pat st.msg with
    | some (c0, s0, cc0) =>
      let city := pyStrip (pyCapwords c0)
      let cc := pyStrip (pyUpper cc0)
      let stt := pyStrip (pyUpper s0)
      ({ st with
         found := true, city := some city, state := some stt,
         country_code := some cc, msg := removeAll wxAddr1Pat st.msg },
       some ({ city := some city, state := some stt, country := some cc } : GeoQuery))
    | none =>
      match reSearch wxAddr2Pat st.msg with
      | some (c0, s0) =>
        let city := pyStrip (pyCapwords c0)
        let stt := pyStrip (pyUpper s0)
        ({ st with
           found := true, city := some city, state := some stt,
           country_code := some (S ("US")),
           country := some (S ("United States")),
           msg := removeAll wxAddr2Pat st.msg },
         some { city := some city, state := some stt, country := some (S ("US")) })
      | none =>
        match reSearch wxAddr3Pat st.msg with
        | some (c0, cc0) =>
          let city := pyStrip (pyCapwords c0)
          let cc := pyStrip (pyUpper cc0)
          ({ st with
             found := true, city := some city, state := none,
             country_code := some cc, msg := removeAll wxAddr3Pat st.msg },
           some { city := some city, country := some cc })
        | none => (st, none)
  let st := addrHit.1
  if st.found && !st.kwerr then
    if !env.validate_country (st.country_code.getD []) then
      { st with
        kwerr := true,
        hrm := some (errmsg_invalid_country ++ S (": '") ++
                     fmtOpt st.country_code ++ S ("'")) }
    else
      match env.geocode_geopy (addrHit.2.getD {}) language with
      | (true, la, lo) =>
        let h := st.city.getD []
        let h :=
          if truthy st.state && st.country_code = some (S ("US")) then
            h ++ S (",") ++ st.state.getD []
          else h
        let h :=
          if truthy st.country_code && st.country_code ≠ some (S ("US")) then
            h ++ S (";") ++ st.country_code.getD []
          else h
        { st with
          what := some (S ("wx")), hrm := some h,
          latitude := la, longitude := lo }
      | (false, la, lo) =>
        { st with
          kwerr := true, latitude := la, longitude := lo,
          hrm := some errmsg_cannot_find_coords_for_address }
  else st

/-- Zip-code-with-keyword/country stage of `parse_what_keyword_wx`
(lines 1553–1654): qualified international, qualified 5-digit US, and
unqualified-with-country postal codes; then country validation, forward
geocoding and a reverse lookup for a real city name. -/
def wxZipKwStage (env : Env) (language : Str) (st : WxSt) : WxSt :=
  if !st.found && !st.kwerr then
    let zipHit : WxSt × Option GeoQuery :=
      match reSearch zipKwIntlPat st.msg with
      | some (z0, cc0) =>
        let z := pyStrip z0
        let cc := pyStrip (pyUpper cc0)
        ({ st with
           found := true, zipcode := some z, state := none,
           country_code := some cc, msg := removeAll zipKwIntlPat st.msg },
         some ({ postalcode := some z, country := some cc } : GeoQuery))
      | none =>
        match reSearch zipKwUsPat st.msg with
        | some z0 =>
          let z := pyStrip z0
          ({ st with
             found := true, zipcode := some z, state := none,
             country_code := some (S ("US")),
             country := some (S ("United States")),
             msg := removeAll zipKwUsPat st.msg },
           some { postalcode := some z, country := some (S ("US")) })
        | none =>
          match reSearch zipIntlPat st.msg with
          | some (z0, cc0) =>
            let z := pyStrip z0
            let cc := pyStrip (pyUpper cc0)
            ({ st with
               found := true, zipcode := some z, state := none,
               country_code := some cc, msg := removeAll zipIntlPat st.msg },
             some { postalcode := some z, country := some cc })
          | none => (st, none)
    let st := zipHit.1
    if st.found then
      if !env.validate_country (st.country_code.getD []) then
        { st with
          kwerr := true, what := none,
          hrm := some (errmsg_invalid_country ++ S (": '") ++
                       fmtOpt st.country_code ++ S ("'")) }
      else
        match env.geocode_geopy (zipHit.2.getD {}) language with
        | (true, la, lo) =>
          let st1 : WxSt :=
            { st with
              what := some (S ("wx")), latitude := la, longitude := lo,
              hrm := some (S ("Zip ") ++ fmtOpt st.zipcode ++ S (";") ++
                           fmtOpt st.country_code) }
          match env.reverse_geopy la lo language false with
          | (true, ad) =>
            { st1 with
              city := ad.city, state := ad.state,
              country_code := ad.country_code, country := ad.country,
              county := ad.county, street := ad.street,
              street_number := ad.street_number,
              hrm := some (build_human_readable_address_message ad) }
          | (false, _) => st1
        | (false, la, lo) =>
          { st with
            kwerr := true, latitude := la, longitude := lo,
            hrm := some errmsg_cannot_find_coords_for_address }
    else st
  else st

/-- Bare 5-digit US zip stage of `parse_what_keyword_wx`
(lines 1662–1706). -/
def wxZipBareStage (env : Env) (language : Str) (st : WxSt) : WxSt :=
  if !st.found && !st.kwerr then
    match reSearch zipBarePat st.msg with
    | some z =>
      let st1 : WxSt :=
        { st with
          found := true, zipcode := some z, state := none,
          country_code := some (S ("US")),
          country := some (S ("United States")),
          msg := removeAll zipBarePat st.msg, what := some (S ("wx")),
          hrm := some (S ("Zip ") ++ z ++ S (";") ++ S ("US")) }
      match env.geocode_geopy
          ({ postalcode := some z, country := some (S ("US")) } : GeoQuery)
          language with
      | (false, la, lo) =>
        { st1 with
          kwerr := true, latitude := la, longitude := lo,
          hrm := some errmsg_cannot_find_coords_for_address }
      | (true, la, lo) =>
        let st2 : WxSt := { st1 with latitude := la, longitude := lo }
        match env.reverse_geopy la lo language false with
        | (true, ad) => wxCopyAddr st2 ad
        | (false, _) => st2
    | none => st
  else st

/-- Grid-locator stage of `parse_what_keyword_wx`, used for both the
keyword-qualified pattern (lines 1714–1726) and the keyword-less pattern
(lines 1729–1741). -/
def wxGridStage (env : Env) (pat : M Str) (st : WxSt) : WxSt :=
  if !st.found && !st.kwerr then
    match reSearch pat st.msg with
    | some loc =>
      let ll := env.maidenhead_to_location (pyStrip loc)
      { st with
        found := true, latitude := ll.1, longitude := ll.2,
        hrm := some loc, what := some (S ("wx")),
        msg := removeAll pat st.msg }
    | none => st
  else st

/-- Lat/lon stage of `parse_what_keyword_wx` (lines 1744–1792). -/
def wxLatlonStage (env : Env) (language : Str) (st : WxSt) : WxSt :=
  if !st.found && !st.kwerr then
    match reSearch latlonPat st.msg with
    | some (g1, g2) =>
      match pyFloat g1, pyFloat g2 with
      | some la, some lo =>
        let st1 : WxSt := { st with latitude := la, longitude := lo }
        let st2 :=
          match env.reverse_geopy la lo language false with
          | (true, ad) => wxCopyAddr st1 ad
          | (false, _) =>
            { st1 with
              hrm := some (S ("lat ") ++ pyNumStr la ++ S ("/lon ") ++
                           pyNumStr lo) }
        { st2 with
          msg := removeAll latlonPat st.msg, found := true,
          what := some (S ("wx")) }
      | _, _ =>
        { st with
          latitude := 0, longitude := 0, kwerr := true,
          hrm := some (S ("Error while parsing coordinates")) }
    | none => st
  else st

/-- Bare-callsign stage of `parse_what_keyword_wx` (lines 1798–1865):
with-SSID pattern first, then without; position lookup failure is a hard
error. -/
def wxCallsignStage (env : Env) (language : Str) (st : WxSt) : WxSt :=
  if !st.found && !st.kwerr then
    let csHit : Option (Str × Str) :=
      match reSearch wxCsSsidPat st.msg with
      | some c => some (pyUpper c, removeAll wxCsSsidPat st.msg)
      | none =>
        match reSearch wxCsPat st.msg with
        | some c => some (pyUpper c, removeAll wxCsPat st.msg)
        | none => none
    match csHit with
    | some (mc, msg1) =>
      let stG : WxSt :=
        { st with found := true, message_callsign := some mc, msg := msg1 }
      if truthy (some mc) then
        let p := env.position mc
        if !p.success then
          { stG with
            latitude := p.latitude, longitude := p.longitude,
            message_callsign := some p.callsign, kwerr := true,
            hrm := some (errmsg_cannot_find_coords_for_user ++ S (" ") ++
                         p.callsign) }
        else
          let st1 : WxSt :=
            { stG with
              latitude := p.latitude, longitude := p.longitude,
              message_callsign := some p.callsign, hrm := some p.callsign,
              what := some (S ("wx")) }
          match env.reverse_geopy p.latitude p.longitude language false with
          | (true, ad) => wxCopyAddr st1 ad
          | (false, _) => st1
      else stG
    | none => st
  else st

/-- `parse_what_keyword_wx`: the keyword-less weather fallback — structured
address, postal codes, maidenhead grid locators, numeric lat/lon and finally
a bare callsign, each sub-branch geocoding as needed; any geocoding or
position failure inside a structurally matched branch is a hard error. -/
def parse_what_keyword_wx (env : Env) (aprs_message : Str)
    (users_callsign : Str) (language : Str) : Bool × Bool × WxRD :=
  let st :=
    wxCallsignStage env language
      (wxLatlonStage env language
        (wxGridStage env gridBarePat
          (wxGridStage env gridKwPat
            (wxZipBareStage env language
              (wxZipKwStage env language
                (wxAddrStage env language
                  (wxInit aprs_message users_callsign)))))))
  (st.found, st.kwerr,
   { latitude := st.latitude, longitude := st.longitude, what := st.what,
     message_callsign := st.message_callsign,
     human_readable_message := st.hrm, aprs_message := st.msg,
     city := st.city, state := st.state, country := st.country,
     country_code := st.country_code, district := st.district,
     address := st.address, zipcode := st.zipcode, county := st.county,
     street := st.street, street_number := st.street_number })

-- ### The main parser

/-- The local variables of `parse_input_message` (and, at the end of the
parse, the fields of its response dictionary). -/
structure PState where
  err : Bool
  found_my_duty_roster : Bool
  found_when : Bool
  found_when_daytime : Bool
  latitude : Rat
  longitude : Rat
  altitude : Rat
  users_latitude : Rat
  users_longitude : Rat
  date_offset : Int
  hour_offset : Int
  lasttime : Int
  when : Option Str
  when_daytime : Option Str
  what : Option Str
  units : Str
  language : Str
  number_of_results : Int
  force_outgoing_unicode_messages : Bool
  city : Option Str
  state : Option Str
  country : Option Str
  country_code : Option Str
  county : Option Str
  district : Option Str
  address : Option Str
  zipcode : Option Str
  cwop_id : Option Str
  street : Option Str
  street_number : Option Str
  icao : Option Str
  human_readable_message : Option Str
  satellite : Option Str
  repeater_band : Option Str
  repeater_mode : Option Str
  osm_special_phrase : Option Str
  dapnet_message : Option Str
  mail_recipient : Option Str
  comment : Option Str
  message_callsign : Option Str
  users_callsign : Str
  msg : Str
deriving DecidableEq

/-- A keyword rule: from the current parse state, compute
`(found_my_keyword, kw_err, state-with-the-rule's-dictionary-applied)`. -/
abbrev Rule := PState → Bool × Bool × PState

/-- One step of the keyword rule chain, i.e. one
`if not found_my_duty_roster and not err: … if found_my_keyword or kw_err:`
block of `parse_input_message`: the rule runs only while the message is
unclaimed and error-free, and its dictionary is copied (with the two flags)
only when it claims or errs. -/
def chainStep (r : Rule) (s : PState) : PState :=
  if s.found_my_duty_roster || s.err then s
  else
    let t := r s
    if t.1 || t.2.1 then
      { t.2.2 with found_my_duty_roster := t.1, err := t.2.1 }
    else s

/-- Run a list of rules in order. -/
def runChain (rules : List Rule) (s : PState) : PState :=
  rules.foldl (fun t r => chainStep r t) s

/-- All intermediate states of a rule chain (initial state included). -/
def chainScan (rules : List Rule) (s : PState) : List PState :=
  List.scanl (fun t r => chainStep r t) s rules

/-- The help/info rule (lines 171–177 of the source): an exact full-message
match only, claiming with `what=help`. -/
def helpRule : Rule := fun s =>
  if (helpPat none s.msg).isSome then
    if !truthy s.what then (true, false, { s with what := some (S ("help")) })
    else (false, false, s)
  else (false, false, s)

/-- Call-sign multi-command rule wrapper: copies the handler dictionary into
the parser state exactly as lines 236–257 of the source do. -/
def csmRule (env : Env) : Rule := fun s =>
  let r := parse_what_keyword_callsign_multi env s.msg s.users_callsign s.language
  let rd := r.2.2
  (r.1, r.2.1,
   { s with
     latitude := rd.latitude, longitude := rd.longitude,
     users_latitude := rd.users_latitude,
     users_longitude := rd.users_longitude, lasttime := rd.lasttime,
     comment := rd.comment, altitude := rd.altitude, what := rd.what,
     human_readable_message := rd.human_readable_message,
     msg := rd.aprs_message, message_callsign := rd.message_callsign,
     city := rd.city, state := rd.state, county := rd.county,
     country := rd.country, country_code := rd.country_code,
     district := rd.district, address := rd.address, zipcode := rd.zipcode,
     street := rd.street, street_number := rd.street_number,
     icao := rd.icao })

/-- `whereami` rule wrapper (lines 270–290). -/
def whereamiRule (env : Env) : Rule := fun s =>
  let r := parse_what_keyword_whereami env s.msg s.users_callsign s.language
  let rd := r.2.2
  (r.1, r.2.1,
   { s with
     latitude := rd.latitude, longitude := rd.longitude,
     users_latitude := rd.users_latitude,
     users_longitude := rd.users_longitude, lasttime := rd.lasttime,
     comment := rd.comment, altitude := rd.altitude, what := rd.what,
     human_readable_message := rd.human_readable_message,
     msg := rd.aprs_message, message_callsign := rd.message_callsign,
     city := rd.city, state := rd.state, county := rd.county,
     country := rd.country, country_code := rd.country_code,
     district := rd.district, address := rd.address, zipcode := rd.zipcode,
     street := rd.street, street_number := rd.street_number })

/-- CWOP-by-id rule wrapper (lines 300–304). -/
def cwopIdRule : Rule := fun s =>
  let r := parse_what_keyword_cwop_id s.msg s.users_callsign
  let rd := r.2.2
  (r.1, r.2.1,
   { s with
     what := rd.what, message_callsign := rd.message_callsign,
     cwop_id := rd.cwop_id,
     human_readable_message := rd.human_readable_message,
     msg := rd.aprs_message })

/-- Satellite-pass rule wrapper (lines 316–325). -/
def satpassRule (env : Env) : Rule := fun s =>
  let r := parse_what_keyword_satpass env s.msg s.users_callsign
  let rd := r.2.2
  (r.1, r.2.1,
   { s with
     what := rd.what, latitude := rd.latitude, longitude := rd.longitude,
     altitude := rd.altitude, lasttime := rd.lasttime, comment := rd.comment,
     message_callsign := rd.message_callsign, satellite := rd.satellite,
     human_readable_message := rd.human_readable_message,
     msg := rd.aprs_message })

/-- Repeater rule wrapper (lines 342–352). -/
def repeaterRule (env : Env) : Rule := fun s =>
  let r := parse_what_keyword_repeater env s.msg s.users_callsign
  let rd := r.2.2
  (r.1, r.2.1,
   { s with
     what := rd.what, latitude := rd.latitude, longitude := rd.longitude,
     altitude := rd.altitude, lasttime := rd.lasttime, comment := rd.comment,
     message_callsign := rd.message_callsign,
     repeater_band := rd.repeater_band, repeater_mode := rd.repeater_mode,
     human_readable_message := rd.human_readable_message,
     msg := rd.aprs_message })

/-- OSM-category rule wrapper (lines 364–373). -/
def osmRule (env : Env) : Rule := fun s =>
  let r := parse_what_keyword_osm_category env s.msg s.users_callsign
  let rd := r.2.2
  (r.1, r.2.1,
   { s with
     what := rd.what, latitude := rd.latitude, longitude := rd.longitude,
     lasttime := rd.lasttime, comment := rd.comment, altitude := rd.altitude,
     human_readable_message := rd.human_readable_message,
     msg := rd.aprs_message, message_callsign := rd.message_callsign,
     osm_special_phrase := rd.osm_special_phrase })

/-- DAPNET rule wrapper (lines 383–387). -/
def dapnetRule : Rule := fun s =>
  let r := parse_what_keyword_dapnet s.msg s.users_callsign
  let rd := r.2.2
  (r.1, r.2.1,
   { s with
     what := rd.what, message_callsign := rd.message_callsign,
     human_readable_message := rd.human_readable_message,
     msg := rd.aprs_message, dapnet_message := rd.dapnet_message })

/-- Fortune-teller rule wrapper (lines 399–400). -/
def fortuneRule : Rule := fun s =>
  let r := parse_what_keyword_fortuneteller s.msg
  let rd := r.2.2
  (r.1, r.2.1, { s with what := rd.what, msg := rd.aprs_message })

/-- Email position-report rule wrapper (lines 418–439). -/
def emailRule (env : Env) : Rule := fun s =>
  let r := parse_what_keyword_email_position_report env s.msg s.users_callsign s.language
  let rd := r.2.2
  (r.1, r.2.1,
   { s with
     latitude := rd.latitude, longitude := rd.longitude,
     users_latitude := rd.users_latitude,
     users_longitude := rd.users_longitude, lasttime := rd.lasttime,
     comment := rd.comment, altitude := rd.altitude, what := rd.what,
     human_readable_message := rd.human_readable_message,
     msg := rd.aprs_message, message_callsign := rd.message_callsign,
     city := rd.city, state := rd.state, county := rd.county,
     country := rd.country, country_code := rd.country_code,
     district := rd.district, address := rd.address, zipcode := rd.zipcode,
     street := rd.street, street_number := rd.street_number,
     mail_recipient := rd.mail_recipient })

/-- METAR/TAF rule wrapper (lines 462–466). -/
def metarRule (env : Env) : Rule := fun s =>
  let r := parse_what_keyword_metar env s.msg s.users_callsign
  let rd := r.2.2
  (r.1, r.2.1,
   { s with
     what := rd.what, message_callsign := rd.message_callsign,
     icao := rd.icao, human_readable_message := rd.human_readable_message,
     msg := rd.aprs_message })

/-- Weather-fallback rule wrapper (lines 493–508). -/
def wxRule (env : Env) : Rule := fun s =>
  let r := parse_what_keyword_wx env s.msg s.users_callsign s.language
  let rd := r.2.2
  (r.1, r.2.1,
   { s with
     latitude := rd.latitude, longitude := rd.longitude, what := rd.what,
     message_callsign := rd.message_callsign,
     human_readable_message := rd.human_readable_message,
     msg := rd.aprs_message, city := rd.city, state := rd.state,
     country := rd.country, country_code := rd.country_code,
     district := rd.district, address := rd.address, zipcode := rd.zipcode,
     county := rd.county, street := rd.street,
     street_number := rd.street_number })

/-- The ordered keyword rule chain that follows the temporal extractors
(the help rule runs earlier, before them). -/
def handlerChain (env : Env) : List Rule :=
  [csmRule env, whereamiRule env, cwopIdRule, satpassRule env,
   repeaterRule env, osmRule env, dapnetRule, fortuneRule, emailRule env,
   metarRule env, wxRule env]

/-- Lines 83–166 of `parse_input_message`: defaults, callsign
normalisation, unit derivation and the four modifier extractors. -/
def initialState (env : Env) (aprs_message : Str) (users_callsign : Str) :
    PState :=
  let cs := pyUpper users_callsign
  let units := get_units_based_on_users_callsign cs
  let r1 := parse_keyword_units aprs_message
  let (msg, units) := if r1.1 then (r1.2.1, r1.2.2) else (aprs_message, units)
  let r2 := parse_keyword_unicode msg
  let (msg, force_unicode) := if r2.1 then (r2.2.1, r2.2.2) else (msg, false)
  let r3 := parse_keyword_language msg
  let (msg, language) := if r3.1 then (r3.2.1, r3.2.2) else (msg, S ("en"))
  let r4 := parse_keyword_number_of_results msg
  let (msg, number_of_results) := if r4.1 then (r4.2.1, r4.2.2) else (msg, 1)
  { err := false, found_my_duty_roster := false, found_when := false,
    found_when_daytime := false, latitude := 0, longitude := 0, altitude := 0,
    users_latitude := 0, users_longitude := 0, date_offset := -1,
    hour_offset := -1, lasttime := datetime_min, when := none,
    when_daytime := none, what := none, units := units, language := language,
    number_of_results := number_of_results,
    force_outgoing_unicode_messages := force_unicode, city := none,
    state := none, country := none, country_code := none, county := none,
    district := none, address := none, zipcode := none, cwop_id := none,
    street := none, street_number := none, icao := none,
    human_readable_message := none, satellite := none, repeater_band := none,
    repeater_mode := none, osm_special_phrase := none, dapnet_message := none,
    mail_recipient := none, comment := none, message_callsign := none,
    users_callsign := cs, msg := msg }

/-- State after the help rule (which precedes the temporal extractors in the
source). -/
def postHelpState (env : Env) (aprs_message : Str) (users_callsign : Str) :
    PState :=
  chainStep helpRule (initialState env aprs_message users_callsign)

/-- Lines 199–205: the `when` extractor phase. -/
def whenPhase (env : Env) (s : PState) : PState :=
  if !s.found_when && !s.err && !s.found_my_duty_roster then
    let r := parse_when env s.msg
    { s with
      msg := if r.2.1 then r.1 else s.msg, found_when := r.2.1,
      when := r.2.2.1, date_offset := r.2.2.2.1, hour_offset := r.2.2.2.2 }
  else s

/-- Lines 209–215: the `when_daytime` extractor phase. -/
def daytimePhase (s : PState) : PState :=
  if !s.found_when_daytime && !s.err && !s.found_my_duty_roster then
    let r := parse_when_daytime s.msg
    { s with
      msg := if r.2.1 then r.1 else s.msg, found_when_daytime := r.2.1,
      when_daytime := r.2.2 }
  else s

/-- The state right before the keyword rule chain. -/
def preChainState (env : Env) (aprs_message : Str) (users_callsign : Str) :
    PState :=
  daytimePhase (whenPhase env (postHelpState env aprs_message users_callsign))

/-- The state right after the keyword rule chain, before the default
backfill. -/
def preFinalState (env : Env) (aprs_message : Str) (users_callsign : Str) :
    PState :=
  runChain (handlerChain env) (preChainState env aprs_message users_callsign)

/-- Lines 529–728: validity check, garbage handler, default backfill, and
the final implicit weather lookup against the sender's own callsign.
Returns the overall success flag together with the response fields. -/
def finalize (env : Env) (s : PState) : Bool × PState :=
  -- check if we found anything valid at all (lines 530–535)
  let s :=
    if !truthy s.what && !truthy s.when && !truthy s.when_daytime then
      let s :=
        if !truthy s.human_readable_message then
          { s with human_readable_message := some errmsg_invalid_command }
        else s
      { s with err := true }
    else s
  -- garbage handler (lines 545–549)
  let s :=
    if !truthy s.what && (truthy s.when || truthy s.when_daytime) &&
       s.msg.length > 0 then
      { s with err := true,
               human_readable_message := some errmsg_invalid_command }
    else s
  -- `when` default (lines 555–558)
  let s :=
    if !s.found_when && !s.err then
      { s with when := some (S ("today")), found_when := true,
               date_offset := 0 }
    else s
  -- `when_daytime` default (lines 565–572)
  let s :=
    if !s.found_when_daytime && !s.err then
      if s.what = some (S ("metar")) || s.what = some (S ("taf")) then
        { s with when_daytime := some (S ("day")), found_when_daytime := true }
      else
        { s with when_daytime := some (S ("full")),
                 found_when_daytime := true }
    else s
  -- `what` default (lines 575–576)
  let s := if !truthy s.what && !s.err then { s with what := some (S ("wx")) } else s
  -- final implicit lookup of the sender's own position (lines 584–677)
  let s :=
    if !s.found_my_duty_roster && !s.err then
      if truthy s.when then
        let p := env.position s.users_callsign
        let s :=
          { s with
            latitude := p.latitude, longitude := p.longitude,
            altitude := p.altitude, lasttime := p.lasttime,
            comment := p.comment, message_callsign := some p.callsign }
        if p.success then
          let s :=
            { s with human_readable_message := some p.callsign,
                     found_my_duty_roster := true }
          match env.reverse_geopy p.latitude p.longitude s.language false with
          | (true, ad) =>
            { s with
              city := ad.city, state := ad.state, country := ad.country,
              country_code := ad.country_code, district := ad.district,
              address := ad.address, zipcode := ad.zipcode,
              county := ad.county, street := ad.street,
              street_number := ad.street_number,
              human_readable_message :=
                some (build_human_readable_address_message ad) }
          | (false, _) => s
        else
          match ssidStripPat none s.users_callsign with
          | some (_, base) =>
            let p2 := env.position (pyUpper base)
            let s :=
              { s with
                latitude := p2.latitude, longitude := p2.longitude,
                altitude := p2.altitude, lasttime := p2.lasttime,
                comment := p2.comment, message_callsign := some p2.callsign }
            if p2.success then
              let s :=
                { s with found_my_duty_roster := true,
                         human_readable_message := some p2.callsign }
              match env.reverse_geopy p2.latitude p2.longitude s.language false with
              | (true, ad) =>
                { s with
                  city := ad.city, state := ad.state, country := ad.country,
                  country_code := ad.country_code, district := ad.district,
                  address := ad.address, zipcode := ad.zipcode,
                  county := ad.county, street := ad.street,
                  street_number := ad.street_number,
                  human_readable_message :=
                    some (build_human_readable_address_message ad) }
              | (false, _) => s
            else
              { s with
                human_readable_message :=
                  some errmsg_cannot_find_coords_for_user, err := true }
          | none => s
      else
        let s :=
          if !truthy s.human_readable_message then
            { s with human_readable_message := some errmsg_invalid_command }
          else s
        { s with err := true }
    else s
  (!s.err, s)

/-- `parse_input_message`: the whole pipeline.  Returns
`(success, response_parameters)`. -/
def parse_input_message (env : Env) (aprs_message : Str)
    (users_callsign : Str) : Bool × PState :=
  finalize env (preFinalState env aprs_message users_callsign)

/-- The parse states at the rule-handler boundaries: before the help rule,
after it, and after each rule of the keyword chain (the temporal extractors
between the help rule and the chain do not touch the duty-roster or error
flags). -/
def parseTrace (env : Env) (aprs_message : Str) (users_callsign : Str) :
    List PState :=
  initialState env aprs_message users_callsign ::
  postHelpState env aprs_message users_callsign ::
  chainScan (handlerChain env) (preChainState env aprs_message users_callsign)

/-- Number of `false → true` transitions along a list of boolean values. -/
def flips : List Bool → Nat
  | [] => 0
  | [_] => 0
  | a :: b :: t => (if !a && b then 1 else 0) + flips (b :: t)

-- ### Basic facts about the rule chain

theorem chainStep_frozen (r : Rule) (s : PState)
    (h : s.found_my_duty_roster = true ∨ s.err = true) : chainStep r s = s := by
  unfold chainStep
  rcases h with h | h <;> simp [h]

theorem chainStep_roster_mono (r : Rule) (s : PState)
    (h : s.found_my_duty_roster = true) :
    (chainStep r s).found_my_duty_roster = true := by
  rw [chainStep_frozen r s (Or.inl h)]; exact h

theorem chainStep_nofire (r : Rule) (s : PState)
    (h1 : (r s).1 = false) (h2 : (r s).2.1 = false) : chainStep r s = s := by
  unfold chainStep
  split
  · rfl
  · simp [h1, h2]

theorem runChain_cons (r : Rule) (rules : List Rule) (s : PState) :
    runChain (r :: rules) s = runChain rules (chainStep r s) := rfl

theorem runChain_frozen (rules : List Rule) (s : PState)
    (h : s.found_my_duty_roster = true ∨ s.err = true) :
    runChain rules s = s := by
  induction rules with
  | nil => rfl
  | cons r rest ih => rw [runChain_cons, chainStep_frozen r s h, ih]

-- ### No rule fires on an empty remaining message

theorem osmLoop_nil (env : Env) (cats : List Str) (cs : Str) :
    osmLoop env cats [] cs =
      (false, false,
       { latitude := 0, longitude := 0, lasttime := datetime_min,
         comment := none, altitude := 0, what := none,
         human_readable_message := none, aprs_message := [],
         message_callsign := none, osm_special_phrase := none }) := by
  induction cats with
  | nil => rfl
  | cons cat rest ih =>
    unfold osmLoop
    have h1 : reSearch (osmPat1 cat) [] = none := by
      simp [reSearch, searchAux, osmPat1, wbM, wordAt]
    have h2 : reSearch (osmPat2 cat) [] = none := by
      simp [reSearch, searchAux, osmPat2, wbM, wordAt]
    simp only [h1, h2, Option.isSome_none, Bool.false_eq_true, if_false]
    exact ih

theorem wxAddrStage_nil (env : Env) (lang cs : Str) :
    wxAddrStage env lang (wxInit [] cs) = wxInit [] cs := rfl

theorem wxZipKwStage_nil (env : Env) (lang cs : Str) :
    wxZipKwStage env lang (wxInit [] cs) = wxInit [] cs := rfl

theorem wxZipBareStage_nil (env : Env) (lang cs : Str) :
    wxZipBareStage env lang (wxInit [] cs) = wxInit [] cs := rfl

theorem wxGridStage_nil (env : Env) (pat : M Str) (cs : Str)
    (hpat : reSearch pat ([] : Str) = none) :
    wxGridStage env pat (wxInit [] cs) = wxInit [] cs := by
  unfold wxGridStage
  simp [wxInit, hpat]

theorem wxLatlonStage_nil (env : Env) (lang cs : Str) :
    wxLatlonStage env lang (wxInit [] cs) = wxInit [] cs := rfl

theorem wxCallsignStage_nil (env : Env) (lang cs : Str) :
    wxCallsignStage env lang (wxInit [] cs) = wxInit [] cs := rfl

theorem wx_handler_nil (env : Env) (cs lang : Str) :
    parse_what_keyword_wx env [] cs lang =
      (false, false,
       { latitude := 0, longitude := 0, what := none,
         message_callsign := some cs, human_readable_message := none,
         aprs_message := [], city := none, state := none, country := none,
         country_code := none, district := none, address := none,
         zipcode := none, county := none, street := none,
         street_number := none }) := by
  unfold parse_what_keyword_wx
  rw [wxAddrStage_nil, wxZipKwStage_nil, wxZipBareStage_nil,
      wxGridStage_nil env gridKwPat cs rfl, wxGridStage_nil env gridBarePat cs rfl,
      wxLatlonStage_nil, wxCallsignStage_nil]
  rfl

theorem handlerChain_nil_step (env : Env) (s : PState) (h : s.msg = []) :
    ∀ r ∈ handlerChain env, chainStep r s = s := by
  intro r hr
  have hosm : (osmRule env s).1 = false ∧ (osmRule env s).2.1 = false := by
    unfold osmRule parse_what_keyword_osm_category
    rw [h, osmLoop_nil]
    exact ⟨rfl, rfl⟩
  simp only [handlerChain, List.mem_cons, List.not_mem_nil, or_false] at hr
  rcases hr with h' | h' | h' | h' | h' | h' | h' | h' | h' | h' | h' <;> subst h'
  · exact chainStep_nofire _ _ (by unfold csmRule; rw [h]; rfl) (by unfold csmRule; rw [h]; rfl)
  · exact chainStep_nofire _ _ (by unfold whereamiRule; rw [h]; rfl) (by unfold whereamiRule; rw [h]; rfl)
  · exact chainStep_nofire _ _ (by unfold cwopIdRule; rw [h]; rfl) (by unfold cwopIdRule; rw [h]; rfl)
  · exact chainStep_nofire _ _ (by unfold satpassRule; rw [h]; rfl) (by unfold satpassRule; rw [h]; rfl)
  · exact chainStep_nofire _ _ (by unfold repeaterRule; rw [h]; rfl) (by unfold repeaterRule; rw [h]; rfl)
  · exact chainStep_nofire _ _ (by simp [osmRule] at hosm ⊢; exact hosm.1) (by simp [osmRule] at hosm ⊢; exact hosm.2)
  · exact chainStep_nofire _ _ (by unfold dapnetRule; rw [h]; rfl) (by unfold dapnetRule; rw [h]; rfl)
  · exact chainStep_nofire _ _ (by unfold fortuneRule; rw [h]; rfl) (by unfold fortuneRule; rw [h]; rfl)
  · exact chainStep_nofire _ _ (by unfold emailRule; rw [h]; rfl) (by unfold emailRule; rw [h]; rfl)
  · exact chainStep_nofire _ _ (by unfold metarRule; rw [h]; rfl) (by unfold metarRule; rw [h]; rfl)
  · exact chainStep_nofire _ _ (by unfold wxRule; rw [h, wx_handler_nil]) (by unfold wxRule; rw [h, wx_handler_nil])

theorem runChain_nil (env : Env) (s : PState) (h : s.msg = []) :
    runChain (handlerChain env) s = s := by
  have hstep := handlerChain_nil_step env s h
  simp only [handlerChain, List.mem_cons, List.not_mem_nil, or_false] at hstep
  simp only [handlerChain, runChain, List.foldl]
  rw [hstep (csmRule env) (by tauto)]
  rw [hstep (whereamiRule env) (by tauto)]
  rw [hstep cwopIdRule (by tauto)]
  rw [hstep (satpassRule env) (by tauto)]
  rw [hstep (repeaterRule env) (by tauto)]
  rw [hstep (osmRule env) (by tauto)]
  rw [hstep dapnetRule (by tauto)]
  rw [hstep fortuneRule (by tauto)]
  rw [hstep (emailRule env) (by tauto)]
  rw [hstep (metarRule env) (by tauto)]
  rw [hstep (wxRule env) (by tauto)]

-- ### Model environments (used for witnesses and counterexamples)

/-- A model environment in which every position lookup succeeds (at a fixed
location, echoing the queried callsign), `EDDF` is a known, METAR-capable
airport and the nearest airport is always `EDDF`. -/
def envResolve : Env :=
  { position := fun c =>
      { success := true, latitude := 50, longitude := 8, altitude := 100,
        lasttime := 0, comment := none, callsign := c },
    reverse_geopy := fun _ _ _ _ => (false, {}),
    geocode_geopy := fun _ _ => (false, 0, 0),
    validate_country := fun _ => true,
    validate_icao := fun c =>
      if c = S ("EDDF") then
        { success := true, latitude := 50, longitude := 8,
          metar_capable := true, icao := S ("EDDF") }
      else
        { success := false, latitude := 0, longitude := 0,
          metar_capable := false, icao := c },
    validate_iata := fun c =>
      { success := false, latitude := 0, longitude := 0,
        metar_capable := false, icao := c },
    get_nearest_icao := fun _ _ => some (S ("EDDF")),
    maidenhead_to_location := fun _ => (0, 0),
    osm_categories := [],
    today_weekday := 0 }

/-- A model environment in which every collaborator lookup fails. -/
def envFail : Env :=
  { position := fun c =>
      { success := false, latitude := 0, longitude := 0, altitude := 0,
        lasttime := 0, comment := none, callsign := c },
    reverse_geopy := fun _ _ _ _ => (false, {}),
    geocode_geopy := fun _ _ => (false, 0, 0),
    validate_country := fun _ => true,
    validate_icao := fun c =>
      { success := false, latitude := 0, longitude := 0,
        metar_capable := false, icao := c },
    validate_iata := fun c =>
      { success := false, latitude := 0, longitude := 0,
        metar_capable := false, icao := c },
    get_nearest_icao := fun _ _ => none,
    maidenhead_to_location := fun _ => (0, 0),
    osm_categories := [],
    today_weekday := 0 }

-- ### Claim C8 — the weekday-offset function

/-- C8: for every weekday `w` in 0..6, `getdaysuntil` returns 7 when today's
weekday equals `w` and `(w − today) mod 7` otherwise; the result is always
in 1..7 and never 0. -/
theorem claim_C8_weekday_offset (theweekday today : Fin 7) :
    getdaysuntil theweekday today =
      (if today = theweekday then 7
       else ((theweekday : Int) - (today : Int)) % 7) ∧
    1 ≤ getdaysuntil theweekday today ∧ getdaysuntil theweekday today ≤ 7 := by
  revert theweekday today
  decide

-- ### Claim C9 — the address formatter

/-- The address formatter exactly as §4.4 of the specification words it:
output the city name; append `,STATE` when the country code is `US` and a
state is present; append `,ZIP` when a zip code is present; fall back to the
county name when there is no city; finally append `;COUNTRY_CODE` when a
country code is present. -/
def addressFormatterSpec (rd : AddressRec) : Str :=
  (if truthy rd.city then
    rd.city.getD []
    ++ (if rd.country_code = some (S ("US")) && truthy rd.state then
          S (",") ++ rd.state.getD [] else [])
    ++ (if truthy rd.zipcode then S (",") ++ rd.zipcode.getD [] else [])
   else if truthy rd.county then rd.county.getD [] else [])
  ++ (if truthy rd.country_code then S (";") ++ rd.country_code.getD [] else [])

/-- C9: the address formatter is a pure function of the geocode record and
behaves exactly as the specification describes, clause by clause; in
particular it returns the empty string when every field is absent. -/
theorem claim_C9_address_formatter (rd : AddressRec) :
    build_human_readable_address_message rd = addressFormatterSpec rd ∧
    build_human_readable_address_message
      { city := none, state := none, country := none, country_code := none,
        district := none, address := none, zipcode := none, county := none,
        street := none, street_number := none } = [] := by
  refine ⟨?_, rfl⟩
  unfold build_human_readable_address_message addressFormatterSpec
  by_cases h1 : truthy rd.city <;>
    by_cases h2 : truthy rd.country_code <;>
      by_cases h3 : rd.country_code = some (S ("US")) <;>
        by_cases h4 : truthy rd.state <;>
          by_cases h5 : truthy rd.zipcode <;>
            by_cases h6 : truthy rd.county <;>
              simp_all [truthy, show ((S ("US")).isEmpty = false) from rfl]

-- ### Claim C4 — the final implicit lookup (code bug)

/-- C4 (code bug): for the sender callsign `DF1JSL` (no SSID) and the
message `today`, in an environment in which the position lookup fails, the
parse nevertheless ends with success=true and the defaulted `what=wx` —
the error branch of the final implicit lookup exists only inside the
SSID-matched retry path, so a sender without an SSID whose lookup fails is
reported as a success instead of `CoordinateResolutionFailure`. -/
theorem claim_C4_code_bug :
    (parse_input_message envFail (S ("today")) (S ("DF1JSL"))).1 = true ∧
    (parse_input_message envFail (S ("today")) (S ("DF1JSL"))).2.what
      = some (S ("wx")) ∧
    (parse_input_message envFail (S ("today")) (S ("DF1JSL"))).2.human_readable_message
      = none ∧
    (envFail.position (S ("DF1JSL"))).success = false := by
  refine ⟨?_, ?_, ?_, ?_⟩ <;> decide

-- ### Claim C2 — the empty input message

theorem finalize_nothing (env : Env) (s : PState) (h1 : s.what = none)
    (h2 : s.when = none) (h3 : s.when_daytime = none)
    (h4 : s.human_readable_message = none) :
    (finalize env s).1 = false ∧
    (finalize env s).2.human_readable_message = some errmsg_invalid_command := by
  unfold finalize
  simp [h1, h2, h3, h4, truthy]

/-- C2 (counterexample): the sender `df1jsl` resolves in `envResolve`, yet
parsing the empty message returns success=false — not the success=true with
weather defaults the claim states. -/
theorem claim_C2_counterexample :
    (envResolve.position (pyUpper (S ("df1jsl")))).success = true ∧
    (parse_input_message envResolve (S ("")) (S ("df1jsl"))).1 = false := by
  constructor <;> decide

/-- C2 (amended): for the empty input message and any sender callsign —
whether or not its position resolves — parsing returns success=false with
the InvalidCommand error: the parser rejects a message in which nothing at
all was found before any default can apply. -/
theorem claim_C2_amended (env : Env) (cs : Str) :
    (parse_input_message env (S ("")) cs).1 = false ∧
    (parse_input_message env (S ("")) cs).2.human_readable_message
      = some errmsg_invalid_command := by
  have hmsg : (preChainState env (S ("")) cs).msg = [] := rfl
  have hchain : preFinalState env (S ("")) cs = preChainState env (S ("")) cs :=
    runChain_nil env _ hmsg
  unfold parse_input_message
  rw [hchain]
  exact finalize_nothing env _ rfl rfl rfl rfl

-- ### Claim C1 — the bare `cwop` message
/-- Evaluation of the call-sign multi-command handler on the bare message
`cwop`: the fourth (bare-keyword) pattern matches, the sender's callsign is
used, and the outcome depends only on the position lookup — success renames
the keyword to `cwop_by_latlon`, failure is the hard
`CoordinateResolutionFailure` error. -/
theorem csm_cwop (env : Env) (mc lang : Str) :
    parse_what_keyword_callsign_multi env (S ("cwop")) mc lang =
      (if !(env.position mc).success then
        (true, true,
         { csmInit [] with
           latitude := (env.position mc).latitude,
           longitude := (env.position mc).longitude,
           altitude := (env.position mc).altitude,
           lasttime := (env.position mc).lasttime,
           comment := (env.position mc).comment,
           message_callsign := some (env.position mc).callsign,
           what := some (S ("cwop")),
           human_readable_message :=
             some (errmsg_cannot_find_coords_for_user ++ S (" ") ++
                   (env.position mc).callsign) })
      else
        (true, false,
         { csmInit [] with
           latitude := (env.position mc).latitude,
           longitude := (env.position mc).longitude,
           altitude := (env.position mc).altitude,
           lasttime := (env.position mc).lasttime,
           comment := (env.position mc).comment,
           message_callsign := some (env.position mc).callsign,
           what := some (S ("cwop_by_latlon")),
           human_readable_message :=
             some (S ("CWOP for ") ++ (env.position mc).callsign) })) := rfl

/-- The parse state after the call-sign multi rule has claimed the bare
`cwop` message with a successfully resolved sender position. -/
def cwopOkState (env : Env) (cs : Str) : PState :=
  { initialState env (S ("cwop")) cs with
    found_my_duty_roster := true, err := false,
    latitude := (env.position (pyUpper cs)).latitude,
    longitude := (env.position (pyUpper cs)).longitude,
    altitude := (env.position (pyUpper cs)).altitude,
    lasttime := (env.position (pyUpper cs)).lasttime,
    comment := (env.position (pyUpper cs)).comment,
    message_callsign := some (env.position (pyUpper cs)).callsign,
    what := some (S ("cwop_by_latlon")),
    human_readable_message :=
      some (S ("CWOP for ") ++ (env.position (pyUpper cs)).callsign),
    msg := [] }

/-- The parse state after the call-sign multi rule matched the bare `cwop`
message but the sender position lookup failed. -/
def cwopFailState (env : Env) (cs : Str) : PState :=
  { initialState env (S ("cwop")) cs with
    found_my_duty_roster := true, err := true,
    latitude := (env.position (pyUpper cs)).latitude,
    longitude := (env.position (pyUpper cs)).longitude,
    altitude := (env.position (pyUpper cs)).altitude,
    lasttime := (env.position (pyUpper cs)).lasttime,
    comment := (env.position (pyUpper cs)).comment,
    message_callsign := some (env.position (pyUpper cs)).callsign,
    what := some (S ("cwop")),
    human_readable_message :=
      some (errmsg_cannot_find_coords_for_user ++ S (" ") ++
            (env.position (pyUpper cs)).callsign),
    msg := [] }

/-- C1 (counterexample): for the input `cwop` and the sender `df1jsl`,
whose position resolves in `envResolve`, parsing succeeds (success=true) and
the MissingParameter message does not occur — the claim's success=false with
`No cwop id specified` is wrong on the code. -/
theorem claim_C1_counterexample :
    (parse_input_message envResolve (S ("cwop")) (S ("df1jsl"))).1 = true ∧
    (parse_input_message envResolve (S ("cwop")) (S ("df1jsl"))).2.human_readable_message
      ≠ some errmsg_no_cwop_specified := by
  constructor <;> decide

set_option maxHeartbeats 1600000 in
/-- C1 (amended): for the input message `cwop` and every sender callsign,
the call-sign multi-command rule claims the message with the sender's own
callsign before the CWOP-by-id rule can run: if the sender's position
resolves, parsing returns success=true with `what=cwop_by_latlon`;
otherwise it returns success=false with the CoordinateResolutionFailure
message — the MissingParameter error never occurs. -/
theorem claim_C1_amended (env : Env) (cs : Str) :
    ((env.position (pyUpper cs)).success = true →
      (parse_input_message env (S ("cwop")) cs).1 = true ∧
      (parse_input_message env (S ("cwop")) cs).2.what
        = some (S ("cwop_by_latlon"))) ∧
    ((env.position (pyUpper cs)).success = false →
      (parse_input_message env (S ("cwop")) cs).1 = false ∧
      (parse_input_message env (S ("cwop")) cs).2.human_readable_message
        = some (errmsg_cannot_find_coords_for_user ++ S (" ") ++
                (env.position (pyUpper cs)).callsign)) := by
  constructor
  · intro hsucc
    have h1 : chainStep (csmRule env) (preChainState env (S ("cwop")) cs)
        = cwopOkState env cs := by
      simp only [chainStep, csmRule,
        show (preChainState env (S ("cwop")) cs).found_my_duty_roster = false from rfl,
        show (preChainState env (S ("cwop")) cs).err = false from rfl,
        show (preChainState env (S ("cwop")) cs).msg = S ("cwop") from rfl,
        show (preChainState env (S ("cwop")) cs).users_callsign = pyUpper cs from rfl,
        show (preChainState env (S ("cwop")) cs).language = S ("en") from rfl,
        csm_cwop, hsucc]
      rfl
    have h2 : preFinalState env (S ("cwop")) cs = cwopOkState env cs := by
      unfold preFinalState
      rw [show handlerChain env = csmRule env ::
            [whereamiRule env, cwopIdRule, satpassRule env, repeaterRule env,
             osmRule env, dapnetRule, fortuneRule, emailRule env,
             metarRule env, wxRule env] from rfl,
          runChain_cons, h1]
      exact runChain_frozen _ _ (Or.inl rfl)
    unfold parse_input_message
    rw [h2]
    exact ⟨rfl, rfl⟩
  · intro hsucc
    have h1 : chainStep (csmRule env) (preChainState env (S ("cwop")) cs)
        = cwopFailState env cs := by
      simp only [chainStep, csmRule,
        show (preChainState env (S ("cwop")) cs).found_my_duty_roster = false from rfl,
        show (preChainState env (S ("cwop")) cs).err = false from rfl,
        show (preChainState env (S ("cwop")) cs).msg = S ("cwop") from rfl,
        show (preChainState env (S ("cwop")) cs).users_callsign = pyUpper cs from rfl,
        show (preChainState env (S ("cwop")) cs).language = S ("en") from rfl,
        csm_cwop, hsucc]
      rfl
    have h2 : preFinalState env (S ("cwop")) cs = cwopFailState env cs := by
      unfold preFinalState
      rw [show handlerChain env = csmRule env ::
            [whereamiRule env, cwopIdRule, satpassRule env, repeaterRule env,
             osmRule env, dapnetRule, fortuneRule, emailRule env,
             metarRule env, wxRule env] from rfl,
          runChain_cons, h1]
      exact runChain_frozen _ _ (Or.inr rfl)
    unfold parse_input_message
    rw [h2]
    exact ⟨rfl, rfl⟩

/-- Witness for `claim_C1_amended` at a concrete environment and sender. -/
theorem claim_C1_amended_witness :
    (parse_input_message envResolve (S ("cwop")) (S ("df1jsl"))).1 = true ∧
    (parse_input_message envResolve (S ("cwop")) (S ("df1jsl"))).2.what
      = some (S ("cwop_by_latlon")) :=
  (claim_C1_amended envResolve (S ("df1jsl"))).1 (by decide)

-- ### Claim C3 — the `taf eddf` message

/-- Evaluation of the call-sign multi-command handler on the message
`taf eddf`: the generic-token pattern matches with keyword `taf` and target
`EDDF`; a position-lookup failure is a hard error, and on success the
nearest-airport/METAR-capability branch decides the outcome. -/
theorem csm_tafeddf (env : Env) (mc lang : Str) :
    parse_what_keyword_callsign_multi env (S ("taf eddf")) mc lang =
      (if !(env.position (S ("EDDF"))).success then
        (true, true,
         { csmInit [] with
           latitude := (env.position (S ("EDDF"))).latitude,
           longitude := (env.position (S ("EDDF"))).longitude,
           altitude := (env.position (S ("EDDF"))).altitude,
           lasttime := (env.position (S ("EDDF"))).lasttime,
           comment := (env.position (S ("EDDF"))).comment,
           message_callsign := some (env.position (S ("EDDF"))).callsign,
           what := some (S ("taf")),
           human_readable_message :=
             some (errmsg_cannot_find_coords_for_user ++ S (" ") ++
                   (env.position (S ("EDDF"))).callsign) })
      else
        let p := env.position (S ("EDDF"))
        let base : CsmRD :=
          { csmInit [] with
            latitude := p.latitude, longitude := p.longitude,
            altitude := p.altitude, lasttime := p.lasttime,
            comment := p.comment, message_callsign := some p.callsign,
            what := some (S ("taf")) }
        let nio := env.get_nearest_icao p.latitude p.longitude
        if truthy nio then
          let v := env.validate_icao (nio.getD [])
          if v.success then
            if v.metar_capable then
              (true, false,
               { base with
                 latitude := v.latitude, longitude := v.longitude,
                 icao := some v.icao,
                 human_readable_message :=
                   some (S ("TAF") ++ S (" for '") ++ v.icao ++ S ("'")) })
            else
              (true, false,
               { base with
                 what := some (S ("wx")),
                 latitude := v.latitude, longitude := v.longitude,
                 icao := none,
                 human_readable_message :=
                   some (S ("Wx for '") ++ fmtOpt none ++ S ("'")) })
          else
            (true, false,
             { base with
               latitude := v.latitude, longitude := v.longitude,
               icao := none })
        else (true, false, base)) := rfl
/-- The parse state after the call-sign multi rule has handled `taf eddf`
with a resolvable target, nearest airport `EDDF`, and a successful
METAR-capable validation. -/
def tafOkState (env : Env) (cs : Str) : PState :=
  { initialState env (S ("taf eddf")) cs with
    found_my_duty_roster := true, err := false,
    latitude := (env.validate_icao (S ("EDDF"))).latitude,
    longitude := (env.validate_icao (S ("EDDF"))).longitude,
    altitude := (env.position (S ("EDDF"))).altitude,
    lasttime := (env.position (S ("EDDF"))).lasttime,
    comment := (env.position (S ("EDDF"))).comment,
    message_callsign := some (env.position (S ("EDDF"))).callsign,
    what := some (S ("taf")),
    icao := some (S ("EDDF")),
    human_readable_message :=
      some (S ("TAF") ++ S (" for '") ++ S ("EDDF") ++ S ("'")),
    msg := [] }

/-- The parse state after the call-sign multi rule has handled `taf eddf`
when the validated airport is not METAR-capable: the keyword downgrades to
`wx` and the ICAO field is cleared. -/
def tafWxState (env : Env) (cs : Str) : PState :=
  { initialState env (S ("taf eddf")) cs with
    found_my_duty_roster := true, err := false,
    latitude := (env.validate_icao (S ("EDDF"))).latitude,
    longitude := (env.validate_icao (S ("EDDF"))).longitude,
    altitude := (env.position (S ("EDDF"))).altitude,
    lasttime := (env.position (S ("EDDF"))).lasttime,
    comment := (env.position (S ("EDDF"))).comment,
    message_callsign := some (env.position (S ("EDDF"))).callsign,
    what := some (S ("wx")),
    icao := none,
    human_readable_message :=
      some (S ("Wx for '") ++ fmtOpt none ++ S ("'")),
    msg := [] }

set_option maxHeartbeats 1600000 in
/-- C3: for the input `taf eddf`, when the target `EDDF` resolves, the
nearest airport is `EDDF` and it validates as METAR-capable, parsing
returns success=true with `what=taf` and `icao=EDDF`; when it validates but
is not METAR-capable, `what` downgrades to `wx` and the `icao` field ends
up unset (success still true). -/
theorem claim_C3_taf_eddf (env : Env) (cs : Str)
    (hpos : (env.position (S ("EDDF"))).success = true)
    (hnear : env.get_nearest_icao (env.position (S ("EDDF"))).latitude
               (env.position (S ("EDDF"))).longitude = some (S ("EDDF")))
    (hv : (env.validate_icao (S ("EDDF"))).success = true)
    (hicao : (env.validate_icao (S ("EDDF"))).icao = S ("EDDF")) :
    ((env.validate_icao (S ("EDDF"))).metar_capable = true →
      (parse_input_message env (S ("taf eddf")) cs).1 = true ∧
      (parse_input_message env (S ("taf eddf")) cs).2.what = some (S ("taf")) ∧
      (parse_input_message env (S ("taf eddf")) cs).2.icao = some (S ("EDDF"))) ∧
    ((env.validate_icao (S ("EDDF"))).metar_capable = false →
      (parse_input_message env (S ("taf eddf")) cs).1 = true ∧
      (parse_input_message env (S ("taf eddf")) cs).2.what = some (S ("wx")) ∧
      (parse_input_message env (S ("taf eddf")) cs).2.icao = none) := by
  constructor
  · intro hcap
    have h1 : chainStep (csmRule env) (preChainState env (S ("taf eddf")) cs)
        = tafOkState env cs := by
      simp only [chainStep, csmRule,
        show (preChainState env (S ("taf eddf")) cs).found_my_duty_roster = false from rfl,
        show (preChainState env (S ("taf eddf")) cs).err = false from rfl,
        show (preChainState env (S ("taf eddf")) cs).msg = S ("taf eddf") from rfl,
        show (preChainState env (S ("taf eddf")) cs).users_callsign = pyUpper cs from rfl,
        show (preChainState env (S ("taf eddf")) cs).language = S ("en") from rfl,
        csm_tafeddf, hpos, hnear, hv, hicao, hcap, truthy,
        show (S ("EDDF")).isEmpty = false from rfl, Option.getD_some]
      rfl
    have h2 : preFinalState env (S ("taf eddf")) cs = tafOkState env cs := by
      unfold preFinalState
      rw [show handlerChain env = csmRule env ::
            [whereamiRule env, cwopIdRule, satpassRule env, repeaterRule env,
             osmRule env, dapnetRule, fortuneRule, emailRule env,
             metarRule env, wxRule env] from rfl,
          runChain_cons, h1]
      exact runChain_frozen _ _ (Or.inl rfl)
    unfold parse_input_message
    rw [h2]
    exact ⟨rfl, rfl, rfl⟩
  · intro hcap
    have h1 : chainStep (csmRule env) (preChainState env (S ("taf eddf")) cs)
        = tafWxState env cs := by
      simp only [chainStep, csmRule,
        show (preChainState env (S ("taf eddf")) cs).found_my_duty_roster = false from rfl,
        show (preChainState env (S ("taf eddf")) cs).err = false from rfl,
        show (preChainState env (S ("taf eddf")) cs).msg = S ("taf eddf") from rfl,
        show (preChainState env (S ("taf eddf")) cs).users_callsign = pyUpper cs from rfl,
        show (preChainState env (S ("taf eddf")) cs).language = S ("en") from rfl,
        csm_tafeddf, hpos, hnear, hv, hicao, hcap, truthy,
        show (S ("EDDF")).isEmpty = false from rfl, Option.getD_some]
      rfl
    have h2 : preFinalState env (S ("taf eddf")) cs = tafWxState env cs := by
      unfold preFinalState
      rw [show handlerChain env = csmRule env ::
            [whereamiRule env, cwopIdRule, satpassRule env, repeaterRule env,
             osmRule env, dapnetRule, fortuneRule, emailRule env,
             metarRule env, wxRule env] from rfl,
          runChain_cons, h1]
      exact runChain_frozen _ _ (Or.inl rfl)
    unfold parse_input_message
    rw [h2]
    exact ⟨rfl, rfl, rfl⟩

/-- Witness for `claim_C3_taf_eddf` at a concrete environment in which
`EDDF` is METAR-capable. -/
theorem claim_C3_witness :
    (parse_input_message envResolve (S ("taf eddf")) (S ("df1jsl"))).1 = true ∧
    (parse_input_message envResolve (S ("taf eddf")) (S ("df1jsl"))).2.what
      = some (S ("taf")) ∧
    (parse_input_message envResolve (S ("taf eddf")) (S ("df1jsl"))).2.icao
      = some (S ("EDDF")) :=
  (claim_C3_taf_eddf envResolve (S ("df1jsl")) (by decide) (by decide)
    (by decide) (by decide)).1 (by decide)

-- ### Claim C6 — the garbage handler

/-- C6: if, after the whole keyword chain, `what` is still unset while a
`when` or `when_daytime` temporal value was found and the leftover remaining
text is non-empty, the parse ends with success=false and the InvalidCommand
error — the parser refuses to apply the weather default. -/
theorem claim_C6_garbage (env : Env) (msg cs : Str)
    (h1 : truthy (preFinalState env msg cs).what = false)
    (h2 : truthy (preFinalState env msg cs).when = true ∨
          truthy (preFinalState env msg cs).when_daytime = true)
    (h3 : (preFinalState env msg cs).msg ≠ []) :
    (parse_input_message env msg cs).1 = false ∧
    (parse_input_message env msg cs).2.human_readable_message
      = some errmsg_invalid_command := by
  unfold parse_input_message
  have hlen : 0 < (preFinalState env msg cs).msg.length :=
    List.length_pos.mpr h3
  unfold finalize
  rcases h2 with h2 | h2 <;> simp [h1, h2, hlen]

/-- Witness for `claim_C6_garbage`: the message `monday xyz` leaves the
weekday match consumed, `what` unset and `xyz` as indigestible leftover. -/
theorem claim_C6_witness :
    (parse_input_message envFail (S ("monday xyz")) (S ("df1jsl"))).1 = false ∧
    (parse_input_message envFail (S ("monday xyz")) (S ("df1jsl"))).2.human_readable_message
      = some errmsg_invalid_command :=
  claim_C6_garbage envFail (S ("monday xyz")) (S ("df1jsl"))
    (by decide) (Or.inl (by decide)) (by decide)

-- ### Claim C5 — mutual exclusion of the duty-roster flag

theorem whenPhase_roster (env : Env) (s : PState) :
    (whenPhase env s).found_my_duty_roster = s.found_my_duty_roster := by
  unfold whenPhase
  split <;> rfl

theorem daytimePhase_roster (s : PState) :
    (daytimePhase s).found_my_duty_roster = s.found_my_duty_roster := by
  unfold daytimePhase
  split <;> rfl

theorem flips_cons_cons (a b : Bool) (t : List Bool) :
    flips (a :: b :: t) = (if !a && b then 1 else 0) + flips (b :: t) := rfl

theorem flips_cons_true :
    ∀ t : List Bool, (true :: t).Chain' (fun a b => a = true → b = true) →
      flips (true :: t) = 0 := by
  intro t
  induction t with
  | nil => intro _; rfl
  | cons b t' ih =>
    intro hc
    have hb : b = true := (List.chain'_cons'.mp hc).1 b rfl rfl
    subst hb
    rw [flips_cons_cons]
    simp [ih (List.chain'_cons'.mp hc).2]

theorem flips_le_one :
    ∀ l : List Bool, l.Chain' (fun a b => a = true → b = true) →
      flips l ≤ 1 := by
  intro l
  induction l with
  | nil => intro _; simp [flips]
  | cons a t ih =>
    intro hc
    cases ha : a with
    | true =>
      subst ha
      rw [flips_cons_true t hc]
      omega
    | false =>
      subst ha
      cases t with
      | nil => simp [flips]
      | cons b t' =>
        have hct : (b :: t').Chain' (fun a b => a = true → b = true) :=
          (List.chain'_cons'.mp hc).2
        rw [flips_cons_cons]
        cases hb : b with
        | true =>
          subst hb
          rw [flips_cons_true t' hct]
          simp
        | false =>
          subst hb
          have h1 := ih hct
          simpa using h1

theorem chainScan_cons (r : Rule) (rules : List Rule) (s : PState) :
    chainScan (r :: rules) s = s :: chainScan rules (chainStep r s) := rfl

theorem chainScan_head (rules : List Rule) (s : PState) :
    ((chainScan rules s).map (fun t => t.found_my_duty_roster)).head?
      = some s.found_my_duty_roster := by
  cases rules <;> rfl

theorem chainScan_chain' (rules : List Rule) (s : PState) :
    ((chainScan rules s).map (fun t => t.found_my_duty_roster)).Chain'
      (fun a b => a = true → b = true) := by
  induction rules generalizing s with
  | nil => simp [chainScan, List.scanl]
  | cons r rest ih =>
    rw [chainScan_cons]
    rw [List.map_cons]
    refine List.chain'_cons'.mpr ⟨?_, ih (chainStep r s)⟩
    intro h hh
    rw [chainScan_head] at hh
    cases hh
    exact fun hs => chainStep_roster_mono r s hs

/-- C5: along the rule-handler boundaries of one parse (before the help
rule, after it, and after each rule of the keyword chain), the duty-roster
flag flips from false to true at most once; and once the duty-roster flag or
the error flag is set, a chain step with any rule whatsoever leaves the
state — and hence every intent field — unchanged. -/
theorem claim_C5_mutual_exclusion (env : Env) (aprs_message users_callsign : Str) :
    flips ((parseTrace env aprs_message users_callsign).map
      (fun s => s.found_my_duty_roster)) ≤ 1 ∧
    (∀ (r : Rule) (s : PState),
      chainStep r { s with found_my_duty_roster := true }
        = { s with found_my_duty_roster := true } ∧
      chainStep r { s with err := true } = { s with err := true }) := by
  constructor
  · apply flips_le_one
    unfold parseTrace
    rw [List.map_cons, List.map_cons]
    refine List.chain'_cons'.mpr ⟨?_, ?_⟩
    · intro h hh
      rw [List.head?_cons] at hh
      cases hh
      exact fun hs => chainStep_roster_mono helpRule _ hs
    refine List.chain'_cons'.mpr ⟨?_, ?_⟩
    · intro h hh
      rw [chainScan_head] at hh
      cases hh
      unfold preChainState
      rw [daytimePhase_roster, whenPhase_roster]
      exact fun hs => hs
    · exact chainScan_chain' _ _
  · intro r s
    constructor
    · exact chainStep_frozen r _ (Or.inl rfl)
    · exact chainStep_frozen r _ (Or.inr rfl)

/-- The trace of states used in `claim_C5_mutual_exclusion` really is the
trajectory of the parse: its last element is the state the default backfill
receives. -/
theorem chainScan_last (rules : List Rule) (s : PState) (d : PState) :
    (chainScan rules s).getLastD d = runChain rules s := by
  induction rules generalizing s d with
  | nil => rfl
  | cons r rest ih =>
    rw [chainScan_cons, List.getLastD_cons]
    exact ih (chainStep r s) s

theorem parseTrace_last (env : Env) (aprs_message users_callsign : Str) :
    (parseTrace env aprs_message users_callsign).getLastD
        (initialState env aprs_message users_callsign)
      = preFinalState env aprs_message users_callsign := by
  unfold parseTrace preFinalState
  rw [List.getLastD_cons, List.getLastD_cons]
  exact chainScan_last _ _ _

-- ### Claim C7 — monotonic text consumption

/-- A chain step cannot lengthen the remaining text when the underlying rule
cannot. -/
theorem chainStep_msg_le (r : Rule) (s : PState)
    (h : ((r s).2.2).msg.length ≤ s.msg.length) :
    (chainStep r s).msg.length ≤ s.msg.length := by
  simp only [chainStep]
  repeat' split
  all_goals first
    | exact le_refl _
    | exact h

/-- Case analysis for `Option.orElse`. -/
theorem orElse_eq_some {α : Type} {a : Option α} {f : Unit → Option α} {r : α}
    (h : a.orElse f = some r) : a = some r ∨ f () = some r := by
  cases a
  · right
    simpa [Option.orElse] using h
  · left
    simpa [Option.orElse] using h

/-- The units extractor never lengthens the message. -/
theorem parse_keyword_units_len (m : Str) :
    ((parse_keyword_units m).2.1).length ≤ m.length := by
  unfold parse_keyword_units
  by_cases h1 : (reSearch metricPat m).isSome = true
  · by_cases h2 : (reSearch imperialPat (removeAll metricPat m)).isSome = true
    · have core :
          (removeAll imperialPat (removeAll metricPat m)).length ≤ m.length :=
        le_trans (removeAll_length_le imperialPat (removeAll metricPat m))
          (removeAll_length_le metricPat m)
      simpa [h1, h2] using core
    · simpa [h1, h2] using removeAll_length_le metricPat m
  · by_cases h2 : (reSearch imperialPat m).isSome = true
    · simpa [h1, h2] using removeAll_length_le imperialPat m
    · simp [h1, h2]

/-- The unicode extractor never lengthens the message. -/
theorem parse_keyword_unicode_len (m : Str) :
    ((parse_keyword_unicode m).2.1).length ≤ m.length := by
  unfold parse_keyword_unicode
  by_cases h : (reSearch unicodePat m).isSome = true
  · simpa [h] using removeAll_length_le unicodePat m
  · simp [h]

/-- The language extractor never lengthens the message. -/
theorem parse_keyword_language_len (m : Str) :
    ((parse_keyword_language m).2.1).length ≤ m.length := by
  unfold parse_keyword_language
  rcases h : reSearch langPat m with _ | code <;>
    simp [h, removeAll_length_le]

/-- The number-of-results extractor never lengthens the message. -/
theorem parse_keyword_number_of_results_len (m : Str) :
    ((parse_keyword_number_of_results m).2.1).length ≤ m.length := by
  unfold parse_keyword_number_of_results
  rcases h : reSearch topPat m with _ | d <;>
    simp [h, removeAll_length_le]

/-- A weekday hit of `parse_when` never lengthens the message. -/
theorem parseWhenWeekday_len (env : Env) (w : Fin 7) (m : Str)
    (r : Str × Bool × Option Str × Int × Int)
    (h : parseWhenWeekday env w m = some r) : r.1.length ≤ m.length := by
  unfold parseWhenWeekday at h
  split at h
  · cases h
    exact removeAll_length_le _ _
  · exact Option.noConfusion h

/-- `parse_when` never lengthens the message. -/
theorem parse_when_len (env : Env) (m : Str) :
    ((parse_when env m).1).length ≤ m.length := by
  unfold parse_when
  split
  · simp [removeAll_length_le]
  · split
    · simp [removeAll_length_le]
    · split
      · simp [removeAll_length_le]
      · split
        · rename_i r hr
          rcases orElse_eq_some hr with h | hr
          · exact parseWhenWeekday_len env 0 m r h
          rcases orElse_eq_some hr with h | hr
          · exact parseWhenWeekday_len env 1 m r h
          rcases orElse_eq_some hr with h | hr
          · exact parseWhenWeekday_len env 2 m r h
          rcases orElse_eq_some hr with h | hr
          · exact parseWhenWeekday_len env 3 m r h
          rcases orElse_eq_some hr with h | hr
          · exact parseWhenWeekday_len env 4 m r h
          rcases orElse_eq_some hr with h | hr
          · exact parseWhenWeekday_len env 5 m r h
          · exact parseWhenWeekday_len env 6 m r hr
        · split
          · simp [removeAll_length_le]
          · split
            · simp [removeAll_length_le]
            · split
              · simp [removeAll_length_le]
              · simp

/-- `parse_when_daytime` never lengthens the message. -/
theorem parse_when_daytime_len (m : Str) :
    ((parse_when_daytime m).1).length ≤ m.length := by
  unfold parse_when_daytime
  repeat' split
  all_goals first
    | exact le_refl _
    | exact removeAll_length_le _ _

/-- The fortune-teller handler never lengthens the message. -/
theorem fortune_msg_le (m : Str) :
    ((parse_what_keyword_fortuneteller m).2.2).aprs_message.length ≤
      m.length := by
  simp only [parse_what_keyword_fortuneteller]
  repeat' split
  all_goals first
    | exact le_refl _
    | exact removeAll_length_le _ _

/-- The DAPNET handler never lengthens the message. -/
theorem dapnet_msg_le (m cs : Str) :
    ((parse_what_keyword_dapnet m cs).2.2).aprs_message.length ≤ m.length := by
  simp only [parse_what_keyword_dapnet]
  repeat' split
  all_goals first
    | exact le_refl _
    | exact removeAll_length_le _ _

/-- The CWOP-by-id handler never lengthens the message. -/
theorem cwop_msg_le (m cs : Str) :
    ((parse_what_keyword_cwop_id m cs).2.2).aprs_message.length ≤ m.length := by
  simp only [parse_what_keyword_cwop_id]
  repeat' split
  all_goals first
    | exact le_refl _
    | exact removeAll_length_le _ _

/-- The satellite-pass handler never lengthens the message. -/
theorem satpass_msg_le (env : Env) (m cs : Str) :
    ((parse_what_keyword_satpass env m cs).2.2).aprs_message.length ≤
      m.length := by
  simp only [parse_what_keyword_satpass]
  repeat' split
  all_goals first
    | exact le_refl _
    | exact removeAll_length_le _ _

set_option maxHeartbeats 800000 in
/-- The repeater handler never lengthens the message. -/
theorem repeater_msg_le (env : Env) (m cs : Str) :
    ((parse_what_keyword_repeater env m cs).2.2).aprs_message.length ≤
      m.length := by
  unfold parse_what_keyword_repeater
  rcases h1 : reSearch repPat1 m with _ | p1
  · rcases h2 : reSearch repPat2 m with _ | p2
    · rcases h3 : reSearch repPat3 m with _ | md
      · rcases h4 : reSearch repPat4 m with _ | bd
        · by_cases h5 : (reSearch repPat5 m).isSome = true
          · simp only [h1, h2, h3, h4, h5]
            repeat' split
            all_goals first
              | exact le_refl _
              | exact removeAll_length_le _ _
          · simp [h1, h2, h3, h4, h5]
        · simp only [h1, h2, h3, h4]
          repeat' split
          all_goals first
            | exact le_refl _
            | exact removeAll_length_le _ _
      · simp only [h1, h2, h3]
        repeat' split
        all_goals first
          | exact le_refl _
          | exact removeAll_length_le _ _
    · rcases p2 with ⟨bd, md⟩
      simp only [h1, h2]
      repeat' split
      all_goals first
        | exact le_refl _
        | exact removeAll_length_le _ _
  · rcases p1 with ⟨md, bd⟩
    simp only [h1]
    repeat' split
    all_goals first
      | exact le_refl _
      | exact removeAll_length_le _ _

/-- The OSM category loop never lengthens the message. -/
theorem osmLoop_msg_le (env : Env) (cats : List Str) (m cs : Str) :
    ((osmLoop env cats m cs).2.2).aprs_message.length ≤ m.length := by
  induction cats with
  | nil => simp [osmLoop]
  | cons cat rest ih =>
    simp only [osmLoop]
    by_cases o1 : (reSearch (osmPat1 cat) m).isSome = true
    · simp [o1, removeAll_length_le]
    · by_cases o2 : (reSearch (osmPat2 cat) m).isSome = true
      · simp [o1, o2, removeAll_length_le]
      · simpa [o1, o2] using ih

/-- The OSM handler never lengthens the message. -/
theorem osm_msg_le (env : Env) (m cs : Str) :
    ((parse_what_keyword_osm_category env m cs).2.2).aprs_message.length ≤
      m.length := by
  unfold parse_what_keyword_osm_category
  exact osmLoop_msg_le env env.osm_categories m cs

/-- The `whereami` handler never lengthens the message. -/
theorem whereami_msg_le (env : Env) (m cs lang : Str) :
    ((parse_what_keyword_whereami env m cs lang).2.2).aprs_message.length ≤
      m.length := by
  simp only [parse_what_keyword_whereami]
  repeat' split
  all_goals first
    | exact le_refl _
    | exact removeAll_length_le _ _

/-- The email position-report handler never lengthens the message. -/
theorem email_msg_le (env : Env) (m cs lang : Str) :
    ((parse_what_keyword_email_position_report env m cs lang).2.2).aprs_message.length ≤
      m.length := by
  simp only [parse_what_keyword_email_position_report]
  repeat' split
  all_goals first
    | exact le_refl _
    | exact removeAll_length_le _ _

set_option maxHeartbeats 1600000 in
/-- The call-sign multi-command handler never lengthens the message. -/
theorem csm_msg_le (env : Env) (m cs lang : Str) :
    ((parse_what_keyword_callsign_multi env m cs lang).2.2).aprs_message.length ≤
      m.length := by
  unfold parse_what_keyword_callsign_multi
  rcases h1 : reSearch csmPat1 m with _ | p1
  · rcases h2 : reSearch csmPat2 m with _ | p2
    · rcases h3 : reSearch csmPat3 m with _ | p3
      · rcases h4 : reSearch csmPat4 m with _ | kw
        · simp [csmInit]
        · dsimp only
          simp only [csmInit, apply_ite (@Prod.snd Bool (Bool × CsmRD)),
            apply_ite (@Prod.snd Bool CsmRD), apply_ite CsmRD.aprs_message,
            ite_self]
          exact removeAll_length_le _ _
      · rcases p3 with ⟨kw, tok⟩
        dsimp only
        simp only [csmInit, apply_ite (@Prod.snd Bool (Bool × CsmRD)),
          apply_ite (@Prod.snd Bool CsmRD), apply_ite CsmRD.aprs_message,
          ite_self]
        exact removeAll_length_le _ _
    · rcases p2 with ⟨kw, c⟩
      dsimp only
      simp only [csmInit, apply_ite (@Prod.snd Bool (Bool × CsmRD)),
        apply_ite (@Prod.snd Bool CsmRD), apply_ite CsmRD.aprs_message,
        ite_self]
      exact removeAll_length_le _ _
  · rcases p1 with ⟨kw, c⟩
    dsimp only
    simp only [csmInit, apply_ite (@Prod.snd Bool (Bool × CsmRD)),
      apply_ite (@Prod.snd Bool CsmRD), apply_ite CsmRD.aprs_message,
      ite_self]
    exact removeAll_length_le _ _

/-- Stage 1 of the METAR handler never lengthens the message. -/
theorem metarIcaoKwStage_msg_le (env : Env) (st : MetarSt) :
    (metarIcaoKwStage env st).msg.length ≤ st.msg.length := by
  simp only [metarIcaoKwStage]
  repeat' split
  all_goals first
    | exact le_refl _
    | exact removeAll_length_le _ _

/-- Stage 2 of the METAR handler never lengthens the message. -/
theorem metarIataKwStage_msg_le (env : Env) (st : MetarSt) :
    (metarIataKwStage env st).msg.length ≤ st.msg.length := by
  simp only [metarIataKwStage]
  repeat' split
  all_goals first
    | exact le_refl _
    | exact removeAll_length_le _ _

/-- Stage 3 of the METAR handler never lengthens the message. -/
theorem metarIcaoBareStage_msg_le (env : Env) (st : MetarSt) :
    (metarIcaoBareStage env st).msg.length ≤ st.msg.length := by
  simp only [metarIcaoBareStage]
  repeat' split
  all_goals first
    | exact le_refl _
    | exact removeAll_length_le _ _

/-- Stage 4 of the METAR handler never lengthens the message. -/
theorem metarIataBareStage_msg_le (env : Env) (st : MetarSt) :
    (metarIataBareStage env st).msg.length ≤ st.msg.length := by
  simp only [metarIataBareStage]
  repeat' split
  all_goals first
    | exact le_refl _
    | exact removeAll_length_le _ _

/-- The nearest-airport stages of the METAR handler never lengthen the
message. -/
theorem metarNearestStage_msg_le (env : Env) (cs : Str) (kwPat : M Str)
    (whatKw hrmKw : Str) (st : MetarSt) :
    (metarNearestStage env cs kwPat whatKw hrmKw st).msg.length ≤
      st.msg.length := by
  simp only [metarNearestStage]
  repeat' split
  all_goals first
    | exact le_refl _
    | exact removeAll_length_le _ _

/-- The METAR/TAF handler never lengthens the message. -/
theorem metar_msg_le (env : Env) (m cs : Str) :
    ((parse_what_keyword_metar env m cs).2.2).aprs_message.length ≤
      m.length := by
  unfold parse_what_keyword_metar
  dsimp only
  refine le_trans (metarNearestStage_msg_le _ _ _ _ _ _) ?_
  refine le_trans (metarNearestStage_msg_le _ _ _ _ _ _) ?_
  refine le_trans (metarIataBareStage_msg_le _ _) ?_
  refine le_trans (metarIcaoBareStage_msg_le _ _) ?_
  refine le_trans (metarIataKwStage_msg_le _ _) ?_
  exact metarIcaoKwStage_msg_le _ _

set_option maxHeartbeats 800000 in
/-- The structured-address stage of the weather handler never lengthens the
message. -/
theorem wxAddrStage_msg_le (env : Env) (lang : Str) (st : WxSt) :
    (wxAddrStage env lang st).msg.length ≤ st.msg.length := by
  unfold wxAddrStage
  rcases h1 : reSearch wxAddr1Pat st.msg with _ | p1
  · rcases h2 : reSearch wxAddr2Pat st.msg with _ | p2
    · rcases h3 : reSearch wxAddr3Pat st.msg with _ | p3
      · simp only [h1, h2, h3]
        repeat' split
        all_goals first
          | exact le_refl _
          | exact removeAll_length_le _ _
      · rcases p3 with ⟨c0, cc0⟩
        simp only [h1, h2, h3]
        repeat' split
        all_goals first
          | exact le_refl _
          | exact removeAll_length_le _ _
    · rcases p2 with ⟨c0, s0⟩
      simp only [h1, h2]
      repeat' split
      all_goals first
        | exact le_refl _
        | exact removeAll_length_le _ _
  · rcases p1 with ⟨c0, s0, cc0⟩
    simp only [h1]
    repeat' split
    all_goals first
      | exact le_refl _
      | exact removeAll_length_le _ _

set_option maxHeartbeats 800000 in
/-- The keyword-zip stage of the weather handler never lengthens the
message. -/
theorem wxZipKwStage_msg_le (env : Env) (lang : Str) (st : WxSt) :
    (wxZipKwStage env lang st).msg.length ≤ st.msg.length := by
  unfold wxZipKwStage
  rcases h1 : reSearch zipKwIntlPat st.msg with _ | p1
  · rcases h2 : reSearch zipKwUsPat st.msg with _ | z0
    · rcases h3 : reSearch zipIntlPat st.msg with _ | p3
      · simp only [h1, h2, h3]
        repeat' split
        all_goals first
          | exact le_refl _
          | exact removeAll_length_le _ _
      · rcases p3 with ⟨z0, cc0⟩
        simp only [h1, h2, h3]
        repeat' split
        all_goals first
          | exact le_refl _
          | exact removeAll_length_le _ _
    · simp only [h1, h2]
      repeat' split
      all_goals first
        | exact le_refl _
        | exact removeAll_length_le _ _
  · rcases p1 with ⟨z0, cc0⟩
    simp only [h1]
    repeat' split
    all_goals first
      | exact le_refl _
      | exact removeAll_length_le _ _

/-- The bare-zip stage of the weather handler never lengthens the message. -/
theorem wxZipBareStage_msg_le (env : Env) (lang : Str) (st : WxSt) :
    (wxZipBareStage env lang st).msg.length ≤ st.msg.length := by
  simp only [wxZipBareStage]
  repeat' split
  all_goals first
    | exact le_refl _
    | exact removeAll_length_le _ _

/-- The grid-locator stages of the weather handler never lengthen the
message. -/
theorem wxGridStage_msg_le (env : Env) (pat : M Str) (st : WxSt) :
    (wxGridStage env pat st).msg.length ≤ st.msg.length := by
  simp only [wxGridStage]
  repeat' split
  all_goals first
    | exact le_refl _
    | exact removeAll_length_le _ _

/-- The lat/lon stage of the weather handler never lengthens the message. -/
theorem wxLatlonStage_msg_le (env : Env) (lang : Str) (st : WxSt) :
    (wxLatlonStage env lang st).msg.length ≤ st.msg.length := by
  simp only [wxLatlonStage]
  repeat' split
  all_goals first
    | exact le_refl _
    | exact removeAll_length_le _ _

set_option maxHeartbeats 800000 in
/-- The bare-callsign stage of the weather handler never lengthens the
message. -/
theorem wxCallsignStage_msg_le (env : Env) (lang : Str) (st : WxSt) :
    (wxCallsignStage env lang st).msg.length ≤ st.msg.length := by
  unfold wxCallsignStage
  rcases h1 : reSearch wxCsSsidPat st.msg with _ | c1
  · rcases h2 : reSearch wxCsPat st.msg with _ | c2
    · simp only [h1, h2]
      repeat' split
      all_goals first
        | exact le_refl _
        | exact removeAll_length_le _ _
    · simp only [h1, h2]
      repeat' split
      all_goals first
        | exact le_refl _
        | exact removeAll_length_le _ _
  · simp only [h1]
    repeat' split
    all_goals first
      | exact le_refl _
      | exact removeAll_length_le _ _

/-- The weather-fallback handler never lengthens the message. -/
theorem wx_msg_le (env : Env) (m cs lang : Str) :
    ((parse_what_keyword_wx env m cs lang).2.2).aprs_message.length ≤
      m.length := by
  unfold parse_what_keyword_wx
  dsimp only
  refine le_trans (wxCallsignStage_msg_le _ _ _) ?_
  refine le_trans (wxLatlonStage_msg_le _ _ _) ?_
  refine le_trans (wxGridStage_msg_le _ _ _) ?_
  refine le_trans (wxGridStage_msg_le _ _ _) ?_
  refine le_trans (wxZipBareStage_msg_le _ _ _) ?_
  refine le_trans (wxZipKwStage_msg_le _ _ _) ?_
  exact wxAddrStage_msg_le _ _ _

/-- The help rule step never lengthens the message. -/
theorem helpRule_msg_le (s : PState) :
    (chainStep helpRule s).msg.length ≤ s.msg.length := by
  apply chainStep_msg_le
  simp only [helpRule]
  repeat' split
  all_goals exact le_refl _

/-- The call-sign multi-command rule step never lengthens the message. -/
theorem csmRule_msg_le (env : Env) (s : PState) :
    (chainStep (csmRule env) s).msg.length ≤ s.msg.length := by
  apply chainStep_msg_le
  exact csm_msg_le env s.msg s.users_callsign s.language

/-- The `whereami` rule step never lengthens the message. -/
theorem whereamiRule_msg_le (env : Env) (s : PState) :
    (chainStep (whereamiRule env) s).msg.length ≤ s.msg.length := by
  apply chainStep_msg_le
  exact whereami_msg_le env s.msg s.users_callsign s.language

/-- The CWOP-by-id rule step never lengthens the message. -/
theorem cwopIdRule_msg_le (s : PState) :
    (chainStep cwopIdRule s).msg.length ≤ s.msg.length := by
  apply chainStep_msg_le
  exact cwop_msg_le s.msg s.users_callsign

/-- The satellite-pass rule step never lengthens the message. -/
theorem satpassRule_msg_le (env : Env) (s : PState) :
    (chainStep (satpassRule env) s).msg.length ≤ s.msg.length := by
  apply chainStep_msg_le
  exact satpass_msg_le env s.msg s.users_callsign

/-- The repeater rule step never lengthens the message. -/
theorem repeaterRule_msg_le (env : Env) (s : PState) :
    (chainStep (repeaterRule env) s).msg.length ≤ s.msg.length := by
  apply chainStep_msg_le
  exact repeater_msg_le env s.msg s.users_callsign

/-- The OSM rule step never lengthens the message. -/
theorem osmRule_msg_le (env : Env) (s : PState) :
    (chainStep (osmRule env) s).msg.length ≤ s.msg.length := by
  apply chainStep_msg_le
  exact osm_msg_le env s.msg s.users_callsign

/-- The DAPNET rule step never lengthens the message. -/
theorem dapnetRule_msg_le (s : PState) :
    (chainStep dapnetRule s).msg.length ≤ s.msg.length := by
  apply chainStep_msg_le
  exact dapnet_msg_le s.msg s.users_callsign

/-- The fortune-teller rule step never lengthens the message. -/
theorem fortuneRule_msg_le (s : PState) :
    (chainStep fortuneRule s).msg.length ≤ s.msg.length := by
  apply chainStep_msg_le
  exact fortune_msg_le s.msg

/-- The email rule step never lengthens the message. -/
theorem emailRule_msg_le (env : Env) (s : PState) :
    (chainStep (emailRule env) s).msg.length ≤ s.msg.length := by
  apply chainStep_msg_le
  exact email_msg_le env s.msg s.users_callsign s.language

/-- The METAR rule step never lengthens the message. -/
theorem metarRule_msg_le (env : Env) (s : PState) :
    (chainStep (metarRule env) s).msg.length ≤ s.msg.length := by
  apply chainStep_msg_le
  exact metar_msg_le env s.msg s.users_callsign

/-- The weather-fallback rule step never lengthens the message. -/
theorem wxRule_msg_le (env : Env) (s : PState) :
    (chainStep (wxRule env) s).msg.length ≤ s.msg.length := by
  apply chainStep_msg_le
  exact wx_msg_le env s.msg s.users_callsign s.language

/-- The `when` phase never lengthens the message. -/
theorem whenPhase_msg_le (env : Env) (s : PState) :
    (whenPhase env s).msg.length ≤ s.msg.length := by
  simp only [whenPhase]
  repeat' split
  all_goals first
    | exact le_refl _
    | exact parse_when_len env s.msg

/-- The `when_daytime` phase never lengthens the message. -/
theorem daytimePhase_msg_le (s : PState) :
    (daytimePhase s).msg.length ≤ s.msg.length := by
  simp only [daytimePhase]
  repeat' split
  all_goals first
    | exact le_refl _
    | exact parse_when_daytime_len s.msg

/-- Every rule of the keyword chain only shrinks the message. -/
theorem handlerChain_forall_msg_le (env : Env) :
    (handlerChain env).Forall
      (fun r => ∀ s : PState, (chainStep r s).msg.length ≤ s.msg.length) :=
  ⟨csmRule_msg_le env, whereamiRule_msg_le env, cwopIdRule_msg_le,
   satpassRule_msg_le env, repeaterRule_msg_le env, osmRule_msg_le env,
   dapnetRule_msg_le, fortuneRule_msg_le, emailRule_msg_le env,
   metarRule_msg_le env, wxRule_msg_le env⟩

/-- Folding a chain of shrinking rules shrinks the message. -/
theorem runChain_msg_le_of (rules : List Rule)
    (h : rules.Forall
      (fun r => ∀ t : PState, (chainStep r t).msg.length ≤ t.msg.length)) :
    ∀ s : PState, (runChain rules s).msg.length ≤ s.msg.length := by
  induction rules with
  | nil =>
    intro s
    simp [runChain]
  | cons r rs ih =>
    intro s
    rw [List.forall_cons] at h
    calc (runChain (r :: rs) s).msg.length
        = (runChain rs (chainStep r s)).msg.length := by rw [runChain_cons]
      _ ≤ (chainStep r s).msg.length := ih h.2 (chainStep r s)
      _ ≤ s.msg.length := h.1 s

/-- The whole keyword chain only shrinks the message. -/
theorem handlerChain_run_msg_le (env : Env) (s : PState) :
    (runChain (handlerChain env) s).msg.length ≤ s.msg.length :=
  runChain_msg_le_of (handlerChain env) (handlerChain_forall_msg_le env) s

/-- **C7** Text consumption is monotonic: each of the four modifier
extractors, the two temporal extractors, the help rule step, every keyword
rule step of the handler chain, and the chain as a whole leave the remaining
message text no longer than it was before — the remaining text never regrows
during one parse. -/
theorem claim_C7_monotonic_consumption (env : Env) :
    (∀ m : Str, ((parse_keyword_units m).2.1).length ≤ m.length) ∧
    (∀ m : Str, ((parse_keyword_unicode m).2.1).length ≤ m.length) ∧
    (∀ m : Str, ((parse_keyword_language m).2.1).length ≤ m.length) ∧
    (∀ m : Str, ((parse_keyword_number_of_results m).2.1).length ≤ m.length) ∧
    (∀ m : Str, ((parse_when env m).1).length ≤ m.length) ∧
    (∀ m : Str, ((parse_when_daytime m).1).length ≤ m.length) ∧
    (∀ s : PState, (chainStep helpRule s).msg.length ≤ s.msg.length) ∧
    (∀ s : PState, (whenPhase env s).msg.length ≤ s.msg.length) ∧
    (∀ s : PState, (daytimePhase s).msg.length ≤ s.msg.length) ∧
    ((handlerChain env).Forall
      (fun r => ∀ s : PState, (chainStep r s).msg.length ≤ s.msg.length)) ∧
    (∀ s : PState, (runChain (handlerChain env) s).msg.length ≤ s.msg.length) :=
  ⟨parse_keyword_units_len, parse_keyword_unicode_len,
   parse_keyword_language_len, parse_keyword_number_of_results_len,
   parse_when_len env, parse_when_daytime_len, helpRule_msg_le,
   whenPhase_msg_le env, daytimePhase_msg_le,
   handlerChain_forall_msg_le env, handlerChain_run_msg_le env⟩

-- ### Capture soundness of the matcher combinators

theorem map_shift_eq_some {α : Type} {o : Option (Nat × α)} {n : Nat}
    {r : Nat × α} (h : (o.map (fun p => (n + p.1, p.2))) = some r) :
    ∃ q, o = some q ∧ q.2 = r.2 := by
  cases o with
  | none => simp at h
  | some q =>
    simp only [Option.map_some'] at h
    refine ⟨q, rfl, ?_⟩
    injection h with h2
    rw [← h2]

theorem litIMatch_lower :
    ∀ (w s act rest : Str), litIMatch w s = some (act, rest) →
      pyLower act = pyLower w := by
  intro w
  induction w with
  | nil =>
    intro s act rest h
    simp only [litIMatch, Option.some.injEq, Prod.mk.injEq] at h
    rw [← h.1]
  | cons wc wt ih =>
    intro s act rest h
    cases s with
    | nil => simp [litIMatch] at h
    | cons c cs =>
      simp only [litIMatch] at h
      by_cases hc : charIEq wc c = true
      · rw [if_pos hc] at h
        cases hm : litIMatch wt cs with
        | none => rw [hm] at h; simp at h
        | some p =>
          rcases p with ⟨a1, r1⟩
          rw [hm] at h
          simp only [Option.map_some', Option.some.injEq, Prod.mk.injEq] at h
          have hrec := ih cs a1 r1 hm
          have hcc : c.toLower = wc.toLower := by
            have hb := hc
            unfold charIEq at hb
            exact (beq_iff_eq.mp hb).symm
          rw [← h.1]
          simp only [pyLower, List.map_cons]
          rw [hcc]
          simpa [pyLower] using hrec
      · rw [if_neg hc] at h
        simp at h

theorem findSome?_mem_of_eq_some {α β : Type} {l : List α} {f : α → Option β}
    {b : β} (h : l.findSome? f = some b) : ∃ x, x ∈ l ∧ f x = some b := by
  induction l with
  | nil => simp [List.findSome?] at h
  | cons a t ih =>
    rw [List.findSome?_cons] at h
    cases hfa : f a with
    | some c =>
      rw [hfa] at h
      cases h
      exact ⟨a, List.mem_cons_self a t, hfa⟩
    | none =>
      rw [hfa] at h
      obtain ⟨x, hx, hfx⟩ := ih h
      exact ⟨x, List.mem_cons_of_mem a hx, hfx⟩

/-- Inverting a successful `ret`. -/
theorem ret_inv {α : Type} {a : α} {prev : Option Char} {s : Str}
    {r : Nat × α} (h : ret a prev s = some r) : r.2 = a := by
  cases h
  rfl

/-- Inverting a successful word-boundary assertion. -/
theorem wbM_inv {α : Type} {k : M α} {prev : Option Char} {s : Str}
    {r : Nat × α} (h : wbM k prev s = some r) : k prev s = some r := by
  unfold wbM at h
  split at h
  · exact h
  · exact Option.noConfusion h

/-- Inverting a successful end-of-string assertion. -/
theorem endM_inv {α : Type} {k : M α} {prev : Option Char} {s : Str}
    {r : Nat × α} (h : endM k prev s = some r) : k prev s = some r := by
  unfold endM at h
  split at h
  · exact h
  · exact Option.noConfusion h

/-- Inverting a successful case-insensitive literal. -/
theorem litM_inv {α : Type} {w : Str} {k : Str → M α} {prev : Option Char}
    {s : Str} {r : Nat × α} (h : litM w k prev s = some r) :
    ∃ act rest q, litIMatch w s = some (act, rest) ∧
      k act (lastOr prev act) rest = some q ∧ q.2 = r.2 := by
  unfold litM at h
  cases hm : litIMatch w s with
  | none =>
    rw [hm] at h
    exact Option.noConfusion h
  | some p =>
    rcases p with ⟨act, rest⟩
    rw [hm] at h
    obtain ⟨q, hq, hq2⟩ := map_shift_eq_some h
    exact ⟨act, rest, q, rfl, hq, hq2⟩

/-- Inverting a successful literal alternation. -/
theorem altM_inv {α : Type} {ws : List Str} {k : Str → M α}
    {prev : Option Char} {s : Str} {r : Nat × α}
    (h : altM ws k prev s = some r) :
    ∃ w, w ∈ ws ∧ litM w k prev s = some r := by
  unfold altM at h
  exact findSome?_mem_of_eq_some h

/-- Inverting a successful bounded repetition. -/
theorem repM_inv {α : Type} {p : Char → Bool} {lo hi : Nat} {k : Str → M α}
    {prev : Option Char} {s : Str} {r : Nat × α}
    (h : repM p lo hi k prev s = some r) :
    ∃ t pr rest q, k t pr rest = some q ∧ q.2 = r.2 := by
  unfold repM at h
  obtain ⟨i, hi, hfi⟩ := findSome?_mem_of_eq_some h
  obtain ⟨q, hq, hq2⟩ := map_shift_eq_some hfi
  exact ⟨s.take i, lastOr prev (s.take i), s.drop i, q, hq, hq2⟩

/-- Inverting a successful greedy star. -/
theorem starM_inv {α : Type} {p : Char → Bool} {k : Str → M α}
    {prev : Option Char} {s : Str} {r : Nat × α}
    (h : starM p k prev s = some r) :
    ∃ t pr rest q, k t pr rest = some q ∧ q.2 = r.2 := by
  unfold starM at h
  exact repM_inv h

/-- Inverting a successful greedy plus. -/
theorem plusM_inv {α : Type} {p : Char → Bool} {k : Str → M α}
    {prev : Option Char} {s : Str} {r : Nat × α}
    (h : plusM p k prev s = some r) :
    ∃ t pr rest q, k t pr rest = some q ∧ q.2 = r.2 := by
  unfold plusM at h
  exact repM_inv h

/-- Inverting a successful lazy star. -/
theorem lazyStarM_inv {α : Type} {p : Char → Bool} {k : Str → M α}
    {prev : Option Char} {s : Str} {r : Nat × α}
    (h : lazyStarM p k prev s = some r) :
    ∃ t pr rest q, k t pr rest = some q ∧ q.2 = r.2 := by
  unfold lazyStarM at h
  obtain ⟨i, hi, hfi⟩ := findSome?_mem_of_eq_some h
  obtain ⟨q, hq, hq2⟩ := map_shift_eq_some hfi
  exact ⟨s.take i, lastOr prev (s.take i), s.drop i, q, hq, hq2⟩

/-- Inverting a successful search: some position admits a match with the
returned capture. -/
theorem searchAux_inv {α : Type} {m : M α} :
    ∀ (prev : Option Char) (s : Str) (a : α), searchAux m prev s = some a →
      ∃ pr t r, m pr t = some r ∧ r.2 = a := by
  intro prev s
  induction s generalizing prev with
  | nil =>
    intro a h
    simp only [searchAux] at h
    cases hm0 : m prev [] with
    | none => rw [hm0] at h; simp at h
    | some r =>
      rw [hm0] at h
      simp only [Option.map_some', Option.some.injEq] at h
      exact ⟨prev, [], r, hm0, h⟩
  | cons c rest ih =>
    intro a h
    simp only [searchAux] at h
    cases hm0 : m prev (c :: rest) with
    | some r =>
      rcases r with ⟨n, a0⟩
      rw [hm0] at h
      have h2 : a0 = a := by simpa using h
      exact ⟨prev, c :: rest, (n, a0), hm0, h2⟩
    | none =>
      rw [hm0] at h
      obtain ⟨pr, t, r, hr, hr2⟩ := ih (some c) a h
      exact ⟨pr, t, r, hr, hr2⟩

theorem reSearch_inv {α : Type} {m : M α} {s : Str} {a : α}
    (h : reSearch m s = some a) : ∃ pr t r, m pr t = some r ∧ r.2 = a :=
  searchAux_inv none s a h

/-- Any capture of the keyword-token pattern starts with one of the
keywords (up to case). -/
theorem kwTokPat_capture {kws : List Str} {s : Str} {kw tok : Str}
    (h : reSearch (kwTokPat kws) s = some (kw, tok)) :
    ∃ w, w ∈ kws ∧ pyLower kw = pyLower w := by
  obtain ⟨pr, t, r0, hm0, hr0⟩ := reSearch_inv h
  have h1 := wbM_inv hm0
  obtain ⟨w, hw, hlit⟩ := altM_inv h1
  obtain ⟨act, rest, q1, hmatch, hk1, hq1⟩ := litM_inv hlit
  obtain ⟨t2, pr2, rest2, q2, hk2, hq2⟩ := starM_inv hk1
  obtain ⟨t3, pr3, rest3, q3, hk3, hq3⟩ := plusM_inv hk2
  have h4 := wbM_inv hk3
  have h5 := ret_inv h4
  refine ⟨w, hw, ?_⟩
  have : (act, t3) = (kw, tok) := by
    rw [← hr0, ← hq1, ← hq2, ← hq3, h5]
  have hact : act = kw := congrArg Prod.fst this
  rw [← hact]
  exact litIMatch_lower w t act rest hmatch

/-- If the singleton keyword-token pattern matches at a position, so does the
pattern with a larger keyword list (same continuation). -/
theorem wbM_isSome {α : Type} {k : M α} {prev : Option Char} {s : Str}
    (h : (wbM k prev s).isSome = true) :
    (k prev s).isSome = true ∧ (wordAt prev != wordAt s.head?) = true := by
  unfold wbM at h
  by_cases hb : (wordAt prev != wordAt s.head?) = true
  · rw [if_pos hb] at h
    exact ⟨h, hb⟩
  · rw [if_neg hb] at h
    simp at h

theorem wbM_isSome_intro {α : Type} {k : M α} {prev : Option Char} {s : Str}
    (hb : (wordAt prev != wordAt s.head?) = true)
    (h : (k prev s).isSome = true) : (wbM k prev s).isSome = true := by
  unfold wbM
  rw [if_pos hb]
  exact h

/-- If the singleton keyword-token pattern matches at a position, so does the
pattern with a larger keyword list (same continuation). -/
theorem kwTokPat_mono {w : Str} {kws : List Str} (hw : w ∈ kws)
    (prev : Option Char) (s : Str)
    (h : (kwTokPat [w] prev s).isSome = true) :
    (kwTokPat kws prev s).isSome = true := by
  unfold kwTokPat at h ⊢
  obtain ⟨h1, hb⟩ := wbM_isSome h
  apply wbM_isSome_intro hb
  unfold altM at h1 ⊢
  cases hf : litM w (fun kw => starM isSpaceChar fun _ =>
      plusM isWordChar fun tok => wbM (ret (kw, tok))) prev s with
  | none =>
    simp only [List.findSome?_cons, List.findSome?_nil] at h1
    rw [hf] at h1
    simp at h1
  | some b =>
    exact findSome?_isSome_of_mem hw (by simp [hf])

-- ### Captured keywords of the keyword-led patterns

/-- The keyword captured by `csmPat1` is one of the eight multi-command
keywords, up to case. -/
theorem csmPat1_capture {s : Str} {kw c : Str}
    (h : reSearch csmPat1 s = some (kw, c)) :
    ∃ w, w ∈ kwCsm ∧ pyLower kw = pyLower w := by
  obtain ⟨pr, t, r0, hm0, hr0⟩ := reSearch_inv h
  have h1 := wbM_inv hm0
  obtain ⟨w, hw, hlit⟩ := altM_inv h1
  obtain ⟨act, rest, q1, hmatch, hk1, hq1⟩ := litM_inv hlit
  obtain ⟨t2, pr2, rest2, q2, hk2, hq2⟩ := starM_inv hk1
  obtain ⟨t3, pr3, rest3, q3, hk3, hq3⟩ := repM_inv hk2
  obtain ⟨t4, pr4, rest4, q4, hk4, hq4⟩ := repM_inv hk3
  obtain ⟨t5, pr5, rest5, q5, hk5, hq5⟩ := repM_inv hk4
  obtain ⟨act6, rest6, q6, hmatch6, hk6, hq6⟩ := litM_inv hk5
  obtain ⟨t7, pr7, rest7, q7, hk7, hq7⟩ := repM_inv hk6
  have h8 := wbM_inv hk7
  have h9 := ret_inv h8
  refine ⟨w, hw, ?_⟩
  have hpair : (act, t3 ++ t4 ++ t5 ++ act6 ++ t7) = (kw, c) := by
    rw [← hr0, ← hq1, ← hq2, ← hq3, ← hq4, ← hq5, ← hq6, ← hq7, h9]
  have hact : act = kw := congrArg Prod.fst hpair
  rw [← hact]
  exact litIMatch_lower w t act rest hmatch

/-- The keyword captured by `csmPat2` is one of the eight multi-command
keywords, up to case. -/
theorem csmPat2_capture {s : Str} {kw c : Str}
    (h : reSearch csmPat2 s = some (kw, c)) :
    ∃ w, w ∈ kwCsm ∧ pyLower kw = pyLower w := by
  obtain ⟨pr, t, r0, hm0, hr0⟩ := reSearch_inv h
  have h1 := wbM_inv hm0
  obtain ⟨w, hw, hlit⟩ := altM_inv h1
  obtain ⟨act, rest, q1, hmatch, hk1, hq1⟩ := litM_inv hlit
  obtain ⟨t2, pr2, rest2, q2, hk2, hq2⟩ := starM_inv hk1
  obtain ⟨t3, pr3, rest3, q3, hk3, hq3⟩ := repM_inv hk2
  obtain ⟨t4, pr4, rest4, q4, hk4, hq4⟩ := repM_inv hk3
  obtain ⟨t5, pr5, rest5, q5, hk5, hq5⟩ := repM_inv hk4
  have h6 := wbM_inv hk5
  have h7 := ret_inv h6
  refine ⟨w, hw, ?_⟩
  have hpair : (act, t3 ++ t4 ++ t5) = (kw, c) := by
    rw [← hr0, ← hq1, ← hq2, ← hq3, ← hq4, ← hq5, h7]
  have hact : act = kw := congrArg Prod.fst hpair
  rw [← hact]
  exact litIMatch_lower w t act rest hmatch

/-- The keyword captured by `csmPat3` is one of the eight multi-command
keywords, up to case. -/
theorem csmPat3_capture {s : Str} {kw tok : Str}
    (h : reSearch csmPat3 s = some (kw, tok)) :
    ∃ w, w ∈ kwCsm ∧ pyLower kw = pyLower w := by
  exact kwTokPat_capture h

/-- The keyword captured by `csmPat4` is one of the eight multi-command
keywords, up to case. -/
theorem csmPat4_capture {s : Str} {kw : Str}
    (h : reSearch csmPat4 s = some kw) :
    ∃ w, w ∈ kwCsm ∧ pyLower kw = pyLower w := by
  obtain ⟨pr, t, r0, hm0, hr0⟩ := reSearch_inv h
  have h1 := wbM_inv hm0
  obtain ⟨w, hw, hlit⟩ := altM_inv h1
  obtain ⟨act, rest, q1, hmatch, hk1, hq1⟩ := litM_inv hlit
  have h2 := wbM_inv hk1
  have h3 := ret_inv h2
  refine ⟨w, hw, ?_⟩
  have hact : act = kw := by
    rw [← hr0, ← hq1, h3]
  rw [← hact]
  exact litIMatch_lower w t act rest hmatch

/-- The keyword captured by `satPat` is `vispass`, `satpass` or `satfreq`,
up to case. -/
theorem satPat_capture {s : Str} {kw sat : Str}
    (h : reSearch satPat s = some (kw, sat)) :
    ∃ w, w ∈ [S ("vispass"), S ("satpass"), S ("satfreq")] ∧
      pyLower kw = pyLower w := by
  obtain ⟨pr, t, r0, hm0, hr0⟩ := reSearch_inv h
  have h1 := wbM_inv hm0
  obtain ⟨w, hw, hlit⟩ := altM_inv h1
  obtain ⟨act, rest, q1, hmatch, hk1, hq1⟩ := litM_inv hlit
  obtain ⟨t2, pr2, rest2, q2, hk2, hq2⟩ := starM_inv hk1
  obtain ⟨t3, pr3, rest3, q3, hk3, hq3⟩ := starM_inv hk2
  obtain ⟨t4, pr4, rest4, q4, hk4, hq4⟩ := starM_inv hk3
  have h5 := wbM_inv hk4
  have h6 := ret_inv h5
  refine ⟨w, hw, ?_⟩
  have hpair : (act, t3 ++ t4) = (kw, sat) := by
    rw [← hr0, ← hq1, ← hq2, ← hq3, ← hq4, h6]
  have hact : act = kw := congrArg Prod.fst hpair
  rw [← hact]
  exact litIMatch_lower w t act rest hmatch

/-- The keyword captured by `dapPat1` is `dapnet` or `dapnethp`, up to
case. -/
theorem dapPat1_capture {s : Str} {kw c body : Str}
    (h : reSearch dapPat1 s = some (kw, c, body)) :
    ∃ w, w ∈ [S ("dapnet"), S ("dapnethp")] ∧ pyLower kw = pyLower w := by
  obtain ⟨pr, t, r0, hm0, hr0⟩ := reSearch_inv h
  have h1 := wbM_inv hm0
  obtain ⟨w, hw, hlit⟩ := altM_inv h1
  obtain ⟨act, rest, q1, hmatch, hk1, hq1⟩ := litM_inv hlit
  obtain ⟨t2, pr2, rest2, q2, hk2, hq2⟩ := starM_inv hk1
  obtain ⟨t3, pr3, rest3, q3, hk3, hq3⟩ := repM_inv hk2
  obtain ⟨t4, pr4, rest4, q4, hk4, hq4⟩ := repM_inv hk3
  obtain ⟨t5, pr5, rest5, q5, hk5, hq5⟩ := repM_inv hk4
  obtain ⟨act6, rest6, q6, hmatch6, hk6, hq6⟩ := litM_inv hk5
  obtain ⟨t7, pr7, rest7, q7, hk7, hq7⟩ := repM_inv hk6
  obtain ⟨t8, pr8, rest8, q8, hk8, hq8⟩ := starM_inv hk7
  obtain ⟨t9, pr9, rest9, q9, hk9, hq9⟩ := plusM_inv hk8
  have h10 := ret_inv hk9
  refine ⟨w, hw, ?_⟩
  have hpair : (act, t3 ++ t4 ++ t5 ++ act6 ++ t7, t9) = (kw, c, body) := by
    rw [← hr0, ← hq1, ← hq2, ← hq3, ← hq4, ← hq5, ← hq6, ← hq7, ← hq8,
        ← hq9, h10]
  have hact : act = kw := congrArg Prod.fst hpair
  rw [← hact]
  exact litIMatch_lower w t act rest hmatch

/-- The keyword captured by `dapPat2` is `dapnet` or `dapnethp`, up to
case. -/
theorem dapPat2_capture {s : Str} {kw c body : Str}
    (h : reSearch dapPat2 s = some (kw, c, body)) :
    ∃ w, w ∈ [S ("dapnet"), S ("dapnethp")] ∧ pyLower kw = pyLower w := by
  obtain ⟨pr, t, r0, hm0, hr0⟩ := reSearch_inv h
  have h1 := wbM_inv hm0
  obtain ⟨w, hw, hlit⟩ := altM_inv h1
  obtain ⟨act, rest, q1, hmatch, hk1, hq1⟩ := litM_inv hlit
  obtain ⟨t2, pr2, rest2, q2, hk2, hq2⟩ := starM_inv hk1
  obtain ⟨t3, pr3, rest3, q3, hk3, hq3⟩ := repM_inv hk2
  obtain ⟨t4, pr4, rest4, q4, hk4, hq4⟩ := repM_inv hk3
  obtain ⟨t5, pr5, rest5, q5, hk5, hq5⟩ := repM_inv hk4
  obtain ⟨t6, pr6, rest6, q6, hk6, hq6⟩ := starM_inv hk5
  obtain ⟨t7, pr7, rest7, q7, hk7, hq7⟩ := plusM_inv hk6
  have h8 := ret_inv hk7
  refine ⟨w, hw, ?_⟩
  have hpair : (act, t3 ++ t4 ++ t5, t7) = (kw, c, body) := by
    rw [← hr0, ← hq1, ← hq2, ← hq3, ← hq4, ← hq5, ← hq6, ← hq7, h8]
  have hact : act = kw := congrArg Prod.fst hpair
  rw [← hact]
  exact litIMatch_lower w t act rest hmatch

-- ### The CWOP-by-id pattern is shadowed by the third multi-command pattern

/-- Wherever the CWOP-by-id pattern matches, the third (generic-token)
pattern of the call-sign multi-command rule matches as well, because `cwop`
is one of its keywords and the continuation after the keyword alternation is
identical. -/
theorem cwopId_implies_csm3 {s : Str}
    (h : (reSearch cwopIdPat s).isSome = true) :
    (reSearch csmPat3 s).isSome = true := by
  refine reSearch_mono ?_ h
  intro prev t h1
  unfold cwopIdPat at h1
  rw [capMap_isSome] at h1
  exact kwTokPat_mono (by decide) prev t h1

-- ### No handler ever reports the CWOP-by-id intent except the CWOP-by-id
-- handler itself

theorem ite_ne_of {α : Type} {c : Prop} [inst : Decidable c] {x y z : α}
    (hx : x ≠ z) (hy : y ≠ z) : (if c then x else y) ≠ z := by
  split
  · exact hx
  · exact hy

theorem ne_cwop_none : (none : Option Str) ≠ some (S ("cwop_by_cwop_id")) := by
  decide

theorem ne_cwop_whereis :
    some (S ("whereis")) ≠ some (S ("cwop_by_cwop_id")) := by decide

theorem ne_cwop_repeater :
    some (S ("repeater")) ≠ some (S ("cwop_by_cwop_id")) := by decide

theorem ne_cwop_osm :
    some (S ("osm_special_phrase")) ≠ some (S ("cwop_by_cwop_id")) := by decide

theorem ne_cwop_fortune :
    some (S ("fortuneteller")) ≠ some (S ("cwop_by_cwop_id")) := by decide

theorem ne_cwop_email :
    some (S ("email_position_report")) ≠ some (S ("cwop_by_cwop_id")) := by
  decide

theorem ne_cwop_metar :
    some (S ("metar")) ≠ some (S ("cwop_by_cwop_id")) := by decide

theorem ne_cwop_taf :
    some (S ("taf")) ≠ some (S ("cwop_by_cwop_id")) := by decide

theorem ne_cwop_wx :
    some (S ("wx")) ≠ some (S ("cwop_by_cwop_id")) := by decide

theorem ne_cwop_latlon :
    some (S ("cwop_by_latlon")) ≠ some (S ("cwop_by_cwop_id")) := by decide

theorem ne_cwop_help :
    some (S ("help")) ≠ some (S ("cwop_by_cwop_id")) := by decide


theorem whereami_what_ne (env : Env) (m cs lang : Str) :
    ((parse_what_keyword_whereami env m cs lang).2.2).what ≠
      some (S ("cwop_by_cwop_id")) := by
  simp only [parse_what_keyword_whereami]
  repeat' split
  all_goals first
    | exact hst
    | exact hsome
    | exact hkw
    | exact ne_cwop_none
    | exact ne_cwop_whereis
    | exact ne_cwop_repeater
    | exact ne_cwop_osm
    | exact ne_cwop_fortune
    | exact ne_cwop_email
    | exact ne_cwop_metar
    | exact ne_cwop_taf
    | exact ne_cwop_wx
    | exact ne_cwop_latlon
    | simp_all


theorem satpass_what_ne (env : Env) (m cs : Str) :
    ((parse_what_keyword_satpass env m cs).2.2).what ≠
      some (S ("cwop_by_cwop_id")) := by
  unfold parse_what_keyword_satpass
  rcases h : reSearch satPat m with _ | p
  · simp [h]
  · rcases p with ⟨kw, sat0⟩
    obtain ⟨w, hw, hlow⟩ := satPat_capture h
    have hne : pyLower kw ≠ S ("cwop_by_cwop_id") := by
      rw [hlow]
      simp only [List.mem_cons, List.not_mem_nil, or_false] at hw
      rcases hw with rfl | rfl | rfl <;> decide
    have hsome : some (pyLower kw) ≠ some (S ("cwop_by_cwop_id")) :=
      fun he => hne (Option.some.inj he)
    dsimp only
    repeat' split
    all_goals first
      | exact hst
      | exact hsome
      | exact hkw
      | exact ne_cwop_none
      | exact ne_cwop_whereis
      | exact ne_cwop_repeater
      | exact ne_cwop_osm
      | exact ne_cwop_fortune
      | exact ne_cwop_email
      | exact ne_cwop_metar
      | exact ne_cwop_taf
      | exact ne_cwop_wx
      | exact ne_cwop_latlon
      | simp_all


set_option maxHeartbeats 800000 in
theorem repeater_what_ne (env : Env) (m cs : Str) :
    ((parse_what_keyword_repeater env m cs).2.2).what ≠
      some (S ("cwop_by_cwop_id")) := by
  unfold parse_what_keyword_repeater
  rcases h1 : reSearch repPat1 m with _ | p1
  · rcases h2 : reSearch repPat2 m with _ | p2
    · rcases h3 : reSearch repPat3 m with _ | md
      · rcases h4 : reSearch repPat4 m with _ | bd
        · by_cases h5 : (reSearch repPat5 m).isSome = true
          · simp only [h1, h2, h3, h4, h5]
            repeat' split
            all_goals first
              | exact hst
              | exact hsome
              | exact hkw
              | exact ne_cwop_none
              | exact ne_cwop_whereis
              | exact ne_cwop_repeater
              | exact ne_cwop_osm
              | exact ne_cwop_fortune
              | exact ne_cwop_email
              | exact ne_cwop_metar
              | exact ne_cwop_taf
              | exact ne_cwop_wx
              | exact ne_cwop_latlon
              | simp_all
          · simp only [h1, h2, h3, h4, h5]
            repeat' split
            all_goals first
              | exact hst
              | exact hsome
              | exact hkw
              | exact ne_cwop_none
              | exact ne_cwop_whereis
              | exact ne_cwop_repeater
              | exact ne_cwop_osm
              | exact ne_cwop_fortune
              | exact ne_cwop_email
              | exact ne_cwop_metar
              | exact ne_cwop_taf
              | exact ne_cwop_wx
              | exact ne_cwop_latlon
              | simp_all
        · simp only [h1, h2, h3, h4]
          repeat' split
          all_goals first
            | exact hst
            | exact hsome
            | exact hkw
            | exact ne_cwop_none
            | exact ne_cwop_whereis
            | exact ne_cwop_repeater
            | exact ne_cwop_osm
            | exact ne_cwop_fortune
            | exact ne_cwop_email
            | exact ne_cwop_metar
            | exact ne_cwop_taf
            | exact ne_cwop_wx
            | exact ne_cwop_latlon
            | simp_all
      · simp only [h1, h2, h3]
        repeat' split
        all_goals first
          | exact hst
          | exact hsome
          | exact hkw
          | exact ne_cwop_none
          | exact ne_cwop_whereis
          | exact ne_cwop_repeater
          | exact ne_cwop_osm
          | exact ne_cwop_fortune
          | exact ne_cwop_email
          | exact ne_cwop_metar
          | exact ne_cwop_taf
          | exact ne_cwop_wx
          | exact ne_cwop_latlon
          | simp_all
    · rcases p2 with ⟨bd, md⟩
      simp only [h1, h2]
      repeat' split
      all_goals first
        | exact hst
        | exact hsome
        | exact hkw
        | exact ne_cwop_none
        | exact ne_cwop_whereis
        | exact ne_cwop_repeater
        | exact ne_cwop_osm
        | exact ne_cwop_fortune
        | exact ne_cwop_email
        | exact ne_cwop_metar
        | exact ne_cwop_taf
        | exact ne_cwop_wx
        | exact ne_cwop_latlon
        | simp_all
  · rcases p1 with ⟨md, bd⟩
    simp only [h1]
    repeat' split
    all_goals first
      | exact hst
      | exact hsome
      | exact hkw
      | exact ne_cwop_none
      | exact ne_cwop_whereis
      | exact ne_cwop_repeater
      | exact ne_cwop_osm
      | exact ne_cwop_fortune
      | exact ne_cwop_email
      | exact ne_cwop_metar
      | exact ne_cwop_taf
      | exact ne_cwop_wx
      | exact ne_cwop_latlon
      | simp_all


theorem osmLoop_what_ne (env : Env) (cats : List Str) (m cs : Str) :
    ((osmLoop env cats m cs).2.2).what ≠ some (S ("cwop_by_cwop_id")) := by
  induction cats with
  | nil => simp [osmLoop]
  | cons cat rest ih =>
    simp only [osmLoop]
    by_cases o1 : (reSearch (osmPat1 cat) m).isSome = true
    · simp only [o1]
      repeat' split
      all_goals first
        | exact ih
        | exact hst
        | exact hsome
        | exact hkw
        | exact ne_cwop_none
        | exact ne_cwop_whereis
        | exact ne_cwop_repeater
        | exact ne_cwop_osm
        | exact ne_cwop_fortune
        | exact ne_cwop_email
        | exact ne_cwop_metar
        | exact ne_cwop_taf
        | exact ne_cwop_wx
        | exact ne_cwop_latlon
        | simp_all
    · by_cases o2 : (reSearch (osmPat2 cat) m).isSome = true
      · simp only [o1, o2]
        repeat' split
        all_goals first
          | exact ih
          | exact hst
          | exact hsome
          | exact hkw
          | exact ne_cwop_none
          | exact ne_cwop_whereis
          | exact ne_cwop_repeater
          | exact ne_cwop_osm
          | exact ne_cwop_fortune
          | exact ne_cwop_email
          | exact ne_cwop_metar
          | exact ne_cwop_taf
          | exact ne_cwop_wx
          | exact ne_cwop_latlon
          | simp_all
      · simpa [o1, o2] using ih

theorem osm_what_ne (env : Env) (m cs : Str) :
    ((parse_what_keyword_osm_category env m cs).2.2).what ≠
      some (S ("cwop_by_cwop_id")) := by
  unfold parse_what_keyword_osm_category
  exact osmLoop_what_ne env env.osm_categories m cs


theorem dapnet_what_ne (m cs : Str) :
    ((parse_what_keyword_dapnet m cs).2.2).what ≠
      some (S ("cwop_by_cwop_id")) := by
  unfold parse_what_keyword_dapnet
  rcases h1 : reSearch dapPat1 m with _ | p1
  · rcases h2 : reSearch dapPat2 m with _ | p2
    · simp [h1, h2]
    · rcases p2 with ⟨kw, c, body⟩
      obtain ⟨w, hw, hlow⟩ := dapPat2_capture h2
      have hne : pyLower kw ≠ S ("cwop_by_cwop_id") := by
        rw [hlow]
        simp only [List.mem_cons, List.not_mem_nil, or_false] at hw
        rcases hw with rfl | rfl <;> decide
      simp only [h1, h2]
      exact fun he => hne (Option.some.inj he)
  · rcases p1 with ⟨kw, c, body⟩
    obtain ⟨w, hw, hlow⟩ := dapPat1_capture h1
    have hne : pyLower kw ≠ S ("cwop_by_cwop_id") := by
      rw [hlow]
      simp only [List.mem_cons, List.not_mem_nil, or_false] at hw
      rcases hw with rfl | rfl <;> decide
    simp only [h1]
    exact fun he => hne (Option.some.inj he)

theorem fortune_what_ne (m : Str) :
    ((parse_what_keyword_fortuneteller m).2.2).what ≠
      some (S ("cwop_by_cwop_id")) := by
  simp only [parse_what_keyword_fortuneteller]
  repeat' split
  all_goals first
    | exact hst
    | exact hsome
    | exact hkw
    | exact ne_cwop_none
    | exact ne_cwop_whereis
    | exact ne_cwop_repeater
    | exact ne_cwop_osm
    | exact ne_cwop_fortune
    | exact ne_cwop_email
    | exact ne_cwop_metar
    | exact ne_cwop_taf
    | exact ne_cwop_wx
    | exact ne_cwop_latlon
    | simp_all

theorem email_what_ne (env : Env) (m cs lang : Str) :
    ((parse_what_keyword_email_position_report env m cs lang).2.2).what ≠
      some (S ("cwop_by_cwop_id")) := by
  simp only [parse_what_keyword_email_position_report]
  repeat' split
  all_goals first
    | exact hst
    | exact hsome
    | exact hkw
    | exact ne_cwop_none
    | exact ne_cwop_whereis
    | exact ne_cwop_repeater
    | exact ne_cwop_osm
    | exact ne_cwop_fortune
    | exact ne_cwop_email
    | exact ne_cwop_metar
    | exact ne_cwop_taf
    | exact ne_cwop_wx
    | exact ne_cwop_latlon
    | simp_all


theorem metarIcaoKwStage_what_ne (env : Env) (st : MetarSt)
    (hst : st.what ≠ some (S ("cwop_by_cwop_id"))) :
    (metarIcaoKwStage env st).what ≠ some (S ("cwop_by_cwop_id")) := by
  simp only [metarIcaoKwStage]
  repeat' split
  all_goals first
    | exact hst
    | exact hsome
    | exact hkw
    | exact ne_cwop_none
    | exact ne_cwop_whereis
    | exact ne_cwop_repeater
    | exact ne_cwop_osm
    | exact ne_cwop_fortune
    | exact ne_cwop_email
    | exact ne_cwop_metar
    | exact ne_cwop_taf
    | exact ne_cwop_wx
    | exact ne_cwop_latlon
    | simp_all


theorem metarIataKwStage_what_ne (env : Env) (st : MetarSt)
    (hst : st.what ≠ some (S ("cwop_by_cwop_id"))) :
    (metarIataKwStage env st).what ≠ some (S ("cwop_by_cwop_id")) := by
  simp only [metarIataKwStage]
  repeat' split
  all_goals first
    | exact hst
    | exact hsome
    | exact hkw
    | exact ne_cwop_none
    | exact ne_cwop_whereis
    | exact ne_cwop_repeater
    | exact ne_cwop_osm
    | exact ne_cwop_fortune
    | exact ne_cwop_email
    | exact ne_cwop_metar
    | exact ne_cwop_taf
    | exact ne_cwop_wx
    | exact ne_cwop_latlon
    | simp_all


theorem metarIcaoBareStage_what_ne (env : Env) (st : MetarSt)
    (hst : st.what ≠ some (S ("cwop_by_cwop_id"))) :
    (metarIcaoBareStage env st).what ≠ some (S ("cwop_by_cwop_id")) := by
  simp only [metarIcaoBareStage]
  repeat' split
  all_goals first
    | exact hst
    | exact hsome
    | exact hkw
    | exact ne_cwop_none
    | exact ne_cwop_whereis
    | exact ne_cwop_repeater
    | exact ne_cwop_osm
    | exact ne_cwop_fortune
    | exact ne_cwop_email
    | exact ne_cwop_metar
    | exact ne_cwop_taf
    | exact ne_cwop_wx
    | exact ne_cwop_latlon
    | simp_all


theorem metarIataBareStage_what_ne (env : Env) (st : MetarSt)
    (hst : st.what ≠ some (S ("cwop_by_cwop_id"))) :
    (metarIataBareStage env st).what ≠ some (S ("cwop_by_cwop_id")) := by
  simp only [metarIataBareStage]
  repeat' split
  all_goals first
    | exact hst
    | exact hsome
    | exact hkw
    | exact ne_cwop_none
    | exact ne_cwop_whereis
    | exact ne_cwop_repeater
    | exact ne_cwop_osm
    | exact ne_cwop_fortune
    | exact ne_cwop_email
    | exact ne_cwop_metar
    | exact ne_cwop_taf
    | exact ne_cwop_wx
    | exact ne_cwop_latlon
    | simp_all


theorem metarNearestStage_what_ne (env : Env) (cs : Str) (kwPat : M Str)
    (whatKw hrmKw : Str) (st : MetarSt)
    (hkw : some whatKw ≠ some (S ("cwop_by_cwop_id")))
    (hst : st.what ≠ some (S ("cwop_by_cwop_id"))) :
    (metarNearestStage env cs kwPat whatKw hrmKw st).what ≠
      some (S ("cwop_by_cwop_id")) := by
  simp only [metarNearestStage]
  repeat' split
  all_goals first
    | exact hst
    | exact hsome
    | exact hkw
    | exact ne_cwop_none
    | exact ne_cwop_whereis
    | exact ne_cwop_repeater
    | exact ne_cwop_osm
    | exact ne_cwop_fortune
    | exact ne_cwop_email
    | exact ne_cwop_metar
    | exact ne_cwop_taf
    | exact ne_cwop_wx
    | exact ne_cwop_latlon
    | simp_all

theorem metar_what_ne (env : Env) (m cs : Str) :
    ((parse_what_keyword_metar env m cs).2.2).what ≠
      some (S ("cwop_by_cwop_id")) := by
  unfold parse_what_keyword_metar
  dsimp only
  refine metarNearestStage_what_ne _ _ _ _ _ _ ne_cwop_taf ?_
  refine metarNearestStage_what_ne _ _ _ _ _ _ ne_cwop_metar ?_
  refine metarIataBareStage_what_ne _ _ ?_
  refine metarIcaoBareStage_what_ne _ _ ?_
  refine metarIataKwStage_what_ne _ _ ?_
  refine metarIcaoKwStage_what_ne _ _ ?_
  exact ne_cwop_none


theorem wxAddrStage_what_ne (env : Env) (lang : Str) (st : WxSt)
    (hst : st.what ≠ some (S ("cwop_by_cwop_id"))) :
    (wxAddrStage env lang st).what ≠ some (S ("cwop_by_cwop_id")) := by
  unfold wxAddrStage
  rcases h1 : reSearch wxAddr1Pat st.msg with _ | p1
  · rcases h2 : reSearch wxAddr2Pat st.msg with _ | p2
    · rcases h3 : reSearch wxAddr3Pat st.msg with _ | p3
      · simp only [h1, h2, h3]
        repeat' split
        all_goals first
          | exact hst
          | exact hsome
          | exact hkw
          | exact ne_cwop_none
          | exact ne_cwop_whereis
          | exact ne_cwop_repeater
          | exact ne_cwop_osm
          | exact ne_cwop_fortune
          | exact ne_cwop_email
          | exact ne_cwop_metar
          | exact ne_cwop_taf
          | exact ne_cwop_wx
          | exact ne_cwop_latlon
          | simp_all
      · rcases p3 with ⟨c0, cc0⟩
        simp only [h1, h2, h3]
        repeat' split
        all_goals first
          | exact hst
          | exact hsome
          | exact hkw
          | exact ne_cwop_none
          | exact ne_cwop_whereis
          | exact ne_cwop_repeater
          | exact ne_cwop_osm
          | exact ne_cwop_fortune
          | exact ne_cwop_email
          | exact ne_cwop_metar
          | exact ne_cwop_taf
          | exact ne_cwop_wx
          | exact ne_cwop_latlon
          | simp_all
    · rcases p2 with ⟨c0, s0⟩
      simp only [h1, h2]
      repeat' split
      all_goals first
        | exact hst
        | exact hsome
        | exact hkw
        | exact ne_cwop_none
        | exact ne_cwop_whereis
        | exact ne_cwop_repeater
        | exact ne_cwop_osm
        | exact ne_cwop_fortune
        | exact ne_cwop_email
        | exact ne_cwop_metar
        | exact ne_cwop_taf
        | exact ne_cwop_wx
        | exact ne_cwop_latlon
        | simp_all
  · rcases p1 with ⟨c0, s0, cc0⟩
    simp only [h1]
    repeat' split
    all_goals first
      | exact hst
      | exact hsome
      | exact hkw
      | exact ne_cwop_none
      | exact ne_cwop_whereis
      | exact ne_cwop_repeater
      | exact ne_cwop_osm
      | exact ne_cwop_fortune
      | exact ne_cwop_email
      | exact ne_cwop_metar
      | exact ne_cwop_taf
      | exact ne_cwop_wx
      | exact ne_cwop_latlon
      | simp_all

theorem wxZipKwStage_what_ne (env : Env) (lang : Str) (st : WxSt)
    (hst : st.what ≠ some (S ("cwop_by_cwop_id"))) :
    (wxZipKwStage env lang st).what ≠ some (S ("cwop_by_cwop_id")) := by
  unfold wxZipKwStage
  rcases h1 : reSearch zipKwIntlPat st.msg with _ | p1
  · rcases h2 : reSearch zipKwUsPat st.msg with _ | z0
    · rcases h3 : reSearch zipIntlPat st.msg with _ | p3
      · simp only [h1, h2, h3]
        repeat' split
        all_goals first
          | exact hst
          | exact hsome
          | exact hkw
          | exact ne_cwop_none
          | exact ne_cwop_whereis
          | exact ne_cwop_repeater
          | exact ne_cwop_osm
          | exact ne_cwop_fortune
          | exact ne_cwop_email
          | exact ne_cwop_metar
          | exact ne_cwop_taf
          | exact ne_cwop_wx
          | exact ne_cwop_latlon
          | simp_all
      · rcases p3 with ⟨z0, cc0⟩
        simp only [h1, h2, h3]
        repeat' split
        all_goals first
          | exact hst
          | exact hsome
          | exact hkw
          | exact ne_cwop_none
          | exact ne_cwop_whereis
          | exact ne_cwop_repeater
          | exact ne_cwop_osm
          | exact ne_cwop_fortune
          | exact ne_cwop_email
          | exact ne_cwop_metar
          | exact ne_cwop_taf
          | exact ne_cwop_wx
          | exact ne_cwop_latlon
          | simp_all
    · simp only [h1, h2]
      repeat' split
      all_goals first
        | exact hst
        | exact hsome
        | exact hkw
        | exact ne_cwop_none
        | exact ne_cwop_whereis
        | exact ne_cwop_repeater
        | exact ne_cwop_osm
        | exact ne_cwop_fortune
        | exact ne_cwop_email
        | exact ne_cwop_metar
        | exact ne_cwop_taf
        | exact ne_cwop_wx
        | exact ne_cwop_latlon
        | simp_all
  · rcases p1 with ⟨z0, cc0⟩
    simp only [h1]
    repeat' split
    all_goals first
      | exact hst
      | exact hsome
      | exact hkw
      | exact ne_cwop_none
      | exact ne_cwop_whereis
      | exact ne_cwop_repeater
      | exact ne_cwop_osm
      | exact ne_cwop_fortune
      | exact ne_cwop_email
      | exact ne_cwop_metar
      | exact ne_cwop_taf
      | exact ne_cwop_wx
      | exact ne_cwop_latlon
      | simp_all


theorem wxZipBareStage_what_ne (env : Env) (lang : Str) (st : WxSt)
    (hst : st.what ≠ some (S ("cwop_by_cwop_id"))) :
    (wxZipBareStage env lang st).what ≠ some (S ("cwop_by_cwop_id")) := by
  simp only [wxZipBareStage]
  repeat' split
  all_goals first
    | exact hst
    | exact hsome
    | exact hkw
    | exact ne_cwop_none
    | exact ne_cwop_whereis
    | exact ne_cwop_repeater
    | exact ne_cwop_osm
    | exact ne_cwop_fortune
    | exact ne_cwop_email
    | exact ne_cwop_metar
    | exact ne_cwop_taf
    | exact ne_cwop_wx
    | exact ne_cwop_latlon
    | simp_all


theorem wxGridStage_what_ne (env : Env) (pat : M Str) (st : WxSt)
    (hst : st.what ≠ some (S ("cwop_by_cwop_id"))) :
    (wxGridStage env pat st).what ≠ some (S ("cwop_by_cwop_id")) := by
  simp only [wxGridStage]
  repeat' split
  all_goals first
    | exact hst
    | exact hsome
    | exact hkw
    | exact ne_cwop_none
    | exact ne_cwop_whereis
    | exact ne_cwop_repeater
    | exact ne_cwop_osm
    | exact ne_cwop_fortune
    | exact ne_cwop_email
    | exact ne_cwop_metar
    | exact ne_cwop_taf
    | exact ne_cwop_wx
    | exact ne_cwop_latlon
    | simp_all


theorem wxLatlonStage_what_ne (env : Env) (lang : Str) (st : WxSt)
    (hst : st.what ≠ some (S ("cwop_by_cwop_id"))) :
    (wxLatlonStage env lang st).what ≠ some (S ("cwop_by_cwop_id")) := by
  simp only [wxLatlonStage]
  repeat' split
  all_goals first
    | exact hst
    | exact hsome
    | exact hkw
    | exact ne_cwop_none
    | exact ne_cwop_whereis
    | exact ne_cwop_repeater
    | exact ne_cwop_osm
    | exact ne_cwop_fortune
    | exact ne_cwop_email
    | exact ne_cwop_metar
    | exact ne_cwop_taf
    | exact ne_cwop_wx
    | exact ne_cwop_latlon
    | simp_all


theorem wxCallsignStage_what_ne (env : Env) (lang : Str) (st : WxSt)
    (hst : st.what ≠ some (S ("cwop_by_cwop_id"))) :
    (wxCallsignStage env lang st).what ≠ some (S ("cwop_by_cwop_id")) := by
  unfold wxCallsignStage
  rcases h1 : reSearch wxCsSsidPat st.msg with _ | c1
  · rcases h2 : reSearch wxCsPat st.msg with _ | c2
    · simp only [h1, h2]
      repeat' split
      all_goals first
        | exact hst
        | exact hsome
        | exact hkw
        | exact ne_cwop_none
        | exact ne_cwop_whereis
        | exact ne_cwop_repeater
        | exact ne_cwop_osm
        | exact ne_cwop_fortune
        | exact ne_cwop_email
        | exact ne_cwop_metar
        | exact ne_cwop_taf
        | exact ne_cwop_wx
        | exact ne_cwop_latlon
        | simp_all
    · simp only [h1, h2]
      repeat' split
      all_goals first
        | exact hst
        | exact hsome
        | exact hkw
        | exact ne_cwop_none
        | exact ne_cwop_whereis
        | exact ne_cwop_repeater
        | exact ne_cwop_osm
        | exact ne_cwop_fortune
        | exact ne_cwop_email
        | exact ne_cwop_metar
        | exact ne_cwop_taf
        | exact ne_cwop_wx
        | exact ne_cwop_latlon
        | simp_all
  · simp only [h1]
    repeat' split
    all_goals first
      | exact hst
      | exact hsome
      | exact hkw
      | exact ne_cwop_none
      | exact ne_cwop_whereis
      | exact ne_cwop_repeater
      | exact ne_cwop_osm
      | exact ne_cwop_fortune
      | exact ne_cwop_email
      | exact ne_cwop_metar
      | exact ne_cwop_taf
      | exact ne_cwop_wx
      | exact ne_cwop_latlon
      | simp_all

theorem wx_what_ne (env : Env) (m cs lang : Str) :
    ((parse_what_keyword_wx env m cs lang).2.2).what ≠
      some (S ("cwop_by_cwop_id")) := by
  unfold parse_what_keyword_wx
  dsimp only
  refine wxCallsignStage_what_ne _ _ _ ?_
  refine wxLatlonStage_what_ne _ _ _ ?_
  refine wxGridStage_what_ne _ _ _ ?_
  refine wxGridStage_what_ne _ _ _ ?_
  refine wxZipBareStage_what_ne _ _ _ ?_
  refine wxZipKwStage_what_ne _ _ _ ?_
  refine wxAddrStage_what_ne _ _ _ ?_
  exact ne_cwop_none

-- ### The call-sign multi-command rule and the chain argument

set_option maxHeartbeats 1600000 in
theorem csm_what_ne (env : Env) (m cs lang : Str) :
    ((parse_what_keyword_callsign_multi env m cs lang).2.2).what ≠
      some (S ("cwop_by_cwop_id")) := by
  unfold parse_what_keyword_callsign_multi
  rcases h1 : reSearch csmPat1 m with _ | p1
  · rcases h2 : reSearch csmPat2 m with _ | p2
    · rcases h3 : reSearch csmPat3 m with _ | p3
      · rcases h4 : reSearch csmPat4 m with _ | kw
        · simp [csmInit]
        · obtain ⟨w, hw, hlow⟩ := csmPat4_capture h4
          have hne : pyLower kw ≠ S ("cwop_by_cwop_id") := by
            rw [hlow]
            simp only [kwCsm, List.mem_cons, List.not_mem_nil, or_false] at hw
            rcases hw with rfl | rfl | rfl | rfl | rfl | rfl | rfl | rfl <;>
              decide
          have hsome : some (pyLower kw) ≠ some (S ("cwop_by_cwop_id")) :=
            fun he => hne (Option.some.inj he)
          dsimp only
          simp only [csmInit, apply_ite (@Prod.snd Bool (Bool × CsmRD)),
            apply_ite (@Prod.snd Bool CsmRD), apply_ite CsmRD.what]
          repeat' refine ite_ne_of ?_ ?_
          all_goals first
            | exact hsome
            | exact ne_cwop_wx
            | exact ne_cwop_latlon
      · rcases p3 with ⟨kw, tok⟩
        obtain ⟨w, hw, hlow⟩ := csmPat3_capture h3
        have hne : pyLower kw ≠ S ("cwop_by_cwop_id") := by
          rw [hlow]
          simp only [kwCsm, List.mem_cons, List.not_mem_nil, or_false] at hw
          rcases hw with rfl | rfl | rfl | rfl | rfl | rfl | rfl | rfl <;>
            decide
        have hsome : some (pyLower kw) ≠ some (S ("cwop_by_cwop_id")) :=
          fun he => hne (Option.some.inj he)
        dsimp only
        simp only [csmInit, apply_ite (@Prod.snd Bool (Bool × CsmRD)),
          apply_ite (@Prod.snd Bool CsmRD), apply_ite CsmRD.what]
        repeat' refine ite_ne_of ?_ ?_
        all_goals first
          | exact hsome
          | exact ne_cwop_wx
          | exact ne_cwop_latlon
    · rcases p2 with ⟨kw, c⟩
      obtain ⟨w, hw, hlow⟩ := csmPat2_capture h2
      have hne : pyLower kw ≠ S ("cwop_by_cwop_id") := by
        rw [hlow]
        simp only [kwCsm, List.mem_cons, List.not_mem_nil, or_false] at hw
        rcases hw with rfl | rfl | rfl | rfl | rfl | rfl | rfl | rfl <;>
          decide
      have hsome : some (pyLower kw) ≠ some (S ("cwop_by_cwop_id")) :=
        fun he => hne (Option.some.inj he)
      dsimp only
      simp only [csmInit, apply_ite (@Prod.snd Bool (Bool × CsmRD)),
        apply_ite (@Prod.snd Bool CsmRD), apply_ite CsmRD.what]
      repeat' refine ite_ne_of ?_ ?_
      all_goals first
        | exact hsome
        | exact ne_cwop_wx
        | exact ne_cwop_latlon
  · rcases p1 with ⟨kw, c⟩
    obtain ⟨w, hw, hlow⟩ := csmPat1_capture h1
    have hne : pyLower kw ≠ S ("cwop_by_cwop_id") := by
      rw [hlow]
      simp only [kwCsm, List.mem_cons, List.not_mem_nil, or_false] at hw
      rcases hw with rfl | rfl | rfl | rfl | rfl | rfl | rfl | rfl <;>
        decide
    have hsome : some (pyLower kw) ≠ some (S ("cwop_by_cwop_id")) :=
      fun he => hne (Option.some.inj he)
    dsimp only
    simp only [csmInit, apply_ite (@Prod.snd Bool (Bool × CsmRD)),
      apply_ite (@Prod.snd Bool CsmRD), apply_ite CsmRD.what]
    repeat' refine ite_ne_of ?_ ?_
    all_goals first
      | exact hsome
      | exact ne_cwop_wx
      | exact ne_cwop_latlon

set_option maxHeartbeats 1600000 in
/-- If the generic-token pattern matches anywhere in the message, the
call-sign multi-command handler claims it (possibly via an earlier
pattern). -/
theorem csm_finds (env : Env) (m cs lang : Str) {pp : Str × Str}
    (h3 : reSearch csmPat3 m = some pp) :
    (parse_what_keyword_callsign_multi env m cs lang).1 = true := by
  unfold parse_what_keyword_callsign_multi
  rcases h1 : reSearch csmPat1 m with _ | p1
  · rcases h2 : reSearch csmPat2 m with _ | p2
    · rcases pp with ⟨kw, tok⟩
      rw [h3]
      dsimp only
      simp only [apply_ite (@Prod.fst Bool (Bool × CsmRD)), ite_self]
      all_goals rfl
    · rcases p2 with ⟨kw, c⟩
      dsimp only
      simp only [apply_ite (@Prod.fst Bool (Bool × CsmRD)), ite_self]
      all_goals rfl
  · rcases p1 with ⟨kw, c⟩
    dsimp only
    simp only [apply_ite (@Prod.fst Bool (Bool × CsmRD)), ite_self]
    all_goals rfl

/-- A chain step never produces the CWOP-by-id intent when neither the
incoming state nor the rule's own dictionary carries it. -/
theorem chainStep_what_ne (r : Rule) (s : PState)
    (hr : ((r s).2.2).what ≠ some (S ("cwop_by_cwop_id")))
    (hs : s.what ≠ some (S ("cwop_by_cwop_id"))) :
    (chainStep r s).what ≠ some (S ("cwop_by_cwop_id")) := by
  simp only [chainStep]
  repeat' split
  all_goals first
    | exact hs
    | exact hr

/-- Folding rules that all preserve the no-CWOP-by-id property preserves
it. -/
theorem runChain_what_ne (rules : List Rule)
    (h : rules.Forall (fun r => ∀ t : PState,
      t.what ≠ some (S ("cwop_by_cwop_id")) →
      (chainStep r t).what ≠ some (S ("cwop_by_cwop_id"))))
    (s : PState) (hs : s.what ≠ some (S ("cwop_by_cwop_id"))) :
    (runChain rules s).what ≠ some (S ("cwop_by_cwop_id")) := by
  induction rules generalizing s with
  | nil => exact hs
  | cons r rs ih =>
    rw [List.forall_cons] at h
    rw [runChain_cons]
    exact ih h.2 (chainStep r s) (h.1 s hs)

theorem satpassRule_what_ne (env : Env) (s : PState)
    (hs : s.what ≠ some (S ("cwop_by_cwop_id"))) :
    (chainStep (satpassRule env) s).what ≠ some (S ("cwop_by_cwop_id")) :=
  chainStep_what_ne _ _ (satpass_what_ne env s.msg s.users_callsign) hs

theorem repeaterRule_what_ne (env : Env) (s : PState)
    (hs : s.what ≠ some (S ("cwop_by_cwop_id"))) :
    (chainStep (repeaterRule env) s).what ≠ some (S ("cwop_by_cwop_id")) :=
  chainStep_what_ne _ _ (repeater_what_ne env s.msg s.users_callsign) hs

theorem osmRule_what_ne (env : Env) (s : PState)
    (hs : s.what ≠ some (S ("cwop_by_cwop_id"))) :
    (chainStep (osmRule env) s).what ≠ some (S ("cwop_by_cwop_id")) :=
  chainStep_what_ne _ _ (osm_what_ne env s.msg s.users_callsign) hs

theorem dapnetRule_what_ne (s : PState)
    (hs : s.what ≠ some (S ("cwop_by_cwop_id"))) :
    (chainStep dapnetRule s).what ≠ some (S ("cwop_by_cwop_id")) :=
  chainStep_what_ne _ _ (dapnet_what_ne s.msg s.users_callsign) hs

theorem fortuneRule_what_ne (s : PState)
    (hs : s.what ≠ some (S ("cwop_by_cwop_id"))) :
    (chainStep fortuneRule s).what ≠ some (S ("cwop_by_cwop_id")) :=
  chainStep_what_ne _ _ (fortune_what_ne s.msg) hs

theorem emailRule_what_ne (env : Env) (s : PState)
    (hs : s.what ≠ some (S ("cwop_by_cwop_id"))) :
    (chainStep (emailRule env) s).what ≠ some (S ("cwop_by_cwop_id")) :=
  chainStep_what_ne _ _ (email_what_ne env s.msg s.users_callsign s.language) hs

theorem metarRule_what_ne (env : Env) (s : PState)
    (hs : s.what ≠ some (S ("cwop_by_cwop_id"))) :
    (chainStep (metarRule env) s).what ≠ some (S ("cwop_by_cwop_id")) :=
  chainStep_what_ne _ _ (metar_what_ne env s.msg s.users_callsign) hs

theorem wxRule_what_ne (env : Env) (s : PState)
    (hs : s.what ≠ some (S ("cwop_by_cwop_id"))) :
    (chainStep (wxRule env) s).what ≠ some (S ("cwop_by_cwop_id")) :=
  chainStep_what_ne _ _ (wx_what_ne env s.msg s.users_callsign s.language) hs

/-- Walking the whole keyword chain never produces the CWOP-by-id intent:
the dedicated rule is shadowed by the call-sign multi-command rule and every
other rule reports a different intent. -/
theorem chain_what_ne (env : Env) (s0 : PState)
    (hw : s0.what ≠ some (S ("cwop_by_cwop_id"))) :
    (runChain (handlerChain env) s0).what ≠ some (S ("cwop_by_cwop_id")) := by
  by_cases hfr : s0.found_my_duty_roster = true ∨ s0.err = true
  · rw [runChain_frozen _ _ hfr]
    exact hw
  · push_neg at hfr
    have hr0 : s0.found_my_duty_roster = false := by
      rcases hb : s0.found_my_duty_roster
      · rfl
      · exact absurd hb hfr.1
    have he0 : s0.err = false := by
      rcases hb : s0.err
      · rfl
      · exact absurd hb hfr.2
    have htail : ∀ t : PState, t.what ≠ some (S ("cwop_by_cwop_id")) →
        (runChain [satpassRule env, repeaterRule env, osmRule env,
          dapnetRule, fortuneRule, emailRule env, metarRule env, wxRule env]
          t).what ≠ some (S ("cwop_by_cwop_id")) := by
      intro t ht
      refine runChain_what_ne _ ?_ t ht
      exact ⟨satpassRule_what_ne env, repeaterRule_what_ne env,
        osmRule_what_ne env, dapnetRule_what_ne, fortuneRule_what_ne,
        emailRule_what_ne env, metarRule_what_ne env, wxRule_what_ne env⟩
    rw [show handlerChain env =
      csmRule env :: whereamiRule env :: cwopIdRule ::
        [satpassRule env, repeaterRule env, osmRule env, dapnetRule,
         fortuneRule, emailRule env, metarRule env, wxRule env] from rfl]
    rw [runChain_cons]
    by_cases hf : ((csmRule env s0).1 || (csmRule env s0).2.1) = true
    · have hstep : chainStep (csmRule env) s0 =
          { (csmRule env s0).2.2 with
            found_my_duty_roster := (csmRule env s0).1,
            err := (csmRule env s0).2.1 } := by
        simp [chainStep, hr0, he0, hf]
      rw [hstep]
      rw [runChain_frozen]
      · exact csm_what_ne env s0.msg s0.users_callsign s0.language
      · have hone := hf
        rw [Bool.or_eq_true] at hone
        rcases hone with h | h
        · exact Or.inl h
        · exact Or.inr h
    · have h1 : (csmRule env s0).1 = false := by
        rcases hb : (csmRule env s0).1
        · rfl
        · rw [hb] at hf
          simp at hf
      have h2 : (csmRule env s0).2.1 = false := by
        rcases hb : (csmRule env s0).2.1
        · rfl
        · rw [hb] at hf
          simp at hf
      rw [chainStep_nofire _ _ h1 h2]
      have hcs3 : reSearch csmPat3 s0.msg = none := by
        rcases hc : reSearch csmPat3 s0.msg with _ | pp
        · rfl
        · have := csm_finds env s0.msg s0.users_callsign s0.language hc
          rw [show (parse_what_keyword_callsign_multi env s0.msg
            s0.users_callsign s0.language).1 = (csmRule env s0).1 from rfl]
            at this
          rw [h1] at this
          exact absurd this (by simp)
      rw [runChain_cons]
      by_cases hf2 : ((whereamiRule env s0).1 || (whereamiRule env s0).2.1) = true
      · have hstep2 : chainStep (whereamiRule env) s0 =
            { (whereamiRule env s0).2.2 with
              found_my_duty_roster := (whereamiRule env s0).1,
              err := (whereamiRule env s0).2.1 } := by
          simp [chainStep, hr0, he0, hf2]
        rw [hstep2]
        rw [runChain_frozen]
        · exact whereami_what_ne env s0.msg s0.users_callsign s0.language
        · have hone := hf2
          rw [Bool.or_eq_true] at hone
          rcases hone with h | h
          · exact Or.inl h
          · exact Or.inr h
      · have h1w : (whereamiRule env s0).1 = false := by
          rcases hb : (whereamiRule env s0).1
          · rfl
          · rw [hb] at hf2
            simp at hf2
        have h2w : (whereamiRule env s0).2.1 = false := by
          rcases hb : (whereamiRule env s0).2.1
          · rfl
          · rw [hb] at hf2
            simp at hf2
        rw [chainStep_nofire _ _ h1w h2w]
        have hcw : reSearch cwopIdPat s0.msg = none := by
          rcases hc : reSearch cwopIdPat s0.msg with _ | tok
          · rfl
          · have := cwopId_implies_csm3
              (show (reSearch cwopIdPat s0.msg).isSome = true by rw [hc]; rfl)
            rw [hcs3] at this
            exact absurd this (by simp)
        have h1c : (cwopIdRule s0).1 = false := by
          simp [cwopIdRule, parse_what_keyword_cwop_id, hcw]
        have h2c : (cwopIdRule s0).2.1 = false := by
          simp [cwopIdRule, parse_what_keyword_cwop_id, hcw]
        rw [runChain_cons, chainStep_nofire _ _ h1c h2c]
        exact htail s0 hw

-- ### The surrounding pipeline never introduces the CWOP-by-id intent

/-- The initial state carries no intent. -/
theorem initialState_what (env : Env) (m cs : Str) :
    (initialState env m cs).what = none := by
  unfold initialState
  repeat' split
  all_goals rfl

/-- The help rule only ever reports the help intent. -/
theorem help_what_ne (s : PState)
    (hs : s.what ≠ some (S ("cwop_by_cwop_id"))) :
    ((helpRule s).2.2).what ≠ some (S ("cwop_by_cwop_id")) := by
  unfold helpRule
  repeat' split
  all_goals first
    | exact hs
    | exact ne_cwop_help

theorem helpRule_what_ne (s : PState)
    (hs : s.what ≠ some (S ("cwop_by_cwop_id"))) :
    (chainStep helpRule s).what ≠ some (S ("cwop_by_cwop_id")) :=
  chainStep_what_ne helpRule s (help_what_ne s hs) hs

/-- The `when` phase does not touch the intent field. -/
theorem whenPhase_what_eq (env : Env) (s : PState) :
    (whenPhase env s).what = s.what := by
  simp only [whenPhase]
  split <;> rfl

/-- The `when_daytime` phase does not touch the intent field. -/
theorem daytimePhase_what_eq (s : PState) :
    (daytimePhase s).what = s.what := by
  simp only [daytimePhase]
  split <;> rfl

/-- The finalizer either keeps the intent or overwrites it with the implicit
weather default. -/
theorem finalize_what_cases (env : Env) (s : PState) :
    (finalize env s).2.what = some (S ("wx")) ∨
      (finalize env s).2.what = s.what := by
  unfold finalize
  lift_lets
  extract_lets a b c d e f g h i j k
  have ha : a.what = s.what := by
    unfold_let a
    split <;> rfl
  have hb : b.what = s.what := by
    unfold_let b
    split
    · exact ha
    · rfl
  have hc : c.what = s.what := by
    unfold_let c
    split <;> exact hb
  have hd : d.what = s.what := by
    unfold_let d
    split <;> exact hc
  have he : e.what = s.what := by
    unfold_let e
    repeat' split
    all_goals exact hd
  have hf : f.what = some (S ("wx")) ∨ f.what = s.what := by
    unfold_let f
    split
    · left
      rfl
    · right
      exact he
  have hj : j.what = f.what := by
    unfold_let j
    split <;> rfl
  have hk : k.what = f.what := by
    unfold_let k
    repeat' first
      | split
      | dsimp only
    all_goals first
      | rfl
      | exact hj
  dsimp only
  rcases hf with hf | hf
  · left
    rw [hk, hf]
  · right
    rw [hk, hf]

/-- **C10** For every environment, input message and sender callsign, the
final `what` intent of the parser is never `cwop_by_cwop_id`: wherever the
dedicated CWOP-by-id pattern could match, the call-sign multi-command rule's
generic-token pattern matches first and claims (or hard-errors on) the
message, every other rule reports a different intent, and the finalizer can
only overwrite the intent with the implicit weather default. -/
theorem claim_C10_no_cwop_by_cwop_id (env : Env)
    (aprs_message users_callsign : Str) :
    (parse_input_message env aprs_message users_callsign).2.what ≠
      some (S ("cwop_by_cwop_id")) := by
  unfold parse_input_message
  have hpre : (preFinalState env aprs_message users_callsign).what ≠
      some (S ("cwop_by_cwop_id")) := by
    unfold preFinalState
    apply chain_what_ne
    unfold preChainState
    rw [daytimePhase_what_eq, whenPhase_what_eq]
    unfold postHelpState
    apply helpRule_what_ne
    rw [initialState_what]
    exact ne_cwop_none
  rcases finalize_what_cases env (preFinalState env aprs_message users_callsign)
    with hf | hf
  · rw [hf]
    exact ne_cwop_wx
  · rw [hf]
    exact hpre
